import Mathlib

/-!
# USB jiggler: control-request engine (usb_jiggler.c, usb_log.c)

A shallow embedding of the control-transfer handlers of the composite HID
mouse/keyboard device: the setup dispatchers `std_stp`, `cls_stp`, `vnd_stp`,
their per-request handlers, the endpoint-index check and the data tables they
serve.  State that the C code keeps in globals (statistics, the reply scratch
union, the current setup packet, the log queue) is passed explicitly, and so
is the state of the USB device port driver that the handlers query and change.

Integers are natural numbers; the two statistics counters are
`unsigned short` and wrap modulo 2^16, which is written out at the increment.
-/

set_option autoImplicit false

namespace UsbJiggler

/-! ## Build configuration (sysconf.h) -/

/-- Descriptor of one endpoint (struct usb_endp_desc, 7 bytes on the wire). -/
structure usb_endp_desc where
  size : Nat
  type : Nat
  b_endpoint_address : Nat
  bm_attributes : Nat
  w_max_packet_size : Nat
  b_interval : Nat

/-- The conditional-compilation switches and board constants that
usb_jiggler.c takes from sysconf.h, together with the one descriptor helper of
usb_std_def.h whose body the handlers do not depend on. -/
structure sysconf where
  USB_JIG_KEYB_IFACE : Bool
  LOG_KEYB_LEDS : Bool
  USB_LOG_CTL_REQ_STP_EVENTS : Bool
  USB_LOG_CTL_REQ_CMD_EVENTS : Bool
  USB_JIG_VENDORID : Nat
  USB_JIG_PRODUCTID : Nat
  USB_JIG_IN_M_ENDP_NUM : Nat
  USB_JIG_IN_M_ENDP_MAX_PKT_SIZE : Nat
  USB_JIG_IN_M_ENDP_POLLED_MS : Nat
  USB_JIG_IN_K_ENDP_NUM : Nat
  USB_JIG_IN_K_ENDP_MAX_PKT_SIZE : Nat
  USB_JIG_IN_K_ENDP_POLLED_MS : Nat
  USB_LOG_EVENTS_QUEUE_SIZE : Nat
  usb_endp_desc_get_ep_type : usb_endp_desc → Nat

/-! ## Constants of usb_std_def.h and usb_hid_def.h

The two headers are not in the source tree; the values are the ones fixed by
USB 2.0 chapter 9 and HID 1.11, which the descriptors and requests of this
device follow bit-exactly. -/

/-- Modelled from the spec: standard request code GET_STATUS (usb_std_def.h is absent). -/
@[simp] def USB_GET_STATUS : Nat := 0
/-- Modelled from the spec: standard request code CLEAR_FEATURE (usb_std_def.h is absent). -/
@[simp] def USB_CLEAR_FEATURE : Nat := 1
/-- Modelled from the spec: standard request code SET_FEATURE (usb_std_def.h is absent). -/
@[simp] def USB_SET_FEATURE : Nat := 3
/-- Modelled from the spec: standard request code SET_ADDRESS (usb_std_def.h is absent). -/
@[simp] def USB_SET_ADDRESS : Nat := 5
/-- Modelled from the spec: standard request code GET_DESCRIPTOR (usb_std_def.h is absent). -/
@[simp] def USB_GET_DESCRIPTOR : Nat := 6
/-- Modelled from the spec: standard request code SET_DESCRIPTOR (usb_std_def.h is absent). -/
@[simp] def USB_SET_DESCRIPTOR : Nat := 7
/-- Modelled from the spec: standard request code GET_CONFIGURATION (usb_std_def.h is absent). -/
@[simp] def USB_GET_CONFIGURATION : Nat := 8
/-- Modelled from the spec: standard request code SET_CONFIGURATION (usb_std_def.h is absent). -/
@[simp] def USB_SET_CONFIGURATION : Nat := 9
/-- Modelled from the spec: standard request code GET_INTERFACE (usb_std_def.h is absent). -/
@[simp] def USB_GET_INTERFACE : Nat := 10
/-- Modelled from the spec: standard request code SET_INTERFACE (usb_std_def.h is absent). -/
@[simp] def USB_SET_INTERFACE : Nat := 11
/-- Modelled from the spec: standard request code SYNCH_FRAME (usb_std_def.h is absent). -/
@[simp] def USB_SYNCH_FRAME : Nat := 12

/-- Modelled from the spec: recipient code of the device (enum usb_ctl_req_recp is absent). -/
@[simp] def USB_DEVICE_RECIPIENT : Nat := 0
/-- Modelled from the spec: recipient code of an interface (enum usb_ctl_req_recp is absent). -/
@[simp] def USB_IFACE_RECIPIENT : Nat := 1
/-- Modelled from the spec: recipient code of an endpoint (enum usb_ctl_req_recp is absent). -/
@[simp] def USB_ENDP_RECIPIENT : Nat := 2
/-- Modelled from the spec: recipient code "other" (enum usb_ctl_req_recp is absent). -/
@[simp] def USB_OTHER_RECIPIENT : Nat := 3

/-- Modelled from the spec: request type "standard" (usb_std_def.h is absent). -/
@[simp] def USB_STANDARD_REQUEST : Nat := 0
/-- Modelled from the spec: request type "class" (usb_std_def.h is absent). -/
@[simp] def USB_CLASS_REQUEST : Nat := 1

/-- Modelled from the spec: descriptor type DEVICE (usb_std_def.h is absent). -/
@[simp] def USB_DEV_DESC : Nat := 1
/-- Modelled from the spec: descriptor type CONFIGURATION (usb_std_def.h is absent). -/
@[simp] def USB_CONF_DESC : Nat := 2
/-- Modelled from the spec: descriptor type STRING (usb_std_def.h is absent). -/
@[simp] def USB_STR_DESC : Nat := 3
/-- Modelled from the spec: descriptor type INTERFACE (usb_std_def.h is absent). -/
@[simp] def USB_IFACE_DESC : Nat := 4
/-- Modelled from the spec: descriptor type ENDPOINT (usb_std_def.h is absent). -/
@[simp] def USB_ENDP_DESC : Nat := 5
/-- Modelled from the spec: descriptor type DEVICE_QUALIFIER (usb_std_def.h is absent). -/
@[simp] def USB_DEV_QUAL_DESC : Nat := 6
/-- Modelled from the spec: descriptor type OTHER_SPEED_CONFIGURATION (usb_std_def.h is absent). -/
@[simp] def USB_ALT_SPEED_CONF_DESC : Nat := 7

/-- Modelled from the spec: feature selector ENDPOINT_HALT (usb_std_def.h is absent). -/
@[simp] def USB_ENDP_HALT_FEAT : Nat := 0
/-- Modelled from the spec: feature selector DEVICE_REMOTE_WAKEUP (usb_std_def.h is absent). -/
@[simp] def USB_DEV_REM_WKUP_FEAT : Nat := 1
/-- Modelled from the spec: feature selector TEST_MODE (usb_std_def.h is absent). -/
@[simp] def USB_TEST_MODE_FEAT : Nat := 2

/-- Modelled from the spec: bcdUSB of USB 2.00 (usb_std_def.h is absent). -/
@[simp] def USB_STD_USB2_00_VER_BCD : Nat := 0x0200
/-- Modelled from the spec: language id English (US), 0x0409, as its two
little-endian bytes in a string descriptor (usb_std_def.h is absent). -/
@[simp] def USB_STD_EN_US_CODE : List Nat := [0x09, 0x04]
/-- Modelled from the spec: direction bit of an IN endpoint address (usb_std_def.h is absent). -/
@[simp] def USB_STD_IN_ENDP : Nat := 0x80
/-- Modelled from the spec: transfer type "interrupt" in bmAttributes (usb_std_def.h is absent). -/
@[simp] def USB_STD_TRANS_INTERRUPT : Nat := 3
/-- Modelled from the spec: bmAttributes of a bus-powered device without
remote wakeup (usb_std_def.h is absent). -/
@[simp] def USB_STD_BUS_POWER_NO_RWAKE : Nat := 0x80

/-- Modelled from the spec: the macro usb_std_endp_addr of the absent
usb_std_def.h, which joins an endpoint number and a direction bit into
bEndpointAddress. -/
def usb_std_endp_addr (num dir : Nat) : Nat := num ||| dir

/-- Modelled from the spec: the macro usb_std_max_power_mamp of the absent
usb_std_def.h; bMaxPower counts units of 2 mA. -/
def usb_std_max_power_mamp (ma : Nat) : Nat := ma / 2

/-- Modelled from the spec: the macro usb_std_str_desc_size of the absent
usb_std_def.h: two header bytes and two bytes for each UTF-16 code unit. -/
def usb_std_str_desc_size (n : Nat) : Nat := 2 + 2 * n

/-- Modelled from the spec: the macro usb_std_unicode of the absent
usb_std_def.h: an ASCII character as one little-endian UTF-16 code unit. -/
def usb_std_unicode (ch : Char) : List Nat := [ch.toNat, 0]

/-- Modelled from the spec: HID class code (usb_hid_def.h is absent). -/
@[simp] def USB_HID_CLASS : Nat := 3
/-- Modelled from the spec: HID subclass "no boot" (usb_hid_def.h is absent). -/
@[simp] def USB_HID_SUBCLASS_NO_BOOT : Nat := 0
/-- Modelled from the spec: bcdHID of HID 1.11 (usb_hid_def.h is absent). -/
@[simp] def USB_HID_REL_1_11_VER_BCD : Nat := 0x0111
/-- Modelled from the spec: descriptor type HID (usb_hid_def.h is absent). -/
@[simp] def USB_HID_DESC : Nat := 0x21
/-- Modelled from the spec: descriptor type HID report (usb_hid_def.h is absent). -/
@[simp] def USB_HID_REPORT_DESC : Nat := 0x22
/-- Modelled from the spec: descriptor type HID physical (usb_hid_def.h is absent). -/
@[simp] def USB_HID_PHYSICAL_DESC : Nat := 0x23
/-- Modelled from the spec: HID report type Input (usb_hid_def.h is absent). -/
@[simp] def USB_HID_REPORT_IN : Nat := 1
/-- Modelled from the spec: HID report type Output (usb_hid_def.h is absent). -/
@[simp] def USB_HID_REPORT_OUT : Nat := 2
/-- Modelled from the spec: HID request code GET_REPORT (usb_hid_def.h is absent). -/
@[simp] def USB_HID_GET_REPORT : Nat := 1
/-- Modelled from the spec: HID request code GET_IDLE (usb_hid_def.h is absent). -/
@[simp] def USB_HID_GET_IDLE : Nat := 2
/-- Modelled from the spec: HID request code GET_PROTOCOL (usb_hid_def.h is absent). -/
@[simp] def USB_HID_GET_PROTOCOL : Nat := 3
/-- Modelled from the spec: HID request code SET_REPORT (usb_hid_def.h is absent). -/
@[simp] def USB_HID_SET_REPORT : Nat := 9
/-- Modelled from the spec: HID request code SET_IDLE (usb_hid_def.h is absent). -/
@[simp] def USB_HID_SET_IDLE : Nat := 10
/-- Modelled from the spec: HID request code SET_PROTOCOL (usb_hid_def.h is absent). -/
@[simp] def USB_HID_SET_PROTOCOL : Nat := 11

/-! ## Data model -/

/-- The setup packet (struct usb_stp_pkt of the absent usb_ctl_req.h): two
8-bit and three 16-bit fields. -/
structure usb_stp_pkt where
  bm_request_type : Nat
  b_request : Nat
  w_value : Nat
  w_index : Nat
  w_length : Nat
deriving DecidableEq, Repr

/-- A setup packet whose fields fit their C types. -/
def usb_stp_pkt.wf (sp : usb_stp_pkt) : Prop :=
  sp.bm_request_type < 256 ∧ sp.b_request < 256 ∧
  sp.w_value < 65536 ∧ sp.w_index < 65536 ∧ sp.w_length < 65536

instance (sp : usb_stp_pkt) : Decidable sp.wf := by
  unfold usb_stp_pkt.wf; infer_instance

/-- Direction of the data stage (enum of the absent udp.h). -/
inductive udp_ctl_trans_dir where
  | UDP_CTL_TRANS_IN
  | UDP_CTL_TRANS_OUT
deriving DecidableEq, Repr

/-- The object a result's `buf` pointer refers to. -/
inductive buf_ref where
  | NULL
  | dev_desc
  | conf_descs
  | str_desc (idx : Nat)
  | m_rep_desc
  | k_rep_desc
  | ctl_rpl
  | get_idle_rpl
  | mouse_report
  | keyb_report
  | keyb_led_report
deriving DecidableEq, Repr

/-- The control request result (struct usb_ctl_req of the absent
usb_ctl_req.h).  `trans_dir = none` is the value left by the initialiser
`{.valid = FALSE}`, which zeroes the fields it does not name. -/
structure usb_ctl_req where
  valid : Bool
  buf : buf_ref
  nmb : Nat
  trans_nmb : Nat
  trans_dir : Option udp_ctl_trans_dir
deriving DecidableEq, Repr

/-- The initialiser `{.valid = FALSE}`. -/
def usb_ctl_req.init : usb_ctl_req :=
  { valid := false, buf := buf_ref.NULL, nmb := 0, trans_nmb := 0, trans_dir := none }

/-- Enumeration state held by the device port driver (enum udp_state). -/
inductive udp_state where
  | UDP_STATE_DEFAULT
  | UDP_STATE_ADDRESSED
  | UDP_STATE_CONFIGURED
deriving DecidableEq, Repr

/-- Direction of an endpoint as the driver reports it (enum of udp.h). -/
inductive udp_endp_dir where
  | UDP_ENDP_DIR_IN
  | UDP_ENDP_DIR_OUT
deriving DecidableEq, Repr

/-- A mutating request made to the device port driver. -/
inductive udp_call where
  | enable_udp_endp (ep : Nat) (ep_type : Nat)
  | disable_udp_endp (ep : Nat)
  | set_udp_confg (b : Bool)
  | un_halt_udp_endp (ep : Nat)
  | halt_udp_endp (ep : Nat)
  | set_rmt_wkup_feat (b : Bool)
  | set_udp_addr (addr : Nat)
deriving DecidableEq, Repr

/-- Modelled from the spec: the state of the device port driver (udp.c is not
part of the source tree).  It holds the enumeration state, the endpoint
enable, halt and direction facts and the remote-wakeup feature; `calls` lists
every mutating request made so far, oldest first. -/
structure udp where
  state : udp_state
  enabled : Nat → Bool
  halted : Nat → Bool
  dir : Nat → udp_endp_dir
  rmt_wkup : Bool
  addr : Nat
  calls : List udp_call

/-- Modelled from the spec: get_udp_state of the absent udp.c. -/
def get_udp_state (u : udp) : udp_state := u.state

/-- Modelled from the spec: is_udp_endp_enabled of the absent udp.c. -/
def is_udp_endp_enabled (u : udp) (ep : Nat) : Bool := u.enabled ep

/-- Modelled from the spec: is_udp_endp_halted of the absent udp.c. -/
def is_udp_endp_halted (u : udp) (ep : Nat) : Bool := u.halted ep

/-- Modelled from the spec: get_udp_endp_dir of the absent udp.c. -/
def get_udp_endp_dir (u : udp) (ep : Nat) : udp_endp_dir := u.dir ep

/-- Modelled from the spec: get_rmt_wkup_feat of the absent udp.c. -/
def get_rmt_wkup_feat (u : udp) : Bool := u.rmt_wkup

/-- Modelled from the spec: enable_udp_endp of the absent udp.c; the endpoint
becomes enabled. -/
def enable_udp_endp (ep ep_type : Nat) (u : udp) : udp :=
  { u with enabled := fun n => if n = ep then true else u.enabled n,
           calls := u.calls ++ [udp_call.enable_udp_endp ep ep_type] }

/-- Modelled from the spec: disable_udp_endp of the absent udp.c; the endpoint
becomes disabled. -/
def disable_udp_endp (ep : Nat) (u : udp) : udp :=
  { u with enabled := fun n => if n = ep then false else u.enabled n,
           calls := u.calls ++ [udp_call.disable_udp_endp ep] }

/-- Modelled from the spec: set_udp_confg of the absent udp.c; TRUE marks the
device Configured, FALSE returns it to Addressed. -/
def set_udp_confg (b : Bool) (u : udp) : udp :=
  { u with state := if b then udp_state.UDP_STATE_CONFIGURED else udp_state.UDP_STATE_ADDRESSED,
           calls := u.calls ++ [udp_call.set_udp_confg b] }

/-- Modelled from the spec: un_halt_udp_endp of the absent udp.c. -/
def un_halt_udp_endp (ep : Nat) (u : udp) : udp :=
  { u with halted := fun n => if n = ep then false else u.halted n,
           calls := u.calls ++ [udp_call.un_halt_udp_endp ep] }

/-- Modelled from the spec: halt_udp_endp of the absent udp.c. -/
def halt_udp_endp (ep : Nat) (u : udp) : udp :=
  { u with halted := fun n => if n = ep then true else u.halted n,
           calls := u.calls ++ [udp_call.halt_udp_endp ep] }

/-- Modelled from the spec: set_rmt_wkup_feat of the absent udp.c. -/
def set_rmt_wkup_feat (b : Bool) (u : udp) : udp :=
  { u with rmt_wkup := b, calls := u.calls ++ [udp_call.set_rmt_wkup_feat b] }

/-- Modelled from the spec: set_udp_addr of the absent udp.c; the address is
handed to the hardware, which latches it later, so the enumeration state is
not changed by the call itself. -/
def set_udp_addr (a : Nat) (u : udp) : udp :=
  { u with addr := a, calls := u.calls ++ [udp_call.set_udp_addr a] }

/-- The statistics (struct usb_jiggler_stats): two `unsigned short` counters. -/
structure usb_jiggler_stats where
  stp_err_cnt : Nat
  stp_rej_cnt : Nat
deriving DecidableEq, Repr

/-- Number of values of an `unsigned short` (16 bits on the target). -/
@[simp] def USHRT_NMB : Nat := 65536

/-- Number of values of an `unsigned int` (32 bits on the target). -/
@[simp] def UINT_NMB : Nat := 4294967296

/-- A telemetry event (the two members of union log_entry that
usb_jiggler.c posts). -/
inductive log_entry where
  | usb_ctl_req_stp_event (stp_pkt : usb_stp_pkt)
  | usb_ctl_req_cmd_event (ctl_req_type : Int) (ctl_req_code : Int) (txt : String)
deriving DecidableEq, Repr

/-- The reply scratch `ctl_rpl`: a union of uint8_t conf, uint16_t stat and
uint8_t alt_iface, kept as its two bytes (little-endian target). -/
structure ctl_rpl_bytes where
  b0 : Nat
  b1 : Nat
deriving DecidableEq, Repr

/-- Assignment to the member `ctl_rpl.conf` (also `alt_iface`): the first byte. -/
def ctl_rpl_bytes.set_conf (r : ctl_rpl_bytes) (v : Nat) : ctl_rpl_bytes :=
  { r with b0 := v % 256 }

/-- Assignment to the member `ctl_rpl.stat`: both bytes. -/
def ctl_rpl_bytes.set_stat (_r : ctl_rpl_bytes) (v : Nat) : ctl_rpl_bytes :=
  { b0 := v % 256, b1 := (v / 256) % 256 }

/-- The member `ctl_rpl.stat` read as a 16-bit word. -/
def ctl_rpl_bytes.stat (r : ctl_rpl_bytes) : Nat := r.b0 + 256 * r.b1

/-- All the state the handlers read or write: the driver, the file-scope
variables of usb_jiggler.c and the logger of usb_log.c. -/
structure jig_state where
  udp : udp
  stats : usb_jiggler_stats
  stp_pkt : usb_stp_pkt
  ctl_rpl : ctl_rpl_bytes
  get_idle_rpl : Nat
  mouse_report : List Nat
  keyb_report : List Nat
  keyb_led_report : List Nat
  keyb_led_rep_que : List (List Nat)
  log_que : List log_entry
  qfull_cnt : Nat

/-- The statement `stats.stp_err_cnt++` on an `unsigned short`. -/
def stp_err_cnt_inc (s : jig_state) : jig_state :=
  { s with stats := { s.stats with stp_err_cnt := (s.stats.stp_err_cnt + 1) % USHRT_NMB } }

/-- The statement `stats.stp_rej_cnt++` on an `unsigned short`. -/
def stp_rej_cnt_inc (s : jig_state) : jig_state :=
  { s with stats := { s.stats with stp_rej_cnt := (s.stats.stp_rej_cnt + 1) % USHRT_NMB } }

/-- Applies a driver request to the driver part of the state. -/
def on_udp (f : udp → udp) (s : jig_state) : jig_state := { s with udp := f s.udp }

/-! ## Telemetry (usb_log.c and the log functions of usb_jiggler.c) -/

/-- The function inc_qfull_cnt of usb_log.c, installed as `que_err`. -/
def inc_qfull_cnt (s : jig_state) : jig_state :=
  { s with qfull_cnt := (s.qfull_cnt + 1) % UINT_NMB }

/-- Modelled from the spec: the non-blocking send xQueueSendFromISR of the
scheduler on the logger queue, which holds at most
USB_LOG_EVENTS_QUEUE_SIZE events: the event is appended and pdTRUE returned
when there is room, otherwise nothing is stored. -/
def xQueueSendFromISR_log (c : sysconf) (e : log_entry) (s : jig_state) : Bool × jig_state :=
  if s.log_que.length < c.USB_LOG_EVENTS_QUEUE_SIZE then
    (true, { s with log_que := s.log_que ++ [e] })
  else
    (false, s)

/-- Conversion of a uint8_t to the int8_t fields of an event. -/
def to_int8 (n : Nat) : Int := if n % 256 < 128 then (n % 256 : Nat) else ((n % 256 : Nat) : Int) - 256

/-- The function log_stp_event. -/
def log_stp_event (c : sysconf) (sp : usb_stp_pkt) (s : jig_state) : jig_state :=
  let r := xQueueSendFromISR_log c (log_entry.usb_ctl_req_stp_event sp) s
  if r.1 then r.2 else inc_qfull_cnt r.2

/-- The function log_std_cmd_event. -/
def log_std_cmd_event (c : sysconf) (txt : String) (s : jig_state) : jig_state :=
  let e := log_entry.usb_ctl_req_cmd_event USB_STANDARD_REQUEST (to_int8 s.stp_pkt.b_request) txt
  let r := xQueueSendFromISR_log c e s
  if r.1 then r.2 else inc_qfull_cnt r.2

/-- The function log_cls_cmd_event. -/
def log_cls_cmd_event (c : sysconf) (txt : String) (s : jig_state) : jig_state :=
  let e := log_entry.usb_ctl_req_cmd_event USB_CLASS_REQUEST (to_int8 s.stp_pkt.b_request) txt
  let r := xQueueSendFromISR_log c e s
  if r.1 then r.2 else inc_qfull_cnt r.2

/-- A call of log_stp_event under `#if USB_LOG_CTL_REQ_STP_EVENTS == 1`. -/
def if_log_stp (c : sysconf) (sp : usb_stp_pkt) (s : jig_state) : jig_state :=
  if c.USB_LOG_CTL_REQ_STP_EVENTS then log_stp_event c sp s else s

/-- A call of log_std_cmd_event under `#if USB_LOG_CTL_REQ_CMD_EVENTS == 1`. -/
def if_log_std_cmd (c : sysconf) (txt : String) (s : jig_state) : jig_state :=
  if c.USB_LOG_CTL_REQ_CMD_EVENTS then log_std_cmd_event c txt s else s

/-- A call of log_cls_cmd_event under `#if USB_LOG_CTL_REQ_CMD_EVENTS == 1`. -/
def if_log_cls_cmd (c : sysconf) (txt : String) (s : jig_state) : jig_state :=
  if c.USB_LOG_CTL_REQ_CMD_EVENTS then log_cls_cmd_event c txt s else s

/-- The string `req_err_str`. -/
def req_err_str : String := "error"
/-- The string `req_rej_str`. -/
def req_rej_str : String := "reject"
/-- The string `req_done_str`. -/
def req_done_str : String := "done"

/-! ## Descriptor catalog -/

/-- The device descriptor (struct usb_dev_desc of the absent usb_std_def.h). -/
structure usb_dev_desc where
  size : Nat
  type : Nat
  bcd_usb : Nat
  b_device_class : Nat
  b_device_subclass : Nat
  b_device_protocol : Nat
  b_max_packet_size0 : Nat
  id_vendor : Nat
  id_product : Nat
  bcd_device : Nat
  i_manufacturer : Nat
  i_product : Nat
  i_serial_number : Nat
  b_num_configurations : Nat

/-- The configuration descriptor (struct usb_conf_desc). -/
structure usb_conf_desc where
  size : Nat
  type : Nat
  w_total_size : Nat
  b_num_interfaces : Nat
  b_configuration_value : Nat
  i_configuration : Nat
  bm_attributes : Nat
  b_max_power : Nat

/-- An interface descriptor (struct usb_iface_desc). -/
structure usb_iface_desc where
  size : Nat
  type : Nat
  b_interface_number : Nat
  b_alternate_setting : Nat
  b_num_endpoints : Nat
  b_interface_class : Nat
  b_interface_subclass : Nat
  b_interface_protocol : Nat
  i_interface : Nat

/-- A HID descriptor with one class descriptor (struct usb_hid_desc). -/
structure usb_hid_desc where
  size : Nat
  type : Nat
  bcd_hid : Nat
  country_code : Nat
  num_descs : Nat
  rep_desc_type : Nat
  rep_desc_size : Nat

/-- Modelled from the spec: sizeof(struct usb_dev_desc), 18 bytes (the struct
is declared in the absent usb_std_def.h). -/
@[simp] def sizeof_usb_dev_desc : Nat := 18
/-- Modelled from the spec: sizeof(struct usb_conf_desc), 9 bytes. -/
@[simp] def sizeof_usb_conf_desc : Nat := 9
/-- Modelled from the spec: sizeof(struct usb_iface_desc), 9 bytes. -/
@[simp] def sizeof_usb_iface_desc : Nat := 9
/-- Modelled from the spec: sizeof(struct usb_hid_desc), 9 bytes. -/
@[simp] def sizeof_usb_hid_desc : Nat := 9
/-- Modelled from the spec: sizeof(struct usb_endp_desc), 7 bytes. -/
@[simp] def sizeof_usb_endp_desc : Nat := 7

/-- The table m_rep_desc. -/
def m_rep_desc : List Nat :=
  [0x05, 0x01, 0x09, 0x02, 0xa1, 0x01, 0x09, 0x01, 0xa1, 0x00,
   0x05, 0x09, 0x19, 0x01, 0x29, 0x03, 0x15, 0x00, 0x25, 0x01,
   0x95, 0x03, 0x75, 0x01, 0x81, 0x02, 0x95, 0x01, 0x75, 0x05,
   0x81, 0x03, 0x05, 0x01, 0x09, 0x30, 0x09, 0x31, 0x15, 0x81,
   0x25, 0x7f, 0x75, 0x08, 0x95, 0x02, 0x81, 0x06, 0x09, 0x38,
   0x15, 0x81, 0x25, 0x7f, 0x75, 0x08, 0x95, 0x01, 0x81, 0x06,
   0xc0, 0xc0]

/-- The table k_rep_desc (present when USB_JIG_KEYB_IFACE == 1). -/
def k_rep_desc : List Nat :=
  [0x05, 0x01, 0x09, 0x06, 0xa1, 0x01, 0x05, 0x07, 0x19, 0xe0,
   0x29, 0xe7, 0x15, 0x00, 0x25, 0x01, 0x75, 0x01, 0x95, 0x08,
   0x81, 0x02, 0x95, 0x01, 0x75, 0x08, 0x81, 0x03, 0x95, 0x05,
   0x75, 0x01, 0x05, 0x08, 0x19, 0x01, 0x29, 0x05, 0x91, 0x02,
   0x95, 0x01, 0x75, 0x03, 0x91, 0x03, 0x95, 0x06, 0x75, 0x08,
   0x15, 0x00, 0x25, 0x65, 0x05, 0x07, 0x19, 0x00, 0x29, 0x65,
   0x81, 0x00, 0xc0]

/-- The constant dev_desc. -/
def dev_desc (c : sysconf) : usb_dev_desc :=
  { size := sizeof_usb_dev_desc,
    type := USB_DEV_DESC,
    bcd_usb := USB_STD_USB2_00_VER_BCD,
    b_device_class := 0,
    b_device_subclass := 0,
    b_device_protocol := 0,
    b_max_packet_size0 := 64,
    id_vendor := c.USB_JIG_VENDORID,
    id_product := c.USB_JIG_PRODUCTID,
    bcd_device := 0x0100,
    i_manufacturer := 1,
    i_product := 2,
    i_serial_number := 3,
    b_num_configurations := 1 }

/-- The interface, HID and endpoint descriptors of one HID function. -/
structure jig_iface_descs where
  hid_iface : usb_iface_desc
  hid_desc : usb_hid_desc
  rep_in : usb_endp_desc

/-- The struct jig_conf_descs: the configuration descriptor followed by the
mouse group and, when USB_JIG_KEYB_IFACE == 1, the keyboard group. -/
structure jig_conf_descs where
  conf_desc : usb_conf_desc
  m : jig_iface_descs
  k : Option jig_iface_descs

/-- The value of sizeof(struct jig_conf_descs) (packed). -/
def sizeof_jig_conf_descs (c : sysconf) : Nat :=
  sizeof_usb_conf_desc + (sizeof_usb_iface_desc + sizeof_usb_hid_desc + sizeof_usb_endp_desc) +
  (if c.USB_JIG_KEYB_IFACE then
     sizeof_usb_iface_desc + sizeof_usb_hid_desc + sizeof_usb_endp_desc
   else 0)

/-- The interface group initialisers of conf_descs share everything but the
interface number, the report descriptor size and the endpoint constants. -/
def hid_group (iface_number rep_desc_size endp_num max_pkt polled_ms : Nat) : jig_iface_descs :=
  { hid_iface :=
      { size := sizeof_usb_iface_desc,
        type := USB_IFACE_DESC,
        b_interface_number := iface_number,
        b_alternate_setting := 0,
        b_num_endpoints := 1,
        b_interface_class := USB_HID_CLASS,
        b_interface_subclass := USB_HID_SUBCLASS_NO_BOOT,
        b_interface_protocol := 0,
        i_interface := 0 },
    hid_desc :=
      { size := sizeof_usb_hid_desc,
        type := USB_HID_DESC,
        bcd_hid := USB_HID_REL_1_11_VER_BCD,
        country_code := 0,
        num_descs := 1,
        rep_desc_type := USB_HID_REPORT_DESC,
        rep_desc_size := rep_desc_size },
    rep_in :=
      { size := sizeof_usb_endp_desc,
        type := USB_ENDP_DESC,
        b_endpoint_address := usb_std_endp_addr endp_num USB_STD_IN_ENDP,
        bm_attributes := USB_STD_TRANS_INTERRUPT,
        w_max_packet_size := max_pkt,
        b_interval := polled_ms } }

/-- The constant conf_descs. -/
def conf_descs (c : sysconf) : jig_conf_descs :=
  { conf_desc :=
      { size := sizeof_usb_conf_desc,
        type := USB_CONF_DESC,
        w_total_size := sizeof_jig_conf_descs c,
        b_num_interfaces := if c.USB_JIG_KEYB_IFACE then 2 else 1,
        b_configuration_value := 1,
        i_configuration := 0,
        bm_attributes := USB_STD_BUS_POWER_NO_RWAKE,
        b_max_power := usb_std_max_power_mamp 100 },
    m := hid_group 0 m_rep_desc.length c.USB_JIG_IN_M_ENDP_NUM
           c.USB_JIG_IN_M_ENDP_MAX_PKT_SIZE c.USB_JIG_IN_M_ENDP_POLLED_MS,
    k := if c.USB_JIG_KEYB_IFACE then
           some (hid_group 1 k_rep_desc.length c.USB_JIG_IN_K_ENDP_NUM
                   c.USB_JIG_IN_K_ENDP_MAX_PKT_SIZE c.USB_JIG_IN_K_ENDP_POLLED_MS)
         else none }

/-- Modelled from the spec: the iterator find_usb_endp_desc of the absent
usb_std_def.c, called in a loop until it returns NULL: it produces each
endpoint descriptor across all interfaces, in the order of the layout. -/
def find_usb_endp_desc (d : jig_conf_descs) : List usb_endp_desc :=
  d.m.rep_in :: (match d.k with
                 | some g => [g.rep_in]
                 | none => [])

/-- Two bytes of a 16-bit field, low byte first. -/
def le16 (v : Nat) : List Nat := [v % 256, (v / 256) % 256]

/-- Memory image of a struct usb_dev_desc (packed, little-endian). -/
def usb_dev_desc.bytes (d : usb_dev_desc) : List Nat :=
  [d.size, d.type] ++ le16 d.bcd_usb ++
  [d.b_device_class, d.b_device_subclass, d.b_device_protocol, d.b_max_packet_size0] ++
  le16 d.id_vendor ++ le16 d.id_product ++ le16 d.bcd_device ++
  [d.i_manufacturer, d.i_product, d.i_serial_number, d.b_num_configurations]

/-- Memory image of a struct usb_conf_desc. -/
def usb_conf_desc.bytes (d : usb_conf_desc) : List Nat :=
  [d.size, d.type] ++ le16 d.w_total_size ++
  [d.b_num_interfaces, d.b_configuration_value, d.i_configuration, d.bm_attributes, d.b_max_power]

/-- Memory image of a struct usb_iface_desc. -/
def usb_iface_desc.bytes (d : usb_iface_desc) : List Nat :=
  [d.size, d.type, d.b_interface_number, d.b_alternate_setting, d.b_num_endpoints,
   d.b_interface_class, d.b_interface_subclass, d.b_interface_protocol, d.i_interface]

/-- Memory image of a struct usb_hid_desc. -/
def usb_hid_desc.bytes (d : usb_hid_desc) : List Nat :=
  [d.size, d.type] ++ le16 d.bcd_hid ++ [d.country_code, d.num_descs, d.rep_desc_type] ++
  le16 d.rep_desc_size

/-- Memory image of a struct usb_endp_desc. -/
def usb_endp_desc.bytes (d : usb_endp_desc) : List Nat :=
  [d.size, d.type, d.b_endpoint_address, d.bm_attributes] ++ le16 d.w_max_packet_size ++
  [d.b_interval]

/-- Memory image of one interface group. -/
def jig_iface_descs.bytes (g : jig_iface_descs) : List Nat :=
  g.hid_iface.bytes ++ g.hid_desc.bytes ++ g.rep_in.bytes

/-- Memory image of a struct jig_conf_descs. -/
def jig_conf_descs.bytes (d : jig_conf_descs) : List Nat :=
  d.conf_desc.bytes ++ d.m.bytes ++ (match d.k with
                                     | some g => g.bytes
                                     | none => [])

/-- The table lang_str_desc. -/
def lang_str_desc : List Nat :=
  [usb_std_str_desc_size 1, USB_STR_DESC] ++ USB_STD_EN_US_CODE

/-- The table manufacturer_str_desc. -/
def manufacturer_str_desc : List Nat :=
  [usb_std_str_desc_size 6, USB_STR_DESC] ++
  usb_std_unicode 'A' ++ usb_std_unicode 'Z' ++ usb_std_unicode 'T' ++
  usb_std_unicode 'e' ++ usb_std_unicode 'c' ++ usb_std_unicode 'h'

/-- The table product_str_desc. -/
def product_str_desc : List Nat :=
  [usb_std_str_desc_size 11, USB_STR_DESC] ++
  usb_std_unicode 'S' ++ usb_std_unicode 'A' ++ usb_std_unicode 'M' ++
  usb_std_unicode '_' ++ usb_std_unicode 'J' ++ usb_std_unicode 'I' ++
  usb_std_unicode 'G' ++ usb_std_unicode 'G' ++ usb_std_unicode 'L' ++
  usb_std_unicode 'E' ++ usb_std_unicode 'R'

/-- The table serial_str_desc. -/
def serial_str_desc : List Nat :=
  [usb_std_str_desc_size 10, USB_STR_DESC] ++
  usb_std_unicode '0' ++ usb_std_unicode '1' ++ usb_std_unicode '2' ++
  usb_std_unicode '3' ++ usb_std_unicode '4' ++ usb_std_unicode '5' ++
  usb_std_unicode '6' ++ usb_std_unicode '7' ++ usb_std_unicode '8' ++
  usb_std_unicode '9'

/-- The table str_desc_arry. -/
def str_desc_arry : List (List Nat) :=
  [lang_str_desc, manufacturer_str_desc, product_str_desc, serial_str_desc]

/-- The expression `*str_desc_arry[idx]`: the first byte of a string descriptor. -/
def str_desc_size (idx : Nat) : Nat := (str_desc_arry.getD idx []).headD 0

/-- Size of struct mouse_report (usb_jiggler.h, packed). -/
@[simp] def sizeof_mouse_report : Nat := 4
/-- The constant KEYB_REPORT_KEY_ARY_SIZE of usb_jiggler.h. -/
@[simp] def KEYB_REPORT_KEY_ARY_SIZE : Nat := 6
/-- Size of struct keyb_report (usb_jiggler.h, packed). -/
@[simp] def sizeof_keyb_report : Nat := 2 + KEYB_REPORT_KEY_ARY_SIZE
/-- Size of struct keyb_led_report (usb_jiggler.h, packed). -/
@[simp] def sizeof_keyb_led_report : Nat := 1
/-- The constant KEYB_LED_REPORT_QUE_SIZE. -/
@[simp] def KEYB_LED_REPORT_QUE_SIZE : Nat := 2

/-- The bytes behind a result's `buf` pointer. -/
def buf_bytes (c : sysconf) (s : jig_state) : buf_ref → List Nat
  | buf_ref.NULL => []
  | buf_ref.dev_desc => (dev_desc c).bytes
  | buf_ref.conf_descs => (conf_descs c).bytes
  | buf_ref.str_desc idx => str_desc_arry.getD idx []
  | buf_ref.m_rep_desc => m_rep_desc
  | buf_ref.k_rep_desc => k_rep_desc
  | buf_ref.ctl_rpl => [s.ctl_rpl.b0, s.ctl_rpl.b1]
  | buf_ref.get_idle_rpl => [s.get_idle_rpl]
  | buf_ref.mouse_report => s.mouse_report
  | buf_ref.keyb_report => s.keyb_report
  | buf_ref.keyb_led_report => s.keyb_led_report

/-- The data an IN data stage sends for a result: `nmb` bytes from `buf`. -/
def in_data (c : sysconf) (s : jig_state) (ucr : usb_ctl_req) : List Nat :=
  (buf_bytes c s ucr.buf).take ucr.nmb

/-! ## Standard request handlers -/

/-- The function is_self_powered. -/
def is_self_powered : Bool := false

/-- The function is_endp_index_valid. -/
def is_endp_index_valid (u : udp) (w_index : Nat) : Bool :=
  let n := w_index &&& 0x0F
  if is_udp_endp_enabled u n then
    if n = 0 then true
    else if w_index &&& 0x80 ≠ 0 then
      if get_udp_endp_dir u n = udp_endp_dir.UDP_ENDP_DIR_IN then true else false
    else
      if get_udp_endp_dir u n = udp_endp_dir.UDP_ENDP_DIR_OUT then true else false
  else false

/-- The function check_lng_code: the 16-bit word at lang_str_desc[2..3]
(little-endian) is compared with the code. -/
def check_lng_code (code : Nat) : Bool :=
  let uint := lang_str_desc.getD 2 0 + 256 * lang_str_desc.getD 3 0
  if uint = code then true else false

/-- The common tail of the descriptor handlers: serve `size` bytes of `buf`,
cut to the requested length. -/
def serve_in (ucr : usb_ctl_req) (buf : buf_ref) (size w_length : Nat) : usb_ctl_req :=
  { ucr with valid := true, buf := buf,
             nmb := if w_length > size then size else w_length,
             trans_nmb := w_length,
             trans_dir := some udp_ctl_trans_dir.UDP_CTL_TRANS_IN }

/-- The function std_get_desc_dev. -/
def std_get_desc_dev (c : sysconf) (ucr : usb_ctl_req) (s : jig_state) : usb_ctl_req × jig_state :=
  let sp := s.stp_pkt
  let ty := sp.w_value >>> 8
  if ty = USB_DEV_DESC then
    if sp.w_value &&& 0xFF = 0 ∧ sp.w_index = 0 then
      (serve_in ucr buf_ref.dev_desc sizeof_usb_dev_desc sp.w_length, s)
    else
      (ucr, if_log_std_cmd c req_err_str (stp_err_cnt_inc s))
  else if ty = USB_DEV_QUAL_DESC then
    if sp.w_value &&& 0xFF ≠ 0 ∨ sp.w_index ≠ 0 then
      (ucr, if_log_std_cmd c req_err_str (stp_err_cnt_inc s))
    else
      (ucr, if_log_std_cmd c "dev_qual_desc unsupported" (stp_rej_cnt_inc s))
  else if ty = USB_CONF_DESC then
    if sp.w_value &&& 0xFF = 0 ∧ sp.w_index = 0 then
      (serve_in ucr buf_ref.conf_descs (sizeof_jig_conf_descs c) sp.w_length, s)
    else
      (ucr, if_log_std_cmd c req_err_str (stp_err_cnt_inc s))
  else if ty = USB_ALT_SPEED_CONF_DESC then
    if sp.w_value &&& 0xFF ≠ 0 ∨ sp.w_index ≠ 0 then
      (ucr, if_log_std_cmd c req_err_str (stp_err_cnt_inc s))
    else
      (ucr, if_log_std_cmd c "alt_speed_conf_desc unsupported" (stp_rej_cnt_inc s))
  else if ty = USB_STR_DESC then
    if sp.w_value &&& 0xFF = 0 then
      if sp.w_index = 0 then
        (serve_in ucr (buf_ref.str_desc 0) (str_desc_size 0) sp.w_length, s)
      else
        (ucr, if_log_std_cmd c req_err_str (stp_err_cnt_inc s))
    else
      let idx := sp.w_value % 256
      if idx < str_desc_arry.length ∧ check_lng_code sp.w_index = true then
        (serve_in ucr (buf_ref.str_desc idx) (str_desc_size idx) sp.w_length, s)
      else
        (ucr, if_log_std_cmd c req_err_str (stp_err_cnt_inc s))
  else
    (ucr, if_log_std_cmd c req_err_str (stp_err_cnt_inc s))

/-- The function std_get_desc_ifc. -/
def std_get_desc_ifc (c : sysconf) (ucr : usb_ctl_req) (s : jig_state) : usb_ctl_req × jig_state :=
  let sp := s.stp_pkt
  let ty := sp.w_value >>> 8
  if ty = USB_HID_REPORT_DESC then
    if sp.w_value &&& 0xFF = 0 ∧ sp.w_index = 0 then
      (serve_in ucr buf_ref.m_rep_desc m_rep_desc.length sp.w_length, s)
    else if c.USB_JIG_KEYB_IFACE = true ∧ sp.w_value &&& 0xFF = 0 ∧ sp.w_index = 1 then
      (serve_in ucr buf_ref.k_rep_desc k_rep_desc.length sp.w_length, s)
    else
      (ucr, if_log_std_cmd c req_err_str (stp_err_cnt_inc s))
  else if ty = USB_HID_PHYSICAL_DESC then
    if (if c.USB_JIG_KEYB_IFACE then sp.w_index ≠ 0 ∧ sp.w_index ≠ 1 else sp.w_index ≠ 0) then
      (ucr, if_log_std_cmd c req_err_str (stp_err_cnt_inc s))
    else
      (ucr, if_log_std_cmd c "hid_physical_desc unsupported" (stp_rej_cnt_inc s))
  else
    (ucr, if_log_std_cmd c req_err_str (stp_err_cnt_inc s))

/-- The function std_set_addr. -/
def std_set_addr (c : sysconf) (ucr : usb_ctl_req) (s : jig_state) : usb_ctl_req × jig_state :=
  let sp := s.stp_pkt
  let us := get_udp_state s.udp
  if sp.w_value ≤ 127 ∧ sp.w_index = 0 ∧ sp.w_length = 0 ∧
      (us = udp_state.UDP_STATE_DEFAULT ∨ us = udp_state.UDP_STATE_ADDRESSED) then
    ({ ucr with valid := true, trans_dir := some udp_ctl_trans_dir.UDP_CTL_TRANS_OUT }, s)
  else
    (ucr, stp_err_cnt_inc (if_log_std_cmd c req_err_str s))

/-- The first loop of std_set_conf: every catalog endpoint is enabled. -/
def set_conf_enable_all (c : sysconf) (u : udp) : udp :=
  (find_usb_endp_desc (conf_descs c)).foldl
    (fun u ed => enable_udp_endp (ed.b_endpoint_address &&& 0x0F) (c.usb_endp_desc_get_ep_type ed) u) u

/-- The second loop of std_set_conf: every catalog endpoint is disabled. -/
def set_conf_disable_all (c : sysconf) (u : udp) : udp :=
  (find_usb_endp_desc (conf_descs c)).foldl
    (fun u ed => disable_udp_endp (ed.b_endpoint_address &&& 0x0F) u) u

/-- The third loop of std_set_conf: every enabled catalog endpoint is un-halted. -/
def set_conf_un_halt_enabled (c : sysconf) (u : udp) : udp :=
  (find_usb_endp_desc (conf_descs c)).foldl
    (fun u ed =>
      let ep := ed.b_endpoint_address &&& 0x0F
      if is_udp_endp_enabled u ep then un_halt_udp_endp ep u else u) u

/-- The function std_set_conf. -/
def std_set_conf (c : sysconf) (ucr : usb_ctl_req) (s : jig_state) : usb_ctl_req × jig_state :=
  let sp := s.stp_pkt
  let us := get_udp_state s.udp
  let ucr1 := { ucr with valid := true, trans_dir := some udp_ctl_trans_dir.UDP_CTL_TRANS_OUT }
  let err_exit : usb_ctl_req × jig_state :=
    ({ ucr1 with valid := false }, stp_err_cnt_inc (if_log_std_cmd c req_err_str s))
  if sp.w_index ≠ 0 ∨ sp.w_length ≠ 0 then
    err_exit
  else if us = udp_state.UDP_STATE_ADDRESSED ∧ sp.w_value = 0 then
    (ucr1, s)
  else if us = udp_state.UDP_STATE_ADDRESSED ∧ sp.w_value = 1 then
    (ucr1, on_udp (fun u => set_udp_confg true (set_conf_enable_all c u)) s)
  else if us = udp_state.UDP_STATE_CONFIGURED ∧ sp.w_value = 0 then
    (ucr1, on_udp (fun u => set_udp_confg false (set_conf_disable_all c u)) s)
  else if us = udp_state.UDP_STATE_CONFIGURED ∧ sp.w_value = 1 then
    (ucr1, on_udp (set_conf_un_halt_enabled c) s)
  else
    err_exit

/-- The tail of the handlers that answer from the scratch union:
`nmb` bytes of ctl_rpl, with the requested length set to `nmb` as well. -/
def serve_ctl_rpl (ucr : usb_ctl_req) (nmb : Nat) : usb_ctl_req :=
  { ucr with valid := true, buf := buf_ref.ctl_rpl, nmb := nmb, trans_nmb := nmb,
             trans_dir := some udp_ctl_trans_dir.UDP_CTL_TRANS_IN }

/-- The function std_get_conf. -/
def std_get_conf (c : sysconf) (ucr : usb_ctl_req) (s : jig_state) : usb_ctl_req × jig_state :=
  let sp := s.stp_pkt
  let us := get_udp_state s.udp
  if sp.w_value = 0 ∧ sp.w_index = 0 ∧ sp.w_length = 1 ∧
      (us = udp_state.UDP_STATE_ADDRESSED ∨ us = udp_state.UDP_STATE_CONFIGURED) then
    let v := if us = udp_state.UDP_STATE_CONFIGURED then 1 else 0
    (serve_ctl_rpl ucr 1, { s with ctl_rpl := s.ctl_rpl.set_conf v })
  else
    (ucr, stp_err_cnt_inc (if_log_std_cmd c req_err_str s))

/-- The function std_set_desc. -/
def std_set_desc (c : sysconf) (ucr : usb_ctl_req) (s : jig_state) : usb_ctl_req × jig_state :=
  let us := get_udp_state s.udp
  if us = udp_state.UDP_STATE_ADDRESSED ∨ us = udp_state.UDP_STATE_CONFIGURED then
    (ucr, if_log_std_cmd c req_rej_str (stp_rej_cnt_inc s))
  else
    (ucr, if_log_std_cmd c req_err_str (stp_err_cnt_inc s))

/-- The function std_set_iface. -/
def std_set_iface (c : sysconf) (ucr : usb_ctl_req) (s : jig_state) : usb_ctl_req × jig_state :=
  let sp := s.stp_pkt
  let us := get_udp_state s.udp
  if us = udp_state.UDP_STATE_CONFIGURED ∧ sp.w_length = 0 then
    (ucr, if_log_std_cmd c req_rej_str (stp_rej_cnt_inc s))
  else
    (ucr, if_log_std_cmd c req_err_str (stp_err_cnt_inc s))

/-- The function std_get_iface. -/
def std_get_iface (c : sysconf) (ucr : usb_ctl_req) (s : jig_state) : usb_ctl_req × jig_state :=
  let sp := s.stp_pkt
  let us := get_udp_state s.udp
  if sp.w_value = 0 ∧ sp.w_length = 1 ∧
      sp.w_index < (conf_descs c).conf_desc.b_num_interfaces ∧
      us = udp_state.UDP_STATE_CONFIGURED then
    (serve_ctl_rpl ucr 1, { s with ctl_rpl := s.ctl_rpl.set_conf 0 })
  else
    (ucr, stp_err_cnt_inc (if_log_std_cmd c req_err_str s))

/-- The function std_synch_frm. -/
def std_synch_frm (c : sysconf) (ucr : usb_ctl_req) (s : jig_state) : usb_ctl_req × jig_state :=
  let sp := s.stp_pkt
  let us := get_udp_state s.udp
  if sp.w_value = 0 ∧ sp.w_length = 2 ∧ us = udp_state.UDP_STATE_CONFIGURED then
    (ucr, if_log_std_cmd c req_rej_str (stp_rej_cnt_inc s))
  else
    (ucr, if_log_std_cmd c req_err_str (stp_err_cnt_inc s))

/-- The function std_get_dev_stat. -/
def std_get_dev_stat (c : sysconf) (ucr : usb_ctl_req) (s : jig_state) : usb_ctl_req × jig_state :=
  let sp := s.stp_pkt
  let us := get_udp_state s.udp
  if sp.w_value = 0 ∧ sp.w_index = 0 ∧ sp.w_length = 2 ∧
      (us = udp_state.UDP_STATE_ADDRESSED ∨ us = udp_state.UDP_STATE_CONFIGURED) then
    let stat0 := if is_self_powered then 1 else 0
    let stat1 := if get_rmt_wkup_feat s.udp then stat0 ||| 2 else stat0
    (serve_ctl_rpl ucr 2, { s with ctl_rpl := s.ctl_rpl.set_stat stat1 })
  else
    (ucr, stp_err_cnt_inc (if_log_std_cmd c req_err_str s))

/-- The function std_get_iface_stat. -/
def std_get_iface_stat (c : sysconf) (ucr : usb_ctl_req) (s : jig_state) : usb_ctl_req × jig_state :=
  let sp := s.stp_pkt
  let us := get_udp_state s.udp
  if sp.w_value = 0 ∧ sp.w_length = 2 ∧
      sp.w_index < (conf_descs c).conf_desc.b_num_interfaces ∧
      us = udp_state.UDP_STATE_CONFIGURED then
    (serve_ctl_rpl ucr 2, { s with ctl_rpl := s.ctl_rpl.set_stat 0 })
  else
    (ucr, stp_err_cnt_inc (if_log_std_cmd c req_err_str s))

/-- The function std_get_endp_stat. -/
def std_get_endp_stat (c : sysconf) (ucr : usb_ctl_req) (s : jig_state) : usb_ctl_req × jig_state :=
  let sp := s.stp_pkt
  let us := get_udp_state s.udp
  let ep := sp.w_index &&& 0x0F
  if sp.w_value = 0 ∧ sp.w_length = 2 ∧
      ((us = udp_state.UDP_STATE_ADDRESSED ∧ ep = 0) ∨ us = udp_state.UDP_STATE_CONFIGURED) ∧
      is_endp_index_valid s.udp sp.w_index = true then
    let v := if is_udp_endp_halted s.udp ep then 1 else 0
    (serve_ctl_rpl ucr 2, { s with ctl_rpl := s.ctl_rpl.set_stat v })
  else
    (ucr, stp_err_cnt_inc (if_log_std_cmd c req_err_str s))

/-- The function std_clr_dev_feat. -/
def std_clr_dev_feat (c : sysconf) (ucr : usb_ctl_req) (s : jig_state) : usb_ctl_req × jig_state :=
  let sp := s.stp_pkt
  let us := get_udp_state s.udp
  if sp.w_value = USB_DEV_REM_WKUP_FEAT ∧ sp.w_index = 0 ∧ sp.w_length = 0 ∧
      (us = udp_state.UDP_STATE_ADDRESSED ∨ us = udp_state.UDP_STATE_CONFIGURED) then
    ({ ucr with valid := true, trans_dir := some udp_ctl_trans_dir.UDP_CTL_TRANS_OUT },
     on_udp (set_rmt_wkup_feat false) s)
  else
    (ucr, stp_err_cnt_inc (if_log_std_cmd c req_err_str s))

/-- The function std_set_dev_feat. -/
def std_set_dev_feat (c : sysconf) (ucr : usb_ctl_req) (s : jig_state) : usb_ctl_req × jig_state :=
  let sp := s.stp_pkt
  let us := get_udp_state s.udp
  if sp.w_index = 0 ∧ sp.w_length = 0 then
    if sp.w_value = USB_DEV_REM_WKUP_FEAT ∧
        (us = udp_state.UDP_STATE_ADDRESSED ∨ us = udp_state.UDP_STATE_CONFIGURED) then
      ({ ucr with valid := true, trans_dir := some udp_ctl_trans_dir.UDP_CTL_TRANS_OUT },
       on_udp (set_rmt_wkup_feat true) s)
    else if sp.w_value = USB_TEST_MODE_FEAT then
      (ucr, if_log_std_cmd c req_rej_str (stp_rej_cnt_inc s))
    else
      (ucr, if_log_std_cmd c req_err_str (stp_err_cnt_inc s))
  else
    (ucr, if_log_std_cmd c req_err_str (stp_err_cnt_inc s))

/-- The function std_clr_set_iface_feat. -/
def std_clr_set_iface_feat (c : sysconf) (ucr : usb_ctl_req) (s : jig_state) :
    usb_ctl_req × jig_state :=
  (ucr, stp_rej_cnt_inc (if_log_std_cmd c req_rej_str s))

/-- The function std_clr_set_endp_feat. -/
def std_clr_set_endp_feat (c : sysconf) (ucr : usb_ctl_req) (s : jig_state) :
    usb_ctl_req × jig_state :=
  let sp := s.stp_pkt
  let us := get_udp_state s.udp
  let ep := sp.w_index &&& 0x0F
  if sp.w_value = USB_ENDP_HALT_FEAT ∧ is_endp_index_valid s.udp sp.w_index = true ∧ ep ≠ 0 ∧
      sp.w_length = 0 ∧ us = udp_state.UDP_STATE_CONFIGURED then
    ({ ucr with valid := true, trans_dir := some udp_ctl_trans_dir.UDP_CTL_TRANS_OUT },
     if sp.b_request = USB_CLEAR_FEATURE then on_udp (un_halt_udp_endp ep) s
     else on_udp (halt_udp_endp ep) s)
  else
    (ucr, stp_err_cnt_inc (if_log_std_cmd c req_err_str s))

/-- The function std_stp: the setup callback of the standard requests. -/
def std_stp (c : sysconf) (sp : usb_stp_pkt) (s0 : jig_state) : usb_ctl_req × jig_state :=
  let ucr := usb_ctl_req.init
  let s := { if_log_stp c sp s0 with stp_pkt := sp }
  let recp := sp.bm_request_type &&& 0x1F
  if sp.b_request = USB_SET_DESCRIPTOR ∧ recp = USB_DEVICE_RECIPIENT then
    std_set_desc c ucr s
  else if sp.b_request = USB_GET_DESCRIPTOR ∧ recp = USB_DEVICE_RECIPIENT then
    std_get_desc_dev c ucr s
  else if sp.b_request = USB_GET_DESCRIPTOR ∧ recp = USB_IFACE_RECIPIENT then
    std_get_desc_ifc c ucr s
  else if sp.b_request = USB_SET_ADDRESS ∧ recp = USB_DEVICE_RECIPIENT then
    std_set_addr c ucr s
  else if sp.b_request = USB_SET_CONFIGURATION ∧ recp = USB_DEVICE_RECIPIENT then
    std_set_conf c ucr s
  else if sp.b_request = USB_GET_CONFIGURATION ∧ recp = USB_DEVICE_RECIPIENT then
    std_get_conf c ucr s
  else if sp.b_request = USB_SET_INTERFACE ∧ recp = USB_IFACE_RECIPIENT then
    std_set_iface c ucr s
  else if sp.b_request = USB_GET_INTERFACE ∧ recp = USB_IFACE_RECIPIENT then
    std_get_iface c ucr s
  else if sp.b_request = USB_SYNCH_FRAME ∧ recp = USB_ENDP_RECIPIENT then
    std_synch_frm c ucr s
  else if sp.b_request = USB_GET_STATUS ∧ recp = USB_DEVICE_RECIPIENT then
    std_get_dev_stat c ucr s
  else if sp.b_request = USB_GET_STATUS ∧ recp = USB_IFACE_RECIPIENT then
    std_get_iface_stat c ucr s
  else if sp.b_request = USB_GET_STATUS ∧ recp = USB_ENDP_RECIPIENT then
    std_get_endp_stat c ucr s
  else if sp.b_request = USB_CLEAR_FEATURE ∧ recp = USB_DEVICE_RECIPIENT then
    std_clr_dev_feat c ucr s
  else if sp.b_request = USB_CLEAR_FEATURE ∧ recp = USB_IFACE_RECIPIENT then
    std_clr_set_iface_feat c ucr s
  else if sp.b_request = USB_CLEAR_FEATURE ∧ recp = USB_ENDP_RECIPIENT then
    std_clr_set_endp_feat c ucr s
  else if sp.b_request = USB_SET_FEATURE ∧ recp = USB_DEVICE_RECIPIENT then
    std_set_dev_feat c ucr s
  else if sp.b_request = USB_SET_FEATURE ∧ recp = USB_IFACE_RECIPIENT then
    std_clr_set_iface_feat c ucr s
  else if sp.b_request = USB_SET_FEATURE ∧ recp = USB_ENDP_RECIPIENT then
    std_clr_set_endp_feat c ucr s
  else
    (ucr, stp_err_cnt_inc (if_log_std_cmd c req_err_str s))

/-- The function std_in_req_ack_clbk. -/
def std_in_req_ack_clbk (c : sysconf) (s : jig_state) : jig_state :=
  let r := s.stp_pkt.b_request
  if r = USB_GET_DESCRIPTOR ∨ r = USB_GET_STATUS ∨ r = USB_GET_CONFIGURATION ∨
      r = USB_GET_INTERFACE then
    if_log_std_cmd c req_done_str s
  else s

/-- The function std_out_req_rec_clbk. -/
def std_out_req_rec_clbk (s : jig_state) : Bool × jig_state := (false, s)

/-- The function std_out_req_ack_clbk. -/
def std_out_req_ack_clbk (c : sysconf) (s : jig_state) : jig_state :=
  let r := s.stp_pkt.b_request
  if r = USB_SET_ADDRESS then
    if_log_std_cmd c req_done_str (on_udp (set_udp_addr s.stp_pkt.w_value) s)
  else if r = USB_SET_CONFIGURATION ∨ r = USB_CLEAR_FEATURE ∨ r = USB_SET_FEATURE then
    if_log_std_cmd c req_done_str s
  else s

/-! ## HID class request handlers -/

/-- The function cls_get_report. -/
def cls_get_report (c : sysconf) (ucr : usb_ctl_req) (s : jig_state) : usb_ctl_req × jig_state :=
  let sp := s.stp_pkt
  let us := get_udp_state s.udp
  if sp.w_value >>> 8 = USB_HID_REPORT_IN ∧ sp.w_value &&& 0xFF = 0 ∧
      us = udp_state.UDP_STATE_CONFIGURED then
    if sp.w_index = 0 then
      (serve_in ucr buf_ref.mouse_report sizeof_mouse_report sp.w_length, s)
    else if c.USB_JIG_KEYB_IFACE = true ∧ sp.w_index = 1 then
      (serve_in ucr buf_ref.keyb_report sizeof_keyb_report sp.w_length, s)
    else
      (ucr, stp_err_cnt_inc (if_log_cls_cmd c req_err_str s))
  else
    (ucr, stp_err_cnt_inc (if_log_cls_cmd c req_err_str s))

/-- The function cls_get_idle. -/
def cls_get_idle (c : sysconf) (ucr : usb_ctl_req) (s : jig_state) : usb_ctl_req × jig_state :=
  let sp := s.stp_pkt
  let us := get_udp_state s.udp
  if sp.w_value = 0 ∧ sp.w_length = 1 ∧ us = udp_state.UDP_STATE_CONFIGURED then
    let ucr1 := { ucr with buf := buf_ref.get_idle_rpl, nmb := 1, trans_nmb := 1,
                           trans_dir := some udp_ctl_trans_dir.UDP_CTL_TRANS_IN }
    if sp.w_index = 0 then
      ({ ucr1 with valid := true }, { s with get_idle_rpl := 0 })
    else if c.USB_JIG_KEYB_IFACE = true ∧ sp.w_index = 1 then
      ({ ucr1 with valid := true }, { s with get_idle_rpl := 0 })
    else
      (ucr1, stp_err_cnt_inc (if_log_cls_cmd c req_err_str s))
  else
    (ucr, stp_err_cnt_inc (if_log_cls_cmd c req_err_str s))

/-- The function cls_get_protocol. -/
def cls_get_protocol (c : sysconf) (ucr : usb_ctl_req) (s : jig_state) : usb_ctl_req × jig_state :=
  (ucr, stp_rej_cnt_inc (if_log_cls_cmd c req_rej_str s))

/-- The function cls_set_report. -/
def cls_set_report (c : sysconf) (ucr : usb_ctl_req) (s : jig_state) : usb_ctl_req × jig_state :=
  let sp := s.stp_pkt
  let us := get_udp_state s.udp
  if c.USB_JIG_KEYB_IFACE then
    if sp.w_value >>> 8 = USB_HID_REPORT_OUT ∧ sp.w_value &&& 0xFF = 0 ∧
        sp.w_index = 1 ∧ sp.w_length = sizeof_keyb_led_report ∧
        us = udp_state.UDP_STATE_CONFIGURED then
      ({ ucr with valid := true, buf := buf_ref.keyb_led_report, nmb := sp.w_length,
                  trans_dir := some udp_ctl_trans_dir.UDP_CTL_TRANS_OUT }, s)
    else
      (ucr, stp_err_cnt_inc (if_log_cls_cmd c req_err_str s))
  else
    (ucr, stp_rej_cnt_inc (if_log_cls_cmd c req_rej_str s))

/-- The function cls_set_idle. -/
def cls_set_idle (c : sysconf) (ucr : usb_ctl_req) (s : jig_state) : usb_ctl_req × jig_state :=
  let sp := s.stp_pkt
  let us := get_udp_state s.udp
  if sp.w_value = 0 ∧ sp.w_length = 0 ∧ us = udp_state.UDP_STATE_CONFIGURED then
    if sp.w_index = 0 then
      ({ ucr with valid := true, trans_dir := some udp_ctl_trans_dir.UDP_CTL_TRANS_OUT }, s)
    else if c.USB_JIG_KEYB_IFACE = true ∧ sp.w_index = 1 then
      ({ ucr with valid := true, trans_dir := some udp_ctl_trans_dir.UDP_CTL_TRANS_OUT }, s)
    else
      (ucr, stp_err_cnt_inc (if_log_cls_cmd c req_err_str s))
  else
    (ucr, stp_err_cnt_inc (if_log_cls_cmd c req_err_str s))

/-- The function cls_set_protocol. -/
def cls_set_protocol (c : sysconf) (ucr : usb_ctl_req) (s : jig_state) : usb_ctl_req × jig_state :=
  (ucr, stp_rej_cnt_inc (if_log_cls_cmd c req_rej_str s))

/-- The function cls_stp: the setup callback of the class requests. -/
def cls_stp (c : sysconf) (sp : usb_stp_pkt) (s0 : jig_state) : usb_ctl_req × jig_state :=
  let ucr := usb_ctl_req.init
  let s := { if_log_stp c sp s0 with stp_pkt := sp }
  let recp := sp.bm_request_type &&& 0x1F
  if sp.b_request = USB_HID_GET_REPORT ∧ recp = USB_IFACE_RECIPIENT then
    cls_get_report c ucr s
  else if sp.b_request = USB_HID_GET_IDLE ∧ recp = USB_IFACE_RECIPIENT then
    cls_get_idle c ucr s
  else if sp.b_request = USB_HID_GET_PROTOCOL ∧ recp = USB_IFACE_RECIPIENT then
    cls_get_protocol c ucr s
  else if sp.b_request = USB_HID_SET_REPORT ∧ recp = USB_IFACE_RECIPIENT then
    cls_set_report c ucr s
  else if sp.b_request = USB_HID_SET_IDLE ∧ recp = USB_IFACE_RECIPIENT then
    cls_set_idle c ucr s
  else if sp.b_request = USB_HID_SET_PROTOCOL ∧ recp = USB_IFACE_RECIPIENT then
    cls_set_protocol c ucr s
  else
    (ucr, stp_err_cnt_inc (if_log_cls_cmd c req_err_str s))

/-- The function cls_in_req_ack_clbk. -/
def cls_in_req_ack_clbk (c : sysconf) (s : jig_state) : jig_state :=
  let r := s.stp_pkt.b_request
  if r = USB_HID_GET_REPORT ∨ r = USB_HID_GET_IDLE then if_log_cls_cmd c req_done_str s else s

/-- Modelled from the spec: the non-blocking send xQueueSendFromISR of the
scheduler on keyb_led_rep_que, which holds KEYB_LED_REPORT_QUE_SIZE reports;
a report sent to a full queue is dropped. -/
def xQueueSendFromISR_led (s : jig_state) : jig_state :=
  if s.keyb_led_rep_que.length < KEYB_LED_REPORT_QUE_SIZE then
    { s with keyb_led_rep_que := s.keyb_led_rep_que ++ [s.keyb_led_report] }
  else s

/-- The function cls_out_req_rec_clbk. -/
def cls_out_req_rec_clbk (c : sysconf) (s : jig_state) : Bool × jig_state :=
  if c.USB_JIG_KEYB_IFACE = true ∧ s.stp_pkt.b_request = USB_HID_SET_REPORT then
    (true, if c.LOG_KEYB_LEDS then xQueueSendFromISR_led s else s)
  else
    (false, s)

/-- The function cls_out_req_ack_clbk. -/
def cls_out_req_ack_clbk (c : sysconf) (s : jig_state) : jig_state :=
  let r := s.stp_pkt.b_request
  if c.USB_JIG_KEYB_IFACE = true ∧ (r = USB_HID_SET_REPORT ∨ r = USB_HID_SET_IDLE) then
    if_log_cls_cmd c req_done_str s
  else s

/-! ## Vendor request handlers -/

/-- The function vnd_stp. -/
def vnd_stp (_sp : usb_stp_pkt) (s : jig_state) : usb_ctl_req × jig_state :=
  (usb_ctl_req.init, s)

/-- The function vnd_out_req_rec_clbk. -/
def vnd_out_req_rec_clbk (s : jig_state) : Bool × jig_state := (false, s)

/-! ## The (request code, recipient) pairs of the two dispatchers -/

/-- The pairs tested by the if-chain of std_stp, in its order. -/
def std_stp_pairs : List (Nat × Nat) :=
  [(USB_SET_DESCRIPTOR, USB_DEVICE_RECIPIENT), (USB_GET_DESCRIPTOR, USB_DEVICE_RECIPIENT),
   (USB_GET_DESCRIPTOR, USB_IFACE_RECIPIENT), (USB_SET_ADDRESS, USB_DEVICE_RECIPIENT),
   (USB_SET_CONFIGURATION, USB_DEVICE_RECIPIENT), (USB_GET_CONFIGURATION, USB_DEVICE_RECIPIENT),
   (USB_SET_INTERFACE, USB_IFACE_RECIPIENT), (USB_GET_INTERFACE, USB_IFACE_RECIPIENT),
   (USB_SYNCH_FRAME, USB_ENDP_RECIPIENT), (USB_GET_STATUS, USB_DEVICE_RECIPIENT),
   (USB_GET_STATUS, USB_IFACE_RECIPIENT), (USB_GET_STATUS, USB_ENDP_RECIPIENT),
   (USB_CLEAR_FEATURE, USB_DEVICE_RECIPIENT), (USB_CLEAR_FEATURE, USB_IFACE_RECIPIENT),
   (USB_CLEAR_FEATURE, USB_ENDP_RECIPIENT), (USB_SET_FEATURE, USB_DEVICE_RECIPIENT),
   (USB_SET_FEATURE, USB_IFACE_RECIPIENT), (USB_SET_FEATURE, USB_ENDP_RECIPIENT)]

/-- The pairs tested by the if-chain of cls_stp, in its order. -/
def cls_stp_pairs : List (Nat × Nat) :=
  [(USB_HID_GET_REPORT, USB_IFACE_RECIPIENT), (USB_HID_GET_IDLE, USB_IFACE_RECIPIENT),
   (USB_HID_GET_PROTOCOL, USB_IFACE_RECIPIENT), (USB_HID_SET_REPORT, USB_IFACE_RECIPIENT),
   (USB_HID_SET_IDLE, USB_IFACE_RECIPIENT), (USB_HID_SET_PROTOCOL, USB_IFACE_RECIPIENT)]

/-- The pair a dispatcher looks at: the request code and the recipient
`bm_request_type & 0x1F`. -/
def stp_pair (sp : usb_stp_pkt) : Nat × Nat := (sp.b_request, sp.bm_request_type &&& 0x1F)

/-! ## Sample build and states used for concrete evaluations -/

/-- A build with the keyboard interface and both kinds of log events. -/
def sysconf_keyb : sysconf :=
  { USB_JIG_KEYB_IFACE := true,
    LOG_KEYB_LEDS := true,
    USB_LOG_CTL_REQ_STP_EVENTS := true,
    USB_LOG_CTL_REQ_CMD_EVENTS := true,
    USB_JIG_VENDORID := 0x03EB,
    USB_JIG_PRODUCTID := 0x2402,
    USB_JIG_IN_M_ENDP_NUM := 1,
    USB_JIG_IN_M_ENDP_MAX_PKT_SIZE := 8,
    USB_JIG_IN_M_ENDP_POLLED_MS := 10,
    USB_JIG_IN_K_ENDP_NUM := 2,
    USB_JIG_IN_K_ENDP_MAX_PKT_SIZE := 8,
    USB_JIG_IN_K_ENDP_POLLED_MS := 10,
    USB_LOG_EVENTS_QUEUE_SIZE := 4,
    usb_endp_desc_get_ep_type := fun ed => ed.bm_attributes &&& 3 }

/-- The driver after a bus reset and SET_ADDRESS: only the control endpoint
is enabled, nothing is halted. -/
def udp_addressed : udp :=
  { state := udp_state.UDP_STATE_ADDRESSED,
    enabled := fun n => decide (n = 0),
    halted := fun _ => false,
    dir := fun n => if n = 0 then udp_endp_dir.UDP_ENDP_DIR_OUT else udp_endp_dir.UDP_ENDP_DIR_IN,
    rmt_wkup := false,
    addr := 5,
    calls := [] }

/-- A state of the whole engine around a given driver state and statistics. -/
def jig_state_of (u : udp) (err rej : Nat) : jig_state :=
  { udp := u,
    stats := { stp_err_cnt := err, stp_rej_cnt := rej },
    stp_pkt := { bm_request_type := 0, b_request := 0, w_value := 0, w_index := 0, w_length := 0 },
    ctl_rpl := { b0 := 0, b1 := 0 },
    get_idle_rpl := 0,
    mouse_report := [0, 0, 0, 0],
    keyb_report := [0, 0, 0, 0, 0, 0, 0, 0],
    keyb_led_report := [0],
    keyb_led_rep_que := [],
    log_que := [],
    qfull_cnt := 0 }

/-! ## Outcome classes of one dispatch -/

/-- Done: the result is valid and neither counter moved (`st` holds the
counters before the dispatch). -/
def is_done (st : usb_jiggler_stats) (r : usb_ctl_req × jig_state) : Prop :=
  r.1.valid = true ∧ r.2.stats = st

/-- Error: the result is invalid, `stp_err_cnt++` ran once and stp_rej_cnt kept its value. -/
def is_error (st : usb_jiggler_stats) (r : usb_ctl_req × jig_state) : Prop :=
  r.1.valid = false ∧ r.2.stats.stp_err_cnt = (st.stp_err_cnt + 1) % USHRT_NMB ∧
  r.2.stats.stp_rej_cnt = st.stp_rej_cnt

/-- Reject: the result is invalid, `stp_rej_cnt++` ran once and stp_err_cnt kept its value. -/
def is_reject (st : usb_jiggler_stats) (r : usb_ctl_req × jig_state) : Prop :=
  r.1.valid = false ∧ r.2.stats.stp_rej_cnt = (st.stp_rej_cnt + 1) % USHRT_NMB ∧
  r.2.stats.stp_err_cnt = st.stp_err_cnt

instance (st : usb_jiggler_stats) (r : usb_ctl_req × jig_state) : Decidable (is_done st r) := by
  unfold is_done; infer_instance

instance (st : usb_jiggler_stats) (r : usb_ctl_req × jig_state) : Decidable (is_error st r) := by
  unfold is_error; infer_instance

instance (st : usb_jiggler_stats) (r : usb_ctl_req × jig_state) : Decidable (is_reject st r) := by
  unfold is_reject; infer_instance

/-- One of the three outcome classes holds. -/
def has_outcome (st : usb_jiggler_stats) (r : usb_ctl_req × jig_state) : Prop :=
  is_done st r ∨ is_error st r ∨ is_reject st r

/-- Error with the counter read as an unbounded number: `stp_err_cnt` is
exactly one more than before. -/
def is_error_exact (st : usb_jiggler_stats) (r : usb_ctl_req × jig_state) : Prop :=
  r.1.valid = false ∧ r.2.stats.stp_err_cnt = st.stp_err_cnt + 1 ∧
  r.2.stats.stp_rej_cnt = st.stp_rej_cnt

/-- Reject with the counter read as an unbounded number: `stp_rej_cnt` is
exactly one more than before. -/
def is_reject_exact (st : usb_jiggler_stats) (r : usb_ctl_req × jig_state) : Prop :=
  r.1.valid = false ∧ r.2.stats.stp_rej_cnt = st.stp_rej_cnt + 1 ∧
  r.2.stats.stp_err_cnt = st.stp_err_cnt

instance (st : usb_jiggler_stats) (r : usb_ctl_req × jig_state) :
    Decidable (is_error_exact st r) := by
  unfold is_error_exact; infer_instance

instance (st : usb_jiggler_stats) (r : usb_ctl_req × jig_state) :
    Decidable (is_reject_exact st r) := by
  unfold is_reject_exact; infer_instance

/-- The endpoint numbers of the catalog: `b_endpoint_address & 0x0F` of each
endpoint descriptor in conf_descs. -/
def catalog_eps (c : sysconf) : List Nat :=
  (find_usb_endp_desc (conf_descs c)).map (fun ed => ed.b_endpoint_address &&& 0x0F)

/-- The driver in state Configured in the keyboard build: the control
endpoint and the two interrupt IN endpoints 1 and 2 are enabled; the control
endpoint reports direction OUT. -/
def udp_configured : udp :=
  { udp_addressed with state := udp_state.UDP_STATE_CONFIGURED,
                       enabled := fun n => decide (n ≤ 2) }

/-- The driver requests that touch only an endpoint's halt condition or the
remote-wakeup feature. -/
def udp_call.is_halt_or_wkup : udp_call → Bool
  | udp_call.un_halt_udp_endp _ => true
  | udp_call.halt_udp_endp _ => true
  | udp_call.set_rmt_wkup_feat _ => true
  | _ => false

/-- What a dispatch leaves alone when it does not reconfigure the device:
the enumeration state and the enabled-endpoint set are those of the driver
`u` before, and every request it made is a halt, an un-halt or a
remote-wakeup setting. -/
def keeps_conf (u : udp) (r : usb_ctl_req × jig_state) : Prop :=
  r.2.udp.state = u.state ∧ r.2.udp.enabled = u.enabled ∧
  ∃ l, r.2.udp.calls = u.calls ++ l ∧ ∀ x ∈ l, udp_call.is_halt_or_wkup x = true

/-! ## Reading the descriptor tables the way a host does -/

/-- The walk over a sequence of size-prefixed descriptors (USB 2.0 section
9.5, a host's view of the configuration data; the source only lays the bytes
out): the (bLength, bDescriptorType) pair of each descriptor in order, or
none when a length is below 2 or runs past the end of the data. -/
def desc_walk : Nat → List Nat → Option (List (Nat × Nat))
  | _, [] => some []
  | 0, _ :: _ => none
  | fuel + 1, len :: rest =>
    if len < 2 ∨ rest.length + 1 < len then none
    else
      match rest with
      | [] => none
      | ty :: _ => (desc_walk fuel (rest.drop (len - 1))).map (fun l => (len, ty) :: l)

/-- The descriptors nested in conf_descs as (bLength, bDescriptorType)
pairs, read from the size and type fields of the struct members. -/
def jig_conf_descs.headers (d : jig_conf_descs) : List (Nat × Nat) :=
  [(d.conf_desc.size, d.conf_desc.type), (d.m.hid_iface.size, d.m.hid_iface.type),
   (d.m.hid_desc.size, d.m.hid_desc.type), (d.m.rep_in.size, d.m.rep_in.type)] ++
  (match d.k with
   | some g => [(g.hid_iface.size, g.hid_iface.type), (g.hid_desc.size, g.hid_desc.type),
                (g.rep_in.size, g.rep_in.type)]
   | none => [])

/-- The kind of a report field: the main item that declares it. -/
inductive hid_main where
  | input
  | output
  | feature
deriving DecidableEq, Repr

/-- One main item Input, Output or Feature of a report descriptor together
with the global and local items in force at it: `report_count` fields of
`report_size` bits each. -/
structure hid_field where
  kind : hid_main
  flags : Nat
  report_size : Nat
  report_count : Nat
  logical_min : Int
  logical_max : Int
  usage_page : Nat
  usages : List Nat
  usage_min : Option Nat
  usage_max : Option Nat
deriving DecidableEq, Repr

/-- The state of a reader of HID short items: the global items, the local
items since the last main item, the collection depth and the fields declared
so far, in order. -/
structure hid_state where
  usage_page : Nat
  logical_min : Int
  logical_max : Int
  report_size : Nat
  report_count : Nat
  usages : List Nat
  usage_min : Option Nat
  usage_max : Option Nat
  depth : Nat
  fields : List hid_field
deriving DecidableEq, Repr

/-- The reader's state before the first item. -/
def hid_state.init : hid_state :=
  { usage_page := 0, logical_min := 0, logical_max := 0, report_size := 0, report_count := 0,
    usages := [], usage_min := none, usage_max := none, depth := 0, fields := [] }

/-- The local items are dropped after every main item (HID 1.11, 6.2.2.8). -/
def hid_state.clear_locals (st : hid_state) : hid_state :=
  { st with usages := [], usage_min := none, usage_max := none }

/-- Number of data bytes of a short item, from bits 0-1 of its first byte
(HID 1.11, 6.2.2.2): 0, 1, 2 or 4. -/
def hid_data_size (b0 : Nat) : Nat :=
  if b0 &&& 3 = 0 then 0 else if b0 &&& 3 = 1 then 1 else if b0 &&& 3 = 2 then 2 else 4

/-- Item data read as an unsigned little-endian number. -/
def hid_unsigned : List Nat → Nat
  | [] => 0
  | b :: bs => b + 256 * hid_unsigned bs

/-- Item data read as a signed (two's complement) little-endian number. -/
def hid_signed (bs : List Nat) : Int :=
  if 2 * hid_unsigned bs ≥ 256 ^ bs.length ∧ bs ≠ [] then
    (hid_unsigned bs : Int) - (256 ^ bs.length : Nat)
  else (hid_unsigned bs : Int)

/-- A main item Input, Output or Feature: the field it declares is added. -/
def hid_state.declare (st : hid_state) (kind : hid_main) (flags : Nat) : hid_state :=
  { st.clear_locals with
    fields := st.fields ++
      [{ kind := kind, flags := flags, report_size := st.report_size,
         report_count := st.report_count, logical_min := st.logical_min,
         logical_max := st.logical_max, usage_page := st.usage_page, usages := st.usages,
         usage_min := st.usage_min, usage_max := st.usage_max }] }

/-- The effect of one short item with first byte `b0` (bTag in bits 4-7,
bType in bits 2-3) and its data (HID 1.11, 6.2.2.4 to 6.2.2.8).  The reader
knows the items the two tables of this device use; any other item, and an
End Collection without a Collection, makes it fail. -/
def hid_item (st : hid_state) (b0 : Nat) (data : List Nat) : Option hid_state :=
  let tag := b0 >>> 4
  let ty := (b0 >>> 2) &&& 3
  if ty = 0 then
    if tag = 0x8 then some (st.declare hid_main.input (hid_unsigned data))
    else if tag = 0x9 then some (st.declare hid_main.output (hid_unsigned data))
    else if tag = 0xB then some (st.declare hid_main.feature (hid_unsigned data))
    else if tag = 0xA then some { st.clear_locals with depth := st.depth + 1 }
    else if tag = 0xC then
      if st.depth = 0 then none else some { st.clear_locals with depth := st.depth - 1 }
    else none
  else if ty = 1 then
    if tag = 0x0 then some { st with usage_page := hid_unsigned data }
    else if tag = 0x1 then some { st with logical_min := hid_signed data }
    else if tag = 0x2 then some { st with logical_max := hid_signed data }
    else if tag = 0x7 then some { st with report_size := hid_unsigned data }
    else if tag = 0x9 then some { st with report_count := hid_unsigned data }
    else none
  else if ty = 2 then
    if tag = 0x0 then some { st with usages := st.usages ++ [hid_unsigned data] }
    else if tag = 0x1 then some { st with usage_min := some (hid_unsigned data) }
    else if tag = 0x2 then some { st with usage_max := some (hid_unsigned data) }
    else none
  else none

/-- Reads a table item by item; fails on an item whose data runs past the
end of the table. -/
def hid_read : Nat → List Nat → hid_state → Option hid_state
  | _, [], st => some st
  | 0, _ :: _, _ => none
  | fuel + 1, b0 :: rest, st =>
    if rest.length < hid_data_size b0 then none
    else
      match hid_item st b0 (rest.take (hid_data_size b0)) with
      | none => none
      | some st1 => hid_read fuel (rest.drop (hid_data_size b0)) st1

/-- The fields a report descriptor declares, provided every item is complete
and known and the collections are balanced. -/
def hid_fields (table : List Nat) : Option (List hid_field) :=
  match hid_read table.length table hid_state.init with
  | some st => if st.depth = 0 then some st.fields else none
  | none => none

/-- Total number of bits of the fields of one kind. -/
def hid_bits (kind : hid_main) (fs : List hid_field) : Nat :=
  ((fs.filter (fun f => f.kind = kind)).map (fun f => f.report_size * f.report_count)).sum

/-! ## Sequences of callbacks -/

/-- The function vnd_in_req_ack_clbk. -/
def vnd_in_req_ack_clbk (s : jig_state) : jig_state := s

/-- The function vnd_out_req_ack_clbk. -/
def vnd_out_req_ack_clbk (s : jig_state) : jig_state := s

/-- One call made by the control-request driver through the three callback
sets registered by init_usb_jiggler: a setup packet handed to the setup
callback of one set (a dispatch), or one of the acknowledge and data-received
callbacks.  Which set the driver picks for a packet is decided in the absent
usb_ctl_req.c, so a call names the set itself. -/
inductive jig_call where
  | setup_std (sp : usb_stp_pkt)
  | setup_cls (sp : usb_stp_pkt)
  | setup_vnd (sp : usb_stp_pkt)
  | in_ack_std
  | out_rec_std
  | out_ack_std
  | in_ack_cls
  | out_rec_cls
  | out_ack_cls
  | in_ack_vnd
  | out_rec_vnd
  | out_ack_vnd
deriving DecidableEq, Repr

/-- The state after one call. -/
def jig_call.run (c : sysconf) (k : jig_call) (s : jig_state) : jig_state :=
  match k with
  | jig_call.setup_std sp => (std_stp c sp s).2
  | jig_call.setup_cls sp => (cls_stp c sp s).2
  | jig_call.setup_vnd sp => (vnd_stp sp s).2
  | jig_call.in_ack_std => std_in_req_ack_clbk c s
  | jig_call.out_rec_std => (std_out_req_rec_clbk s).2
  | jig_call.out_ack_std => std_out_req_ack_clbk c s
  | jig_call.in_ack_cls => cls_in_req_ack_clbk c s
  | jig_call.out_rec_cls => (cls_out_req_rec_clbk c s).2
  | jig_call.out_ack_cls => cls_out_req_ack_clbk c s
  | jig_call.in_ack_vnd => vnd_in_req_ack_clbk s
  | jig_call.out_rec_vnd => (vnd_out_req_rec_clbk s).2
  | jig_call.out_ack_vnd => vnd_out_req_ack_clbk s

/-- The state after a sequence of calls, first call first. -/
def run_calls (c : sysconf) (l : List jig_call) (s : jig_state) : jig_state :=
  l.foldl (fun s k => k.run c s) s

/-! ## The telemetry channel seen from a dispatch -/

/-- Two states that differ at most in the logger of usb_log.c: the event
queue and its drop counter qfull_cnt. -/
def same_but_log (a b : jig_state) : Prop :=
  a.udp = b.udp ∧ a.stats = b.stats ∧ a.stp_pkt = b.stp_pkt ∧ a.ctl_rpl = b.ctl_rpl ∧
  a.get_idle_rpl = b.get_idle_rpl ∧ a.mouse_report = b.mouse_report ∧
  a.keyb_report = b.keyb_report ∧ a.keyb_led_report = b.keyb_led_report ∧
  a.keyb_led_rep_que = b.keyb_led_rep_que

/-- The handlers std_stp chooses from, in the order of its if-chain, the
final else branch last; each runs on the state in which the packet has been
logged and stored. -/
def std_stp_handlers (c : sysconf) : List (jig_state → usb_ctl_req × jig_state) :=
  [std_set_desc c usb_ctl_req.init, std_get_desc_dev c usb_ctl_req.init,
   std_get_desc_ifc c usb_ctl_req.init, std_set_addr c usb_ctl_req.init,
   std_set_conf c usb_ctl_req.init, std_get_conf c usb_ctl_req.init,
   std_set_iface c usb_ctl_req.init, std_get_iface c usb_ctl_req.init,
   std_synch_frm c usb_ctl_req.init, std_get_dev_stat c usb_ctl_req.init,
   std_get_iface_stat c usb_ctl_req.init, std_get_endp_stat c usb_ctl_req.init,
   std_clr_dev_feat c usb_ctl_req.init, std_clr_set_iface_feat c usb_ctl_req.init,
   std_clr_set_endp_feat c usb_ctl_req.init, std_set_dev_feat c usb_ctl_req.init,
   fun s => (usb_ctl_req.init, stp_err_cnt_inc (if_log_std_cmd c req_err_str s))]

/-- The handlers cls_stp chooses from, in the order of its if-chain, the
final else branch last. -/
def cls_stp_handlers (c : sysconf) : List (jig_state → usb_ctl_req × jig_state) :=
  [cls_get_report c usb_ctl_req.init, cls_get_idle c usb_ctl_req.init,
   cls_get_protocol c usb_ctl_req.init, cls_set_report c usb_ctl_req.init,
   cls_set_idle c usb_ctl_req.init, cls_set_protocol c usb_ctl_req.init,
   fun s => (usb_ctl_req.init, stp_err_cnt_inc (if_log_cls_cmd c req_err_str s))]

/-- A state around a given driver state whose event queue holds `que` and
whose drop counter is `qfull`; the statistics counters are 7 and 7. -/
def jig_state_log (u : udp) (que : List log_entry) (qfull : Nat) : jig_state :=
  { jig_state_of u 7 7 with log_que := que, qfull_cnt := qfull }

/-- Four events: the capacity of the event queue in the sample build. -/
def log_que_4 : List log_entry :=
  [log_entry.usb_ctl_req_stp_event ⟨0x80, 6, 0x0100, 0, 18⟩,
   log_entry.usb_ctl_req_cmd_event 0 6 "done",
   log_entry.usb_ctl_req_stp_event ⟨0x00, 5, 5, 0, 0⟩,
   log_entry.usb_ctl_req_cmd_event 0 5 "done"]

/-! ## States the callbacks can find the device in -/

/-- Modelled from the spec: the driver before the device is configured, as
a bus reset and the address assignment leave it (udp.c, which does both, is
absent): the state is Default or Addressed and no endpoint of the catalog is
enabled, since the only call that enables one is made by SET_CONFIGURATION. -/
def unconfigured (c : sysconf) (u : udp) : Prop :=
  u.state ≠ udp_state.UDP_STATE_CONFIGURED ∧ ∀ n ∈ catalog_eps c, u.enabled n = false

instance (c : sysconf) (u : udp) : Decidable (unconfigured c u) := by
  unfold unconfigured; infer_instance

/-- A state the callbacks can find the engine in: the state after some
sequence of calls that started while the device was not yet configured. -/
def reachable (c : sysconf) (s : jig_state) : Prop :=
  ∃ s0 l, unconfigured c s0.udp ∧ s = run_calls c l s0

/-! # Theorems -/

/-! ## Logging and counting leave the rest of the state alone -/

@[simp] theorem stp_err_cnt_inc_udp (s : jig_state) : (stp_err_cnt_inc s).udp = s.udp := rfl
@[simp] theorem stp_rej_cnt_inc_udp (s : jig_state) : (stp_rej_cnt_inc s).udp = s.udp := rfl
@[simp] theorem stp_err_cnt_inc_err (s : jig_state) :
    (stp_err_cnt_inc s).stats.stp_err_cnt = (s.stats.stp_err_cnt + 1) % 65536 := rfl
@[simp] theorem stp_err_cnt_inc_rej (s : jig_state) :
    (stp_err_cnt_inc s).stats.stp_rej_cnt = s.stats.stp_rej_cnt := rfl
@[simp] theorem stp_rej_cnt_inc_rej (s : jig_state) :
    (stp_rej_cnt_inc s).stats.stp_rej_cnt = (s.stats.stp_rej_cnt + 1) % 65536 := rfl
@[simp] theorem stp_rej_cnt_inc_err (s : jig_state) :
    (stp_rej_cnt_inc s).stats.stp_err_cnt = s.stats.stp_err_cnt := rfl

@[simp] theorem if_log_stp_stats (c : sysconf) (sp : usb_stp_pkt) (s : jig_state) :
    (if_log_stp c sp s).stats = s.stats := by
  unfold if_log_stp log_stp_event xQueueSendFromISR_log inc_qfull_cnt
  split <;> [split; rfl] <;> rfl

@[simp] theorem if_log_stp_udp (c : sysconf) (sp : usb_stp_pkt) (s : jig_state) :
    (if_log_stp c sp s).udp = s.udp := by
  unfold if_log_stp log_stp_event xQueueSendFromISR_log inc_qfull_cnt
  split <;> [split; rfl] <;> rfl

@[simp] theorem if_log_std_cmd_stats (c : sysconf) (t : String) (s : jig_state) :
    (if_log_std_cmd c t s).stats = s.stats := by
  unfold if_log_std_cmd log_std_cmd_event xQueueSendFromISR_log inc_qfull_cnt
  split <;> [split; rfl] <;> rfl

@[simp] theorem if_log_std_cmd_udp (c : sysconf) (t : String) (s : jig_state) :
    (if_log_std_cmd c t s).udp = s.udp := by
  unfold if_log_std_cmd log_std_cmd_event xQueueSendFromISR_log inc_qfull_cnt
  split <;> [split; rfl] <;> rfl

@[simp] theorem if_log_cls_cmd_stats (c : sysconf) (t : String) (s : jig_state) :
    (if_log_cls_cmd c t s).stats = s.stats := by
  unfold if_log_cls_cmd log_cls_cmd_event xQueueSendFromISR_log inc_qfull_cnt
  split <;> [split; rfl] <;> rfl

@[simp] theorem if_log_cls_cmd_udp (c : sysconf) (t : String) (s : jig_state) :
    (if_log_cls_cmd c t s).udp = s.udp := by
  unfold if_log_cls_cmd log_cls_cmd_event xQueueSendFromISR_log inc_qfull_cnt
  split <;> [split; rfl] <;> rfl

/-! ## C1: unmatched (request code, recipient) pairs -/

theorem std_stp_unmatched (c : sysconf) (sp : usb_stp_pkt) (s : jig_state)
    (h : stp_pair sp ∉ std_stp_pairs) :
    std_stp c sp s =
      (usb_ctl_req.init,
       stp_err_cnt_inc (if_log_std_cmd c req_err_str { if_log_stp c sp s with stp_pkt := sp })) := by
  simp only [std_stp_pairs, stp_pair, List.mem_cons, List.mem_singleton, List.not_mem_nil,
    Prod.mk.injEq, not_or, or_false] at h
  obtain ⟨h1, h2, h3, h4, h5, h6, h7, h8, h9, h10, h11, h12, h13, h14, h15, h16, h17, h18⟩ := h
  unfold std_stp
  simp only [h1, h2, h3, h4, h5, h6, h7, h8, h9, h10, h11, h12, h13, h14, h15, h16, h17, h18,
    if_false]

theorem cls_stp_unmatched (c : sysconf) (sp : usb_stp_pkt) (s : jig_state)
    (h : stp_pair sp ∉ cls_stp_pairs) :
    cls_stp c sp s =
      (usb_ctl_req.init,
       stp_err_cnt_inc (if_log_cls_cmd c req_err_str { if_log_stp c sp s with stp_pkt := sp })) := by
  simp only [cls_stp_pairs, stp_pair, List.mem_cons, List.mem_singleton, List.not_mem_nil,
    Prod.mk.injEq, not_or, or_false] at h
  obtain ⟨h1, h2, h3, h4, h5, h6⟩ := h
  unfold cls_stp
  simp only [h1, h2, h3, h4, h5, h6, if_false]

/-- C1 (as the code has it): a setup packet whose (request code, recipient)
pair is none of the pairs of std_stp, respectively cls_stp, gets valid=false
in every state; stp_rej_cnt keeps its value and stp_err_cnt, an unsigned
short, is incremented modulo 2^16: one more than before unless it was 65535,
which wraps to 0. -/
theorem C1_unmatched_pair_is_error (c : sysconf) (sp : usb_stp_pkt) (s : jig_state) :
    (stp_pair sp ∉ std_stp_pairs →
      (std_stp c sp s).1.valid = false ∧
      (std_stp c sp s).2.stats.stp_err_cnt = (s.stats.stp_err_cnt + 1) % 65536 ∧
      (s.stats.stp_err_cnt < 65535 →
        (std_stp c sp s).2.stats.stp_err_cnt = s.stats.stp_err_cnt + 1) ∧
      (std_stp c sp s).2.stats.stp_rej_cnt = s.stats.stp_rej_cnt) ∧
    (stp_pair sp ∉ cls_stp_pairs →
      (cls_stp c sp s).1.valid = false ∧
      (cls_stp c sp s).2.stats.stp_err_cnt = (s.stats.stp_err_cnt + 1) % 65536 ∧
      (s.stats.stp_err_cnt < 65535 →
        (cls_stp c sp s).2.stats.stp_err_cnt = s.stats.stp_err_cnt + 1) ∧
      (cls_stp c sp s).2.stats.stp_rej_cnt = s.stats.stp_rej_cnt) := by
  constructor
  · intro h
    rw [std_stp_unmatched c sp s h]
    refine ⟨rfl, by simp, fun hlt => ?_, by simp⟩
    simp only [stp_err_cnt_inc_err, if_log_std_cmd_stats, if_log_stp_stats]
    exact Nat.mod_eq_of_lt (by omega)
  · intro h
    rw [cls_stp_unmatched c sp s h]
    refine ⟨rfl, by simp, fun hlt => ?_, by simp⟩
    simp only [stp_err_cnt_inc_err, if_log_cls_cmd_stats, if_log_stp_stats]
    exact Nat.mod_eq_of_lt (by omega)

/-- C1, witness: request code 0xFF to the device (standard) and request
code 0x55 to an interface (class), with both counters at 7. -/
theorem C1_unmatched_pair_is_error_witness :
    (stp_pair ⟨0x00, 0xFF, 0, 0, 0⟩ ∉ std_stp_pairs ∧
      (std_stp sysconf_keyb ⟨0x00, 0xFF, 0, 0, 0⟩ (jig_state_of udp_addressed 7 7)).1.valid = false ∧
      (std_stp sysconf_keyb ⟨0x00, 0xFF, 0, 0, 0⟩
        (jig_state_of udp_addressed 7 7)).2.stats.stp_err_cnt = 8) ∧
    (stp_pair ⟨0x21, 0x55, 0, 0, 0⟩ ∉ cls_stp_pairs ∧
      (cls_stp sysconf_keyb ⟨0x21, 0x55, 0, 0, 0⟩ (jig_state_of udp_addressed 7 7)).1.valid = false ∧
      (cls_stp sysconf_keyb ⟨0x21, 0x55, 0, 0, 0⟩
        (jig_state_of udp_addressed 7 7)).2.stats.stp_err_cnt = 8) :=
  have h := C1_unmatched_pair_is_error sysconf_keyb ⟨0x00, 0xFF, 0, 0, 0⟩
    (jig_state_of udp_addressed 7 7)
  have k := C1_unmatched_pair_is_error sysconf_keyb ⟨0x21, 0x55, 0, 0, 0⟩
    (jig_state_of udp_addressed 7 7)
  ⟨⟨by decide, (h.1 (by decide)).1, (h.1 (by decide)).2.2.1 (by decide)⟩,
   ⟨by decide, (k.2 (by decide)).1, (k.2 (by decide)).2.2.1 (by decide)⟩⟩

/-- C1, counterexample: request code 0xFF to the device is in no pair of
std_stp; with stp_err_cnt at 65535 the dispatch leaves it at 0, not at 65536. -/
theorem C1_counterexample :
    stp_pair ⟨0x00, 0xFF, 0, 0, 0⟩ ∉ std_stp_pairs ∧
    (std_stp sysconf_keyb ⟨0x00, 0xFF, 0, 0, 0⟩
      (jig_state_of udp_addressed 65535 0)).1.valid = false ∧
    (std_stp sysconf_keyb ⟨0x00, 0xFF, 0, 0, 0⟩
      (jig_state_of udp_addressed 65535 0)).2.stats.stp_err_cnt = 0 ∧
    (std_stp sysconf_keyb ⟨0x00, 0xFF, 0, 0, 0⟩
      (jig_state_of udp_addressed 65535 0)).2.stats.stp_err_cnt
      ≠ (jig_state_of udp_addressed 65535 0).stats.stp_err_cnt + 1 := by
  decide

/-! ## C2: the three outcomes of a dispatch -/

theorem std_set_desc_outcome (c : sysconf) (ucr : usb_ctl_req) (s : jig_state)
    (hv : ucr.valid = false) : has_outcome s.stats (std_set_desc c ucr s) := by
  unfold std_set_desc
  simp only []
  split_ifs <;> simp [has_outcome, is_done, is_error, is_reject, hv]

theorem std_get_desc_dev_outcome (c : sysconf) (ucr : usb_ctl_req) (s : jig_state)
    (hv : ucr.valid = false) : has_outcome s.stats (std_get_desc_dev c ucr s) := by
  unfold std_get_desc_dev
  simp only []
  split_ifs <;> simp [has_outcome, is_done, is_error, is_reject, hv, serve_in]

theorem std_get_desc_ifc_outcome (c : sysconf) (ucr : usb_ctl_req) (s : jig_state)
    (hv : ucr.valid = false) : has_outcome s.stats (std_get_desc_ifc c ucr s) := by
  unfold std_get_desc_ifc
  simp only []
  split_ifs <;> simp [has_outcome, is_done, is_error, is_reject, hv, serve_in]

theorem std_set_addr_outcome (c : sysconf) (ucr : usb_ctl_req) (s : jig_state)
    (hv : ucr.valid = false) : has_outcome s.stats (std_set_addr c ucr s) := by
  unfold std_set_addr
  simp only []
  split_ifs <;> simp [has_outcome, is_done, is_error, is_reject, hv]

theorem std_set_conf_outcome (c : sysconf) (ucr : usb_ctl_req) (s : jig_state) :
    has_outcome s.stats (std_set_conf c ucr s) := by
  unfold std_set_conf
  simp only []
  split_ifs <;> simp [has_outcome, is_done, is_error, is_reject, on_udp]

theorem std_get_conf_outcome (c : sysconf) (ucr : usb_ctl_req) (s : jig_state)
    (hv : ucr.valid = false) : has_outcome s.stats (std_get_conf c ucr s) := by
  unfold std_get_conf
  simp only []
  split_ifs <;> simp [has_outcome, is_done, is_error, is_reject, hv, serve_ctl_rpl]

theorem std_set_iface_outcome (c : sysconf) (ucr : usb_ctl_req) (s : jig_state)
    (hv : ucr.valid = false) : has_outcome s.stats (std_set_iface c ucr s) := by
  unfold std_set_iface
  simp only []
  split_ifs <;> simp [has_outcome, is_done, is_error, is_reject, hv]

theorem std_get_iface_outcome (c : sysconf) (ucr : usb_ctl_req) (s : jig_state)
    (hv : ucr.valid = false) : has_outcome s.stats (std_get_iface c ucr s) := by
  unfold std_get_iface
  simp only []
  split_ifs <;> simp [has_outcome, is_done, is_error, is_reject, hv, serve_ctl_rpl]

theorem std_synch_frm_outcome (c : sysconf) (ucr : usb_ctl_req) (s : jig_state)
    (hv : ucr.valid = false) : has_outcome s.stats (std_synch_frm c ucr s) := by
  unfold std_synch_frm
  simp only []
  split_ifs <;> simp [has_outcome, is_done, is_error, is_reject, hv]

theorem std_get_dev_stat_outcome (c : sysconf) (ucr : usb_ctl_req) (s : jig_state)
    (hv : ucr.valid = false) : has_outcome s.stats (std_get_dev_stat c ucr s) := by
  unfold std_get_dev_stat
  simp only []
  split_ifs <;> simp [has_outcome, is_done, is_error, is_reject, hv, serve_ctl_rpl]

theorem std_get_iface_stat_outcome (c : sysconf) (ucr : usb_ctl_req) (s : jig_state)
    (hv : ucr.valid = false) : has_outcome s.stats (std_get_iface_stat c ucr s) := by
  unfold std_get_iface_stat
  simp only []
  split_ifs <;> simp [has_outcome, is_done, is_error, is_reject, hv, serve_ctl_rpl]

theorem std_get_endp_stat_outcome (c : sysconf) (ucr : usb_ctl_req) (s : jig_state)
    (hv : ucr.valid = false) : has_outcome s.stats (std_get_endp_stat c ucr s) := by
  unfold std_get_endp_stat
  simp only []
  split_ifs <;> simp [has_outcome, is_done, is_error, is_reject, hv, serve_ctl_rpl]

theorem std_clr_dev_feat_outcome (c : sysconf) (ucr : usb_ctl_req) (s : jig_state)
    (hv : ucr.valid = false) : has_outcome s.stats (std_clr_dev_feat c ucr s) := by
  unfold std_clr_dev_feat
  simp only []
  split_ifs <;> simp [has_outcome, is_done, is_error, is_reject, hv, on_udp]

theorem std_set_dev_feat_outcome (c : sysconf) (ucr : usb_ctl_req) (s : jig_state)
    (hv : ucr.valid = false) : has_outcome s.stats (std_set_dev_feat c ucr s) := by
  unfold std_set_dev_feat
  simp only []
  split_ifs <;> simp [has_outcome, is_done, is_error, is_reject, hv, on_udp]

theorem std_clr_set_iface_feat_outcome (c : sysconf) (ucr : usb_ctl_req) (s : jig_state)
    (hv : ucr.valid = false) : has_outcome s.stats (std_clr_set_iface_feat c ucr s) := by
  unfold std_clr_set_iface_feat
  simp [has_outcome, is_done, is_error, is_reject, hv]

theorem std_clr_set_endp_feat_outcome (c : sysconf) (ucr : usb_ctl_req) (s : jig_state)
    (hv : ucr.valid = false) : has_outcome s.stats (std_clr_set_endp_feat c ucr s) := by
  unfold std_clr_set_endp_feat
  simp only []
  split_ifs <;> simp [has_outcome, is_done, is_error, is_reject, hv, on_udp]

theorem cls_get_report_outcome (c : sysconf) (ucr : usb_ctl_req) (s : jig_state)
    (hv : ucr.valid = false) : has_outcome s.stats (cls_get_report c ucr s) := by
  unfold cls_get_report
  simp only []
  split_ifs <;> simp [has_outcome, is_done, is_error, is_reject, hv, serve_in]

theorem cls_get_idle_outcome (c : sysconf) (ucr : usb_ctl_req) (s : jig_state)
    (hv : ucr.valid = false) : has_outcome s.stats (cls_get_idle c ucr s) := by
  unfold cls_get_idle
  simp only []
  split_ifs <;> simp [has_outcome, is_done, is_error, is_reject, hv]

theorem cls_get_protocol_outcome (c : sysconf) (ucr : usb_ctl_req) (s : jig_state)
    (hv : ucr.valid = false) : has_outcome s.stats (cls_get_protocol c ucr s) := by
  unfold cls_get_protocol
  simp [has_outcome, is_done, is_error, is_reject, hv]

theorem cls_set_report_outcome (c : sysconf) (ucr : usb_ctl_req) (s : jig_state)
    (hv : ucr.valid = false) : has_outcome s.stats (cls_set_report c ucr s) := by
  unfold cls_set_report
  simp only []
  split_ifs <;> simp [has_outcome, is_done, is_error, is_reject, hv]

theorem cls_set_idle_outcome (c : sysconf) (ucr : usb_ctl_req) (s : jig_state)
    (hv : ucr.valid = false) : has_outcome s.stats (cls_set_idle c ucr s) := by
  unfold cls_set_idle
  simp only []
  split_ifs <;> simp [has_outcome, is_done, is_error, is_reject, hv]

theorem cls_set_protocol_outcome (c : sysconf) (ucr : usb_ctl_req) (s : jig_state)
    (hv : ucr.valid = false) : has_outcome s.stats (cls_set_protocol c ucr s) := by
  unfold cls_set_protocol
  simp [has_outcome, is_done, is_error, is_reject, hv]

theorem has_outcome_ite {p : Prop} [Decidable p] {st : usb_jiggler_stats}
    {a b : usb_ctl_req × jig_state} (ha : has_outcome st a) (hb : has_outcome st b) :
    has_outcome st (if p then a else b) := by
  by_cases h : p
  · rw [if_pos h]; exact ha
  · rw [if_neg h]; exact hb

theorem std_stp_outcome (c : sysconf) (sp : usb_stp_pkt) (s : jig_state) :
    has_outcome s.stats (std_stp c sp s) := by
  unfold std_stp
  simp only []
  generalize hs' : ({ if_log_stp c sp s with stp_pkt := sp } : jig_state) = s'
  have hs : s'.stats = s.stats := by subst hs'; simp
  rw [← hs]
  refine has_outcome_ite (std_set_desc_outcome _ _ _ rfl) ?_
  refine has_outcome_ite (std_get_desc_dev_outcome _ _ _ rfl) ?_
  refine has_outcome_ite (std_get_desc_ifc_outcome _ _ _ rfl) ?_
  refine has_outcome_ite (std_set_addr_outcome _ _ _ rfl) ?_
  refine has_outcome_ite (std_set_conf_outcome _ _ _) ?_
  refine has_outcome_ite (std_get_conf_outcome _ _ _ rfl) ?_
  refine has_outcome_ite (std_set_iface_outcome _ _ _ rfl) ?_
  refine has_outcome_ite (std_get_iface_outcome _ _ _ rfl) ?_
  refine has_outcome_ite (std_synch_frm_outcome _ _ _ rfl) ?_
  refine has_outcome_ite (std_get_dev_stat_outcome _ _ _ rfl) ?_
  refine has_outcome_ite (std_get_iface_stat_outcome _ _ _ rfl) ?_
  refine has_outcome_ite (std_get_endp_stat_outcome _ _ _ rfl) ?_
  refine has_outcome_ite (std_clr_dev_feat_outcome _ _ _ rfl) ?_
  refine has_outcome_ite (std_clr_set_iface_feat_outcome _ _ _ rfl) ?_
  refine has_outcome_ite (std_clr_set_endp_feat_outcome _ _ _ rfl) ?_
  refine has_outcome_ite (std_set_dev_feat_outcome _ _ _ rfl) ?_
  refine has_outcome_ite (std_clr_set_iface_feat_outcome _ _ _ rfl) ?_
  refine has_outcome_ite (std_clr_set_endp_feat_outcome _ _ _ rfl) ?_
  simp [has_outcome, is_done, is_error, is_reject, usb_ctl_req.init]

theorem cls_stp_outcome (c : sysconf) (sp : usb_stp_pkt) (s : jig_state) :
    has_outcome s.stats (cls_stp c sp s) := by
  unfold cls_stp
  simp only []
  generalize hs' : ({ if_log_stp c sp s with stp_pkt := sp } : jig_state) = s'
  have hs : s'.stats = s.stats := by subst hs'; simp
  rw [← hs]
  refine has_outcome_ite (cls_get_report_outcome _ _ _ rfl) ?_
  refine has_outcome_ite (cls_get_idle_outcome _ _ _ rfl) ?_
  refine has_outcome_ite (cls_get_protocol_outcome _ _ _ rfl) ?_
  refine has_outcome_ite (cls_set_report_outcome _ _ _ rfl) ?_
  refine has_outcome_ite (cls_set_idle_outcome _ _ _ rfl) ?_
  refine has_outcome_ite (cls_set_protocol_outcome _ _ _ rfl) ?_
  simp [has_outcome, is_done, is_error, is_reject, usb_ctl_req.init]

/-- C2 (as the code has it): one dispatch through std_stp or cls_stp ends in
exactly one of Done (valid, both counters unchanged), Error (invalid,
stp_err_cnt incremented, stp_rej_cnt unchanged) and Reject (invalid,
stp_rej_cnt incremented, stp_err_cnt unchanged), where an increment is that
of an unsigned short, modulo 2^16; valid=false holds iff exactly one of the
two counters was so incremented.  While both counters are below 65535 the
increment is exactly one. -/
theorem C2_dispatch_outcomes (c : sysconf) (sp : usb_stp_pkt) (s : jig_state)
    (r : usb_ctl_req × jig_state) (hr : r = std_stp c sp s ∨ r = cls_stp c sp s) :
    (is_done s.stats r ∨ is_error s.stats r ∨ is_reject s.stats r) ∧
    ¬ (is_done s.stats r ∧ is_error s.stats r) ∧
    ¬ (is_done s.stats r ∧ is_reject s.stats r) ∧
    ¬ (is_error s.stats r ∧ is_reject s.stats r) ∧
    (r.1.valid = false ↔
      (r.2.stats.stp_err_cnt = (s.stats.stp_err_cnt + 1) % 65536 ∧
        r.2.stats.stp_rej_cnt = s.stats.stp_rej_cnt) ∨
      (r.2.stats.stp_rej_cnt = (s.stats.stp_rej_cnt + 1) % 65536 ∧
        r.2.stats.stp_err_cnt = s.stats.stp_err_cnt)) ∧
    (s.stats.stp_err_cnt < 65535 → s.stats.stp_rej_cnt < 65535 →
      is_done s.stats r ∨ is_error_exact s.stats r ∨ is_reject_exact s.stats r) := by
  have h : has_outcome s.stats r := by
    rcases hr with hr | hr
    · rw [hr]; exact std_stp_outcome c sp s
    · rw [hr]; exact cls_stp_outcome c sp s
  unfold has_outcome at h
  simp only [is_done, is_error, is_reject, is_error_exact, is_reject_exact, USHRT_NMB] at h ⊢
  refine ⟨h, ?_, ?_, ?_, ?_, ?_⟩
  · rintro ⟨⟨hv, _⟩, hv', _⟩
    rw [hv] at hv'; exact Bool.noConfusion hv'
  · rintro ⟨⟨hv, _⟩, hv', _⟩
    rw [hv] at hv'; exact Bool.noConfusion hv'
  · rintro ⟨⟨_, h1, _⟩, _, _, h2⟩
    omega
  · constructor
    · intro hv
      rcases h with ⟨hv', _⟩ | ⟨_, h1, h2⟩ | ⟨_, h1, h2⟩
      · rw [hv] at hv'; exact Bool.noConfusion hv'
      · exact Or.inl ⟨h1, h2⟩
      · exact Or.inr ⟨h1, h2⟩
    · intro hc
      rcases h with ⟨_, hst⟩ | ⟨hv, _⟩ | ⟨hv, _⟩
      · rw [hst] at hc
        omega
      · exact hv
      · exact hv
  · intro he hj
    rcases h with hd | ⟨hv, h1, h2⟩ | ⟨hv, h1, h2⟩
    · exact Or.inl hd
    · exact Or.inr (Or.inl ⟨hv, by omega, h2⟩)
    · exact Or.inr (Or.inr ⟨hv, by omega, h2⟩)

/-- C2, witness: SET_ADDRESS 5 in state Addressed is Done. -/
theorem C2_dispatch_outcomes_witness :
    is_done (jig_state_of udp_addressed 7 7).stats
      (std_stp sysconf_keyb ⟨0x00, 5, 5, 0, 0⟩ (jig_state_of udp_addressed 7 7)) ∧
    ¬ is_error (jig_state_of udp_addressed 7 7).stats
      (std_stp sysconf_keyb ⟨0x00, 5, 5, 0, 0⟩ (jig_state_of udp_addressed 7 7)) :=
  have h := C2_dispatch_outcomes sysconf_keyb ⟨0x00, 5, 5, 0, 0⟩ (jig_state_of udp_addressed 7 7)
    (std_stp sysconf_keyb ⟨0x00, 5, 5, 0, 0⟩ (jig_state_of udp_addressed 7 7)) (Or.inl rfl)
  ⟨by decide, fun he => h.2.1 ⟨by decide, he⟩⟩

/-- C2, counterexample: with stp_err_cnt at 65535 an unmatched request leaves
both counters at 0, which is none of Done, Error (stp_err_cnt + 1) and Reject
(stp_rej_cnt + 1) with the counters read as numbers. -/
theorem C2_counterexample :
    ¬ (is_done (jig_state_of udp_addressed 65535 0).stats
        (std_stp sysconf_keyb ⟨0x00, 0xFF, 0, 0, 0⟩ (jig_state_of udp_addressed 65535 0)) ∨
       is_error_exact (jig_state_of udp_addressed 65535 0).stats
        (std_stp sysconf_keyb ⟨0x00, 0xFF, 0, 0, 0⟩ (jig_state_of udp_addressed 65535 0)) ∨
       is_reject_exact (jig_state_of udp_addressed 65535 0).stats
        (std_stp sysconf_keyb ⟨0x00, 0xFF, 0, 0, 0⟩ (jig_state_of udp_addressed 65535 0))) := by
  decide

/-! ## C3: SET_ADDRESS -/

theorem std_stp_set_addr (c : sysconf) (sp : usb_stp_pkt) (s : jig_state)
    (hr : sp.b_request = USB_SET_ADDRESS)
    (hd : sp.bm_request_type &&& 0x1F = USB_DEVICE_RECIPIENT) :
    std_stp c sp s = std_set_addr c usb_ctl_req.init { if_log_stp c sp s with stp_pkt := sp } := by
  unfold std_stp
  simp [hr, hd]

/-- C3 (as the code has it): SET_ADDRESS to the device is valid, with
direction out and both counters unchanged, if and only if w_value <= 127,
w_index = 0, w_length = 0 and the state is Default or Addressed; in every
other case, so for every w_value > 127 in every state, the result is
valid=false, stp_rej_cnt is unchanged and stp_err_cnt is incremented modulo
2^16 (by exactly one while it is below 65535). -/
theorem C3_set_address (c : sysconf) (sp : usb_stp_pkt) (s : jig_state)
    (hr : sp.b_request = USB_SET_ADDRESS)
    (hd : sp.bm_request_type &&& 0x1F = USB_DEVICE_RECIPIENT) :
    ((std_stp c sp s).1.valid = true ↔
      sp.w_value ≤ 127 ∧ sp.w_index = 0 ∧ sp.w_length = 0 ∧
      (s.udp.state = udp_state.UDP_STATE_DEFAULT ∨ s.udp.state = udp_state.UDP_STATE_ADDRESSED)) ∧
    ((std_stp c sp s).1.valid = true →
      (std_stp c sp s).1.trans_dir = some udp_ctl_trans_dir.UDP_CTL_TRANS_OUT ∧
      (std_stp c sp s).2.stats = s.stats ∧ (std_stp c sp s).2.udp = s.udp) ∧
    ((std_stp c sp s).1.valid = false →
      (std_stp c sp s).2.stats.stp_err_cnt = (s.stats.stp_err_cnt + 1) % 65536 ∧
      (s.stats.stp_err_cnt < 65535 →
        (std_stp c sp s).2.stats.stp_err_cnt = s.stats.stp_err_cnt + 1) ∧
      (std_stp c sp s).2.stats.stp_rej_cnt = s.stats.stp_rej_cnt ∧
      (std_stp c sp s).2.udp = s.udp) ∧
    (127 < sp.w_value → (std_stp c sp s).1.valid = false) := by
  rw [std_stp_set_addr c sp s hr hd]
  unfold std_set_addr
  simp only [get_udp_state, if_log_stp_udp]
  split_ifs with h
  · refine ⟨⟨fun _ => h, fun _ => rfl⟩, fun _ => ⟨rfl, by simp, by simp⟩, ?_, ?_⟩
    · intro hv; simp at hv
    · intro hw; omega
  · refine ⟨⟨?_, fun h' => absurd h' h⟩, ?_, ?_, fun _ => rfl⟩
    · intro hv; simp [usb_ctl_req.init] at hv
    · intro hv; simp [usb_ctl_req.init] at hv
    · intro _
      refine ⟨by simp, fun hlt => ?_, by simp, by simp⟩
      simp only [stp_err_cnt_inc_err, if_log_std_cmd_stats, if_log_stp_stats]
      exact Nat.mod_eq_of_lt (by omega)

/-- C3, witness: SET_ADDRESS 5 in state Addressed. -/
theorem C3_set_address_witness :
    (std_stp sysconf_keyb ⟨0x00, 5, 5, 0, 0⟩ (jig_state_of udp_addressed 7 7)).1.valid = true ∧
    (std_stp sysconf_keyb ⟨0x00, 5, 5, 0, 0⟩ (jig_state_of udp_addressed 7 7)).1.trans_dir
      = some udp_ctl_trans_dir.UDP_CTL_TRANS_OUT :=
  have h := C3_set_address sysconf_keyb ⟨0x00, 5, 5, 0, 0⟩ (jig_state_of udp_addressed 7 7)
    (by decide) (by decide)
  ⟨h.1.2 (by decide), (h.2.1 (h.1.2 (by decide))).1⟩

/-- C3, counterexample: SET_ADDRESS 128 in state Addressed with stp_err_cnt
at 65535 is invalid and leaves the counter at 0, not at 65536. -/
theorem C3_counterexample :
    (std_stp sysconf_keyb ⟨0x00, 5, 128, 0, 0⟩
      (jig_state_of udp_addressed 65535 0)).1.valid = false ∧
    (std_stp sysconf_keyb ⟨0x00, 5, 128, 0, 0⟩
      (jig_state_of udp_addressed 65535 0)).2.stats.stp_err_cnt = 0 ∧
    (std_stp sysconf_keyb ⟨0x00, 5, 128, 0, 0⟩
      (jig_state_of udp_addressed 65535 0)).2.stats.stp_err_cnt
      ≠ (jig_state_of udp_addressed 65535 0).stats.stp_err_cnt + 1 := by
  decide

/-! ## C4 and C5: SET_CONFIGURATION -/

theorem foldl_enable_udp (f : usb_endp_desc → Nat) (l : List usb_endp_desc) (u : udp) :
    (l.foldl (fun u ed => enable_udp_endp (ed.b_endpoint_address &&& 0x0F) (f ed) u) u).state
      = u.state ∧
    ∀ n, (l.foldl (fun u ed =>
        enable_udp_endp (ed.b_endpoint_address &&& 0x0F) (f ed) u) u).enabled n
      = (decide (n ∈ l.map (fun ed => ed.b_endpoint_address &&& 0x0F)) || u.enabled n) := by
  induction l generalizing u with
  | nil => simp
  | cons ed l ih =>
    simp only [List.foldl_cons, List.map_cons, List.mem_cons]
    refine ⟨by rw [(ih _).1]; rfl, fun n => ?_⟩
    rw [(ih _).2 n]
    by_cases hn : n = ed.b_endpoint_address &&& 0x0F
    · simp [enable_udp_endp, hn]
    · simp [enable_udp_endp, hn]

theorem foldl_disable_udp (l : List usb_endp_desc) (u : udp) :
    (l.foldl (fun u ed => disable_udp_endp (ed.b_endpoint_address &&& 0x0F) u) u).state
      = u.state ∧
    ∀ n, (l.foldl (fun u ed => disable_udp_endp (ed.b_endpoint_address &&& 0x0F) u) u).enabled n
      = (!decide (n ∈ l.map (fun ed => ed.b_endpoint_address &&& 0x0F)) && u.enabled n) := by
  induction l generalizing u with
  | nil => simp
  | cons ed l ih =>
    simp only [List.foldl_cons, List.map_cons, List.mem_cons]
    refine ⟨by rw [(ih _).1]; rfl, fun n => ?_⟩
    rw [(ih _).2 n]
    by_cases hn : n = ed.b_endpoint_address &&& 0x0F
    · simp [disable_udp_endp, hn]
    · simp [disable_udp_endp, hn]

theorem set_conf_enable_all_enabled (c : sysconf) (u : udp) (n : Nat) :
    (set_conf_enable_all c u).enabled n = (decide (n ∈ catalog_eps c) || u.enabled n) :=
  (foldl_enable_udp c.usb_endp_desc_get_ep_type _ u).2 n

theorem set_conf_disable_all_enabled (c : sysconf) (u : udp) (n : Nat) :
    (set_conf_disable_all c u).enabled n = (!decide (n ∈ catalog_eps c) && u.enabled n) :=
  (foldl_disable_udp _ u).2 n

theorem std_stp_set_conf (c : sysconf) (sp : usb_stp_pkt) (s : jig_state)
    (hr : sp.b_request = USB_SET_CONFIGURATION)
    (hd : sp.bm_request_type &&& 0x1F = USB_DEVICE_RECIPIENT) :
    std_stp c sp s = std_set_conf c usb_ctl_req.init { if_log_stp c sp s with stp_pkt := sp } := by
  unfold std_stp
  simp [hr, hd]

/-- SET_CONFIGURATION(1) in state Addressed. -/
theorem set_conf_1_addressed (c : sysconf) (sp : usb_stp_pkt) (s : jig_state)
    (hr : sp.b_request = USB_SET_CONFIGURATION)
    (hd : sp.bm_request_type &&& 0x1F = USB_DEVICE_RECIPIENT)
    (hv : sp.w_value = 1) (hi : sp.w_index = 0) (hl : sp.w_length = 0)
    (ha : s.udp.state = udp_state.UDP_STATE_ADDRESSED) :
    (std_stp c sp s).1.valid = true ∧
    (std_stp c sp s).2.udp = set_udp_confg true (set_conf_enable_all c s.udp) := by
  rw [std_stp_set_conf c sp s hr hd]
  unfold std_set_conf
  simp [get_udp_state, hv, hi, hl, ha, on_udp]

/-- SET_CONFIGURATION(0) in state Configured. -/
theorem set_conf_0_configured (c : sysconf) (sp : usb_stp_pkt) (s : jig_state)
    (hr : sp.b_request = USB_SET_CONFIGURATION)
    (hd : sp.bm_request_type &&& 0x1F = USB_DEVICE_RECIPIENT)
    (hv : sp.w_value = 0) (hi : sp.w_index = 0) (hl : sp.w_length = 0)
    (ha : s.udp.state = udp_state.UDP_STATE_CONFIGURED) :
    (std_stp c sp s).1.valid = true ∧
    (std_stp c sp s).2.udp = set_udp_confg false (set_conf_disable_all c s.udp) := by
  rw [std_stp_set_conf c sp s hr hd]
  unfold std_set_conf
  simp [get_udp_state, hv, hi, hl, ha, on_udp]

/-- SET_CONFIGURATION(1) from state Addressed followed by SET_CONFIGURATION(0),
from any driver state: both are valid, the first enables and the second
disables every catalog endpoint, the state is Addressed again and an endpoint
is enabled afterwards if and only if it was enabled before and is not a
catalog endpoint. -/
theorem set_conf_round_trip_enabled (c : sysconf) (sp1 sp0 : usb_stp_pkt) (s : jig_state)
    (r1 r2 : usb_ctl_req × jig_state)
    (hr1 : sp1.b_request = USB_SET_CONFIGURATION)
    (hd1 : sp1.bm_request_type &&& 0x1F = USB_DEVICE_RECIPIENT)
    (hv1 : sp1.w_value = 1) (hi1 : sp1.w_index = 0) (hl1 : sp1.w_length = 0)
    (hr0 : sp0.b_request = USB_SET_CONFIGURATION)
    (hd0 : sp0.bm_request_type &&& 0x1F = USB_DEVICE_RECIPIENT)
    (hv0 : sp0.w_value = 0) (hi0 : sp0.w_index = 0) (hl0 : sp0.w_length = 0)
    (ha : s.udp.state = udp_state.UDP_STATE_ADDRESSED)
    (e1 : r1 = std_stp c sp1 s) (e2 : r2 = std_stp c sp0 r1.2) :
    r1.1.valid = true ∧
    r1.2.udp.state = udp_state.UDP_STATE_CONFIGURED ∧
    (∀ ed ∈ find_usb_endp_desc (conf_descs c),
      r1.2.udp.enabled (ed.b_endpoint_address &&& 0x0F) = true) ∧
    r2.1.valid = true ∧
    r2.2.udp.state = udp_state.UDP_STATE_ADDRESSED ∧
    (∀ ed ∈ find_usb_endp_desc (conf_descs c),
      r2.2.udp.enabled (ed.b_endpoint_address &&& 0x0F) = false) ∧
    r2.2.udp.state = s.udp.state ∧
    (∀ n, r2.2.udp.enabled n = (!decide (n ∈ catalog_eps c) && s.udp.enabled n)) ∧
    ((∀ n ∈ catalog_eps c, s.udp.enabled n = false) → r2.2.udp.enabled = s.udp.enabled) := by
  obtain ⟨v1, u1⟩ := set_conf_1_addressed c sp1 s hr1 hd1 hv1 hi1 hl1 ha
  rw [← e1] at v1 u1
  have st1 : r1.2.udp.state = udp_state.UDP_STATE_CONFIGURED := by rw [u1]; rfl
  have en1 : ∀ n, r1.2.udp.enabled n = (decide (n ∈ catalog_eps c) || s.udp.enabled n) := by
    intro n; rw [u1]; exact set_conf_enable_all_enabled c s.udp n
  obtain ⟨v2, u2⟩ := set_conf_0_configured c sp0 r1.2 hr0 hd0 hv0 hi0 hl0 st1
  rw [← e2] at v2 u2
  have st2 : r2.2.udp.state = udp_state.UDP_STATE_ADDRESSED := by rw [u2]; rfl
  have en2 : ∀ n, r2.2.udp.enabled n = (!decide (n ∈ catalog_eps c) && s.udp.enabled n) := by
    intro n
    rw [u2]
    have h := set_conf_disable_all_enabled c r1.2.udp n
    rw [en1 n] at h
    rw [show (set_udp_confg false (set_conf_disable_all c r1.2.udp)).enabled n
          = (set_conf_disable_all c r1.2.udp).enabled n from rfl, h]
    by_cases hn : n ∈ catalog_eps c <;> simp [hn]
  have mem : ∀ ed ∈ find_usb_endp_desc (conf_descs c),
      (ed.b_endpoint_address &&& 0x0F) ∈ catalog_eps c :=
    fun ed hed => List.mem_map_of_mem _ hed
  refine ⟨v1, st1, ?_, v2, st2, ?_, by rw [st2, ha], en2, ?_⟩
  · intro ed hed
    rw [en1]; simp [mem ed hed]
  · intro ed hed
    rw [en2]; simp [mem ed hed]
  · intro hdis
    funext n
    rw [en2]
    by_cases hn : n ∈ catalog_eps c
    · simp [hn, hdis n hn]
    · simp [hn]

/-- C5 (as the code has it): SET_CONFIGURATION to the device is valid if and
only if w_index = 0, w_length = 0, w_value is 0 or 1 and the state is
Addressed or Configured; otherwise the result is valid=false, the driver is
left as it was (no endpoint is enabled, disabled or un-halted, the state is
unchanged, no request reaches it), stp_rej_cnt is unchanged and stp_err_cnt
is incremented modulo 2^16 (by exactly one while it is below 65535). -/
theorem C5_set_configuration (c : sysconf) (sp : usb_stp_pkt) (s : jig_state)
    (hr : sp.b_request = USB_SET_CONFIGURATION)
    (hd : sp.bm_request_type &&& 0x1F = USB_DEVICE_RECIPIENT) :
    ((std_stp c sp s).1.valid = true ↔
      sp.w_index = 0 ∧ sp.w_length = 0 ∧ (sp.w_value = 0 ∨ sp.w_value = 1) ∧
      (s.udp.state = udp_state.UDP_STATE_ADDRESSED ∨
        s.udp.state = udp_state.UDP_STATE_CONFIGURED)) ∧
    ((std_stp c sp s).1.valid = true → (std_stp c sp s).2.stats = s.stats) ∧
    ((std_stp c sp s).1.valid = false →
      (std_stp c sp s).2.stats.stp_err_cnt = (s.stats.stp_err_cnt + 1) % 65536 ∧
      (s.stats.stp_err_cnt < 65535 →
        (std_stp c sp s).2.stats.stp_err_cnt = s.stats.stp_err_cnt + 1) ∧
      (std_stp c sp s).2.stats.stp_rej_cnt = s.stats.stp_rej_cnt ∧
      (std_stp c sp s).2.udp = s.udp) := by
  rw [std_stp_set_conf c sp s hr hd]
  unfold std_set_conf
  simp only [get_udp_state, if_log_stp_udp]
  have herr : ∀ t : jig_state, t.stats = s.stats → s.stats.stp_err_cnt < 65535 →
      (stp_err_cnt_inc t).stats.stp_err_cnt = s.stats.stp_err_cnt + 1 := by
    intro t ht hlt
    rw [stp_err_cnt_inc_err, ht]
    exact Nat.mod_eq_of_lt (by omega)
  cases hs : s.udp.state <;> split_ifs <;>
    simp_all [usb_ctl_req.init, on_udp] <;> omega

/-- C5, witness: SET_CONFIGURATION(1) in state Addressed is valid. -/
theorem C5_set_configuration_witness :
    (std_stp sysconf_keyb ⟨0x00, 9, 1, 0, 0⟩ (jig_state_of udp_addressed 7 7)).1.valid = true ∧
    (std_stp sysconf_keyb ⟨0x00, 9, 1, 0, 0⟩ (jig_state_of udp_addressed 7 7)).2.stats
      = (jig_state_of udp_addressed 7 7).stats :=
  have h := C5_set_configuration sysconf_keyb ⟨0x00, 9, 1, 0, 0⟩ (jig_state_of udp_addressed 7 7)
    (by decide) (by decide)
  ⟨h.1.2 (by decide), h.2.1 (h.1.2 (by decide))⟩

/-- C5, counterexample: SET_CONFIGURATION(2) in state Addressed with
stp_err_cnt at 65535 is invalid and leaves the counter at 0, not at 65536. -/
theorem C5_counterexample :
    (std_stp sysconf_keyb ⟨0x00, 9, 2, 0, 0⟩
      (jig_state_of udp_addressed 65535 0)).1.valid = false ∧
    (std_stp sysconf_keyb ⟨0x00, 9, 2, 0, 0⟩
      (jig_state_of udp_addressed 65535 0)).2.stats.stp_err_cnt = 0 ∧
    (std_stp sysconf_keyb ⟨0x00, 9, 2, 0, 0⟩
      (jig_state_of udp_addressed 65535 0)).2.stats.stp_err_cnt
      ≠ (jig_state_of udp_addressed 65535 0).stats.stp_err_cnt + 1 := by
  decide

/-! ## C6: GET_DESCRIPTOR(Device) -/

theorem std_stp_get_desc_dev (c : sysconf) (sp : usb_stp_pkt) (s : jig_state)
    (hr : sp.b_request = USB_GET_DESCRIPTOR)
    (hd : sp.bm_request_type &&& 0x1F = USB_DEVICE_RECIPIENT) :
    std_stp c sp s
      = std_get_desc_dev c usb_ctl_req.init { if_log_stp c sp s with stp_pkt := sp } := by
  unfold std_stp
  simp [hr, hd]

theorem dev_desc_bytes_length (c : sysconf) : (dev_desc c).bytes.length = 18 := by
  simp [usb_dev_desc.bytes, le16]

/-- C6: for every w_length, GET_DESCRIPTOR to the device with type Device,
descriptor index 0 and w_index 0 is valid, direction in, and serves the
18-byte device descriptor from its first byte with byte-count
min(w_length, 18) and requested length w_length, in every state and without
touching a counter; w_length 8 gives exactly the first 8 bytes and w_length
64 exactly the 18 bytes. -/
theorem C6_get_descriptor_device (c : sysconf) (sp : usb_stp_pkt) (s : jig_state)
    (hr : sp.b_request = USB_GET_DESCRIPTOR)
    (hd : sp.bm_request_type &&& 0x1F = USB_DEVICE_RECIPIENT)
    (ht : sp.w_value >>> 8 = USB_DEV_DESC) (hx : sp.w_value &&& 0xFF = 0)
    (hi : sp.w_index = 0) :
    (std_stp c sp s).1.valid = true ∧
    (std_stp c sp s).1.trans_dir = some udp_ctl_trans_dir.UDP_CTL_TRANS_IN ∧
    (std_stp c sp s).1.buf = buf_ref.dev_desc ∧
    (std_stp c sp s).1.nmb = min sp.w_length 18 ∧
    (std_stp c sp s).1.trans_nmb = sp.w_length ∧
    (std_stp c sp s).2.stats = s.stats ∧
    in_data c (std_stp c sp s).2 (std_stp c sp s).1
      = (dev_desc c).bytes.take (min sp.w_length 18) ∧
    (in_data c (std_stp c sp s).2 (std_stp c sp s).1).length = min sp.w_length 18 ∧
    (sp.w_length = 8 →
      in_data c (std_stp c sp s).2 (std_stp c sp s).1 = (dev_desc c).bytes.take 8 ∧
      (in_data c (std_stp c sp s).2 (std_stp c sp s).1).length = 8) ∧
    (sp.w_length = 64 →
      in_data c (std_stp c sp s).2 (std_stp c sp s).1 = (dev_desc c).bytes ∧
      (in_data c (std_stp c sp s).2 (std_stp c sp s).1).length = 18) := by
  have hnmb : (if sp.w_length > 18 then 18 else sp.w_length) = min sp.w_length 18 := by
    split_ifs <;> omega
  have hres : std_stp c sp s =
      ({ valid := true, buf := buf_ref.dev_desc, nmb := min sp.w_length 18,
         trans_nmb := sp.w_length,
         trans_dir := some udp_ctl_trans_dir.UDP_CTL_TRANS_IN },
       { if_log_stp c sp s with stp_pkt := sp }) := by
    rw [std_stp_get_desc_dev c sp s hr hd]
    unfold std_get_desc_dev
    simp only [ht, hx, hi, USB_DEV_DESC, and_self, if_true, serve_in, usb_ctl_req.init,
      sizeof_usb_dev_desc, hnmb]
  have hdata : in_data c (std_stp c sp s).2 (std_stp c sp s).1
      = (dev_desc c).bytes.take (min sp.w_length 18) := by
    rw [hres]; rfl
  have hlen := dev_desc_bytes_length c
  refine ⟨by rw [hres], by rw [hres], by rw [hres], by rw [hres], by rw [hres],
    by rw [hres]; simp, hdata, ?_, ?_, ?_⟩
  · rw [hdata, List.length_take, hlen]; omega
  · intro h8
    rw [hdata, h8]
    refine ⟨rfl, ?_⟩
    rw [show min 8 18 = 8 from rfl, List.length_take, hlen]; rfl
  · intro h64
    rw [hdata, h64, show min 64 18 = 18 from rfl]
    refine ⟨?_, by rw [List.length_take, hlen]; rfl⟩
    rw [← hlen]; exact List.take_length _

/-- C6, witness: the host's first request, 8 bytes of the device descriptor,
in the sample build with vendor 0x03EB and product 0x2402. -/
theorem C6_get_descriptor_device_witness :
    in_data sysconf_keyb
      (std_stp sysconf_keyb ⟨0x80, 6, 0x0100, 0, 8⟩ (jig_state_of udp_addressed 0 0)).2
      (std_stp sysconf_keyb ⟨0x80, 6, 0x0100, 0, 8⟩ (jig_state_of udp_addressed 0 0)).1
      = [18, 1, 0x00, 0x02, 0, 0, 0, 64] ∧
    (in_data sysconf_keyb
      (std_stp sysconf_keyb ⟨0x80, 6, 0x0100, 0, 64⟩ (jig_state_of udp_addressed 0 0)).2
      (std_stp sysconf_keyb ⟨0x80, 6, 0x0100, 0, 64⟩ (jig_state_of udp_addressed 0 0)).1).length
      = 18 :=
  ⟨((C6_get_descriptor_device sysconf_keyb ⟨0x80, 6, 0x0100, 0, 8⟩ (jig_state_of udp_addressed 0 0)
      (by decide) (by decide) (by decide) (by decide) (by decide)).2.2.2.2.2.2.2.2.1 rfl).1.trans
      (by decide),
   ((C6_get_descriptor_device sysconf_keyb ⟨0x80, 6, 0x0100, 0, 64⟩
      (jig_state_of udp_addressed 0 0)
      (by decide) (by decide) (by decide) (by decide) (by decide)).2.2.2.2.2.2.2.2.2 rfl).2⟩

/-! ## C7: GET_STATUS to an endpoint -/

/-- The mask test `w_index & 0x80` of the code reads bit 7 of the index. -/
theorem and_0x80_ne_zero_iff (w : Nat) : w &&& 0x80 ≠ 0 ↔ w.testBit 7 = true := by
  have h128 : (0x80 : Nat) = 2 ^ 7 := by norm_num
  constructor
  · intro h
    by_contra hb
    apply h
    apply Nat.eq_of_testBit_eq
    intro i
    rw [Nat.testBit_and, h128, Nat.testBit_two_pow, Nat.zero_testBit]
    by_cases hi : 7 = i
    · subst hi
      simp [Bool.eq_false_iff.mpr hb]
    · simp [hi]
  · intro hb h0
    have h := Nat.testBit_and w 0x80 7
    rw [h0, Nat.zero_testBit, hb, h128, Nat.testBit_two_pow_self] at h
    exact Bool.noConfusion h

/-- What is_endp_index_valid computes, with bit 7 of the index spelled out. -/
theorem is_endp_index_valid_iff (u : udp) (w : Nat) :
    is_endp_index_valid u w = true ↔
      u.enabled (w &&& 0x0F) = true ∧
      ((w &&& 0x0F) = 0 ∨
       (w.testBit 7 = true ∧ u.dir (w &&& 0x0F) = udp_endp_dir.UDP_ENDP_DIR_IN) ∨
       (w.testBit 7 = false ∧ u.dir (w &&& 0x0F) = udp_endp_dir.UDP_ENDP_DIR_OUT)) := by
  unfold is_endp_index_valid
  simp only [is_udp_endp_enabled, get_udp_endp_dir]
  by_cases he : u.enabled (w &&& 0x0F) = true
  · by_cases hn : (w &&& 0x0F) = 0
    · simp [he, hn]
    · by_cases hb : w.testBit 7 = true
      · have hm : w &&& 0x80 ≠ 0 := (and_0x80_ne_zero_iff w).mpr hb
        simp [he, hn, hb, hm]
      · have hm : ¬ (w &&& 0x80 ≠ 0) := fun h => hb ((and_0x80_ne_zero_iff w).mp h)
        simp [he, hn, hb, hm]
  · simp [he]

theorem std_stp_get_endp_stat (c : sysconf) (sp : usb_stp_pkt) (s : jig_state)
    (hr : sp.b_request = USB_GET_STATUS)
    (hd : sp.bm_request_type &&& 0x1F = USB_ENDP_RECIPIENT) :
    std_stp c sp s
      = std_get_endp_stat c usb_ctl_req.init { if_log_stp c sp s with stp_pkt := sp } := by
  unfold std_stp
  simp [hr, hd]

/-- C7 (as the code has it): GET_STATUS to an endpoint with w_value=0 and
w_length=2 while Configured is valid exactly when is_endp_index_valid accepts
the index: the endpoint number w_index & 0x0F is enabled and it is endpoint 0
(whatever bit 7 and its direction are) or its direction matches bit 7 of the
index.  A valid result has direction in, byte-count 2, and serves the 16-bit
status word 1 when the endpoint is halted and 0 otherwise; an index that is
not accepted gives valid=false, stp_rej_cnt unchanged and stp_err_cnt
incremented modulo 2^16 (by exactly one while it is below 65535). -/
theorem C7_get_status_endpoint (c : sysconf) (sp : usb_stp_pkt) (s : jig_state)
    (hr : sp.b_request = USB_GET_STATUS)
    (hd : sp.bm_request_type &&& 0x1F = USB_ENDP_RECIPIENT)
    (hv : sp.w_value = 0) (hl : sp.w_length = 2)
    (hs : s.udp.state = udp_state.UDP_STATE_CONFIGURED) :
    ((std_stp c sp s).1.valid = true ↔
      s.udp.enabled (sp.w_index &&& 0x0F) = true ∧
      ((sp.w_index &&& 0x0F) = 0 ∨
       (sp.w_index.testBit 7 = true ∧
         s.udp.dir (sp.w_index &&& 0x0F) = udp_endp_dir.UDP_ENDP_DIR_IN) ∨
       (sp.w_index.testBit 7 = false ∧
         s.udp.dir (sp.w_index &&& 0x0F) = udp_endp_dir.UDP_ENDP_DIR_OUT))) ∧
    ((std_stp c sp s).1.valid = true →
      (std_stp c sp s).1.trans_dir = some udp_ctl_trans_dir.UDP_CTL_TRANS_IN ∧
      (std_stp c sp s).1.nmb = 2 ∧
      (std_stp c sp s).1.trans_nmb = 2 ∧
      (std_stp c sp s).1.buf = buf_ref.ctl_rpl ∧
      (std_stp c sp s).2.ctl_rpl.stat
        = (if s.udp.halted (sp.w_index &&& 0x0F) = true then 1 else 0) ∧
      in_data c (std_stp c sp s).2 (std_stp c sp s).1
        = [if s.udp.halted (sp.w_index &&& 0x0F) = true then 1 else 0, 0] ∧
      (std_stp c sp s).2.stats = s.stats) ∧
    ((std_stp c sp s).1.valid = false →
      (std_stp c sp s).2.stats.stp_err_cnt = (s.stats.stp_err_cnt + 1) % 65536 ∧
      (s.stats.stp_err_cnt < 65535 →
        (std_stp c sp s).2.stats.stp_err_cnt = s.stats.stp_err_cnt + 1) ∧
      (std_stp c sp s).2.stats.stp_rej_cnt = s.stats.stp_rej_cnt) := by
  rw [← is_endp_index_valid_iff]
  rw [std_stp_get_endp_stat c sp s hr hd]
  unfold std_get_endp_stat
  simp only [get_udp_state, is_udp_endp_halted, if_log_stp_udp, hv, hl, hs, true_and, or_true]
  by_cases hx : is_endp_index_valid s.udp sp.w_index = true
  · rw [if_pos hx]
    refine ⟨⟨fun _ => hx, fun _ => rfl⟩, fun _ => ?_, fun h => ?_⟩
    · by_cases hh : s.udp.halted (sp.w_index &&& 0x0F) = true
      · simp [hh, serve_ctl_rpl, in_data, buf_bytes, ctl_rpl_bytes.set_stat, ctl_rpl_bytes.stat]
      · simp [hh, serve_ctl_rpl, in_data, buf_bytes, ctl_rpl_bytes.set_stat, ctl_rpl_bytes.stat]
    · simp [serve_ctl_rpl] at h
  · rw [if_neg hx]
    refine ⟨⟨fun h => ?_, fun h => absurd h hx⟩, fun h => ?_, fun _ => ?_⟩
    · simp [usb_ctl_req.init] at h
    · simp [usb_ctl_req.init] at h
    · refine ⟨by simp, fun hlt => ?_, by simp⟩
      simp only [stp_err_cnt_inc_err, if_log_std_cmd_stats, if_log_stp_stats]
      exact Nat.mod_eq_of_lt (by omega)

/-- C7, witness: GET_STATUS of endpoint 0x81 while Configured, endpoint 1
enabled with direction IN and not halted: two bytes, status word 0. -/
theorem C7_get_status_endpoint_witness :
    (std_stp sysconf_keyb ⟨0x82, 0, 0, 0x81, 2⟩ (jig_state_of udp_configured 0 0)).1.valid = true ∧
    in_data sysconf_keyb
      (std_stp sysconf_keyb ⟨0x82, 0, 0, 0x81, 2⟩ (jig_state_of udp_configured 0 0)).2
      (std_stp sysconf_keyb ⟨0x82, 0, 0, 0x81, 2⟩ (jig_state_of udp_configured 0 0)).1
      = [0, 0] :=
  have h := C7_get_status_endpoint sysconf_keyb ⟨0x82, 0, 0, 0x81, 2⟩
    (jig_state_of udp_configured 0 0) (by decide) (by decide) (by decide) (by decide) (by decide)
  ⟨h.1.2 (by decide), (h.2.1 (h.1.2 (by decide))).2.2.2.2.2.1⟩

/-- C7, counterexample: while Configured, index 0x80 names the control
endpoint 0, which is enabled and reports direction OUT, so no enabled endpoint
matches bit 7; the request is valid all the same.  And index 0x83, an endpoint
that is not enabled, with stp_err_cnt at 65535 leaves the counter at 0, not at
65536. -/
theorem C7_counterexample :
    ((jig_state_of udp_configured 0 0).udp.state = udp_state.UDP_STATE_CONFIGURED ∧
     (0x80 : Nat).testBit 7 = true ∧
     (jig_state_of udp_configured 0 0).udp.dir (0x80 &&& 0x0F) = udp_endp_dir.UDP_ENDP_DIR_OUT ∧
     (std_stp sysconf_keyb ⟨0x82, 0, 0, 0x80, 2⟩ (jig_state_of udp_configured 0 0)).1.valid
       = true) ∧
    ((jig_state_of udp_configured 65535 0).udp.enabled (0x83 &&& 0x0F) = false ∧
     (std_stp sysconf_keyb ⟨0x82, 0, 0, 0x83, 2⟩
       (jig_state_of udp_configured 65535 0)).1.valid = false ∧
     (std_stp sysconf_keyb ⟨0x82, 0, 0, 0x83, 2⟩
       (jig_state_of udp_configured 65535 0)).2.stats.stp_err_cnt = 0 ∧
     (std_stp sysconf_keyb ⟨0x82, 0, 0, 0x83, 2⟩
       (jig_state_of udp_configured 65535 0)).2.stats.stp_err_cnt
       ≠ (jig_state_of udp_configured 65535 0).stats.stp_err_cnt + 1) := by
  decide

/-! ## C8: the endpoint index check -/

/-- C8: for every index w, is_endp_index_valid(w) is true if and only if the
endpoint number n = w & 0x0F is enabled and either n = 0, or bit 7 of w is set
and the endpoint's direction is IN, or bit 7 of w is clear and the direction
is OUT. -/
theorem C8_is_endp_index_valid_iff (u : udp) (w : Nat) :
    is_endp_index_valid u w = true ↔
      is_udp_endp_enabled u (w &&& 0x0F) = true ∧
      ((w &&& 0x0F) = 0 ∨
       (w.testBit 7 = true ∧
         get_udp_endp_dir u (w &&& 0x0F) = udp_endp_dir.UDP_ENDP_DIR_IN) ∨
       (w.testBit 7 = false ∧
         get_udp_endp_dir u (w &&& 0x0F) = udp_endp_dir.UDP_ENDP_DIR_OUT)) :=
  is_endp_index_valid_iff u w

/-! ## C9: CLEAR_FEATURE / SET_FEATURE to an endpoint -/

theorem std_stp_clr_set_endp_feat (c : sysconf) (sp : usb_stp_pkt) (s : jig_state)
    (hr : sp.b_request = USB_CLEAR_FEATURE ∨ sp.b_request = USB_SET_FEATURE)
    (hd : sp.bm_request_type &&& 0x1F = USB_ENDP_RECIPIENT) :
    std_stp c sp s
      = std_clr_set_endp_feat c usb_ctl_req.init { if_log_stp c sp s with stp_pkt := sp } := by
  unfold std_stp
  rcases hr with hr | hr <;> simp [hr, hd]

/-- C9 (as the code has it): CLEAR_FEATURE / SET_FEATURE to an endpoint is
valid if and only if the feature selector is ENDPOINT_HALT, the endpoint
index is valid (is_endp_index_valid), the endpoint number is not 0,
w_length = 0 and the state is Configured.  When valid, the one request made
to the driver is un-halt (CLEAR_FEATURE) or halt (SET_FEATURE) of exactly
that endpoint number, and no counter moves; otherwise the driver is left as
it was, valid=false, stp_rej_cnt is unchanged and stp_err_cnt is incremented
modulo 2^16 (by exactly one while it is below 65535). -/
theorem C9_clr_set_feature_endpoint (c : sysconf) (sp : usb_stp_pkt) (s : jig_state)
    (hr : sp.b_request = USB_CLEAR_FEATURE ∨ sp.b_request = USB_SET_FEATURE)
    (hd : sp.bm_request_type &&& 0x1F = USB_ENDP_RECIPIENT) :
    ((std_stp c sp s).1.valid = true ↔
      sp.w_value = USB_ENDP_HALT_FEAT ∧ is_endp_index_valid s.udp sp.w_index = true ∧
      (sp.w_index &&& 0x0F) ≠ 0 ∧ sp.w_length = 0 ∧
      s.udp.state = udp_state.UDP_STATE_CONFIGURED) ∧
    ((std_stp c sp s).1.valid = true →
      (std_stp c sp s).1.trans_dir = some udp_ctl_trans_dir.UDP_CTL_TRANS_OUT ∧
      (std_stp c sp s).2.stats = s.stats ∧
      (sp.b_request = USB_CLEAR_FEATURE →
        (std_stp c sp s).2.udp = un_halt_udp_endp (sp.w_index &&& 0x0F) s.udp) ∧
      (sp.b_request = USB_SET_FEATURE →
        (std_stp c sp s).2.udp = halt_udp_endp (sp.w_index &&& 0x0F) s.udp) ∧
      (std_stp c sp s).2.udp.halted (sp.w_index &&& 0x0F)
        = decide (sp.b_request = USB_SET_FEATURE) ∧
      (∀ n, n ≠ (sp.w_index &&& 0x0F) →
        (std_stp c sp s).2.udp.halted n = s.udp.halted n) ∧
      (std_stp c sp s).2.udp.enabled = s.udp.enabled ∧
      (std_stp c sp s).2.udp.state = s.udp.state) ∧
    ((std_stp c sp s).1.valid = false →
      (std_stp c sp s).2.udp = s.udp ∧
      (std_stp c sp s).2.stats.stp_err_cnt = (s.stats.stp_err_cnt + 1) % 65536 ∧
      (s.stats.stp_err_cnt < 65535 →
        (std_stp c sp s).2.stats.stp_err_cnt = s.stats.stp_err_cnt + 1) ∧
      (std_stp c sp s).2.stats.stp_rej_cnt = s.stats.stp_rej_cnt) := by
  rw [std_stp_clr_set_endp_feat c sp s hr hd]
  unfold std_clr_set_endp_feat
  simp only [get_udp_state, if_log_stp_udp]
  by_cases hc : sp.w_value = USB_ENDP_HALT_FEAT ∧ is_endp_index_valid s.udp sp.w_index = true ∧
      (sp.w_index &&& 0x0F) ≠ 0 ∧ sp.w_length = 0 ∧
      s.udp.state = udp_state.UDP_STATE_CONFIGURED
  · rw [if_pos hc]
    refine ⟨⟨fun _ => hc, fun _ => rfl⟩, fun _ => ?_, fun h => ?_⟩
    · rcases hr with hr | hr
      · simp [hr, on_udp, un_halt_udp_endp]
        intro n hn; simp [hn]
      · simp [hr, on_udp, halt_udp_endp]
        intro n hn; simp [hn]
    · simp at h
  · rw [if_neg hc]
    refine ⟨⟨fun h => ?_, fun h => absurd h hc⟩, fun h => ?_, fun _ => ?_⟩
    · simp [usb_ctl_req.init] at h
    · simp [usb_ctl_req.init] at h
    · refine ⟨by simp, by simp, fun hlt => ?_, by simp⟩
      simp only [stp_err_cnt_inc_err, if_log_std_cmd_stats, if_log_stp_stats]
      exact Nat.mod_eq_of_lt (by omega)

/-- C9, witness: SET_FEATURE(ENDPOINT_HALT) on index 0x81 while Configured
halts endpoint 1 and leaves endpoint 2 alone. -/
theorem C9_clr_set_feature_endpoint_witness :
    (std_stp sysconf_keyb ⟨0x02, 3, 0, 0x81, 0⟩ (jig_state_of udp_configured 0 0)).1.valid = true ∧
    (std_stp sysconf_keyb ⟨0x02, 3, 0, 0x81, 0⟩ (jig_state_of udp_configured 0 0)).2.udp.halted 1
      = true ∧
    (std_stp sysconf_keyb ⟨0x02, 3, 0, 0x81, 0⟩ (jig_state_of udp_configured 0 0)).2.udp.halted 2
      = false :=
  have h := C9_clr_set_feature_endpoint sysconf_keyb ⟨0x02, 3, 0, 0x81, 0⟩
    (jig_state_of udp_configured 0 0) (by decide) (by decide)
  have hv := h.1.2 (by decide)
  ⟨hv, (h.2.1 hv).2.2.2.2.1, ((h.2.1 hv).2.2.2.2.2.1 2 (by decide)).trans (by decide)⟩

/-- C9, counterexample: SET_FEATURE(ENDPOINT_HALT) on the control endpoint
(index 0x00) while Configured, with stp_err_cnt at 65535, is invalid and
leaves the counter at 0, not at 65536. -/
theorem C9_counterexample :
    (std_stp sysconf_keyb ⟨0x02, 3, 0, 0x00, 0⟩
      (jig_state_of udp_configured 65535 0)).1.valid = false ∧
    (std_stp sysconf_keyb ⟨0x02, 3, 0, 0x00, 0⟩
      (jig_state_of udp_configured 65535 0)).2.stats.stp_err_cnt = 0 ∧
    (std_stp sysconf_keyb ⟨0x02, 3, 0, 0x00, 0⟩
      (jig_state_of udp_configured 65535 0)).2.stats.stp_err_cnt
      ≠ (jig_state_of udp_configured 65535 0).stats.stp_err_cnt + 1 := by
  decide

/-! ## C10: SET_REPORT of the keyboard LED report -/

theorem cls_stp_set_report (c : sysconf) (sp : usb_stp_pkt) (s : jig_state)
    (hr : sp.b_request = USB_HID_SET_REPORT)
    (hd : sp.bm_request_type &&& 0x1F = USB_IFACE_RECIPIENT) :
    cls_stp c sp s
      = cls_set_report c usb_ctl_req.init { if_log_stp c sp s with stp_pkt := sp } := by
  unfold cls_stp
  simp [hr, hd]

/-- C10 (as the code has it): in the build with the keyboard interface,
SET_REPORT (class, interface recipient) with report type Output, report id
0 and w_index = 1 while Configured is valid for w_length = 1, with direction
out, the keyboard LED report buffer as data and byte-count exactly 1; with
any other w_length the result is valid=false, stp_rej_cnt is unchanged and
stp_err_cnt is incremented modulo 2^16 (by exactly one while it is below
65535). -/
theorem C10_set_report_keyb_led (c : sysconf) (sp : usb_stp_pkt) (s : jig_state)
    (hk : c.USB_JIG_KEYB_IFACE = true)
    (hr : sp.b_request = USB_HID_SET_REPORT)
    (hd : sp.bm_request_type &&& 0x1F = USB_IFACE_RECIPIENT)
    (ht : sp.w_value >>> 8 = USB_HID_REPORT_OUT) (hx : sp.w_value &&& 0xFF = 0)
    (hi : sp.w_index = 1) (hs : s.udp.state = udp_state.UDP_STATE_CONFIGURED) :
    (sp.w_length = 1 →
      (cls_stp c sp s).1.valid = true ∧
      (cls_stp c sp s).1.trans_dir = some udp_ctl_trans_dir.UDP_CTL_TRANS_OUT ∧
      (cls_stp c sp s).1.buf = buf_ref.keyb_led_report ∧
      (cls_stp c sp s).1.nmb = 1 ∧
      (cls_stp c sp s).2.stats = s.stats) ∧
    (sp.w_length ≠ 1 →
      (cls_stp c sp s).1.valid = false ∧
      (cls_stp c sp s).2.stats.stp_err_cnt = (s.stats.stp_err_cnt + 1) % 65536 ∧
      (s.stats.stp_err_cnt < 65535 →
        (cls_stp c sp s).2.stats.stp_err_cnt = s.stats.stp_err_cnt + 1) ∧
      (cls_stp c sp s).2.stats.stp_rej_cnt = s.stats.stp_rej_cnt) := by
  rw [cls_stp_set_report c sp s hr hd]
  unfold cls_set_report
  simp only [get_udp_state, if_log_stp_udp, hk, ht, hx, hi, hs, if_true, true_and,
    USB_HID_REPORT_OUT, sizeof_keyb_led_report, and_true]
  constructor
  · intro hl
    simp [hl]
  · intro hl
    rw [if_neg hl]
    refine ⟨rfl, by simp, fun hlt => ?_, by simp⟩
    simp only [stp_err_cnt_inc_err, if_log_cls_cmd_stats, if_log_stp_stats]
    exact Nat.mod_eq_of_lt (by omega)

/-- C10, witness: SET_REPORT(Output, id 0) of one byte to interface 1. -/
theorem C10_set_report_keyb_led_witness :
    (cls_stp sysconf_keyb ⟨0x21, 9, 0x0200, 1, 1⟩ (jig_state_of udp_configured 0 0)).1.valid = true ∧
    (cls_stp sysconf_keyb ⟨0x21, 9, 0x0200, 1, 1⟩ (jig_state_of udp_configured 0 0)).1.nmb = 1 ∧
    (cls_stp sysconf_keyb ⟨0x21, 9, 0x0200, 1, 2⟩ (jig_state_of udp_configured 0 0)).1.valid
      = false :=
  have h := C10_set_report_keyb_led sysconf_keyb ⟨0x21, 9, 0x0200, 1, 1⟩
    (jig_state_of udp_configured 0 0) rfl (by decide) (by decide) (by decide) (by decide)
    (by decide) (by decide)
  have k := C10_set_report_keyb_led sysconf_keyb ⟨0x21, 9, 0x0200, 1, 2⟩
    (jig_state_of udp_configured 0 0) rfl (by decide) (by decide) (by decide) (by decide)
    (by decide) (by decide)
  ⟨(h.1 rfl).1, (h.1 rfl).2.2.2.1, (k.2 (by decide)).1⟩

/-- C10, counterexample: SET_REPORT(Output, id 0) to interface 1 with
w_length = 2 while Configured, with stp_err_cnt at 65535, is invalid and
leaves the counter at 0, not at 65536. -/
theorem C10_counterexample :
    (cls_stp sysconf_keyb ⟨0x21, 9, 0x0200, 1, 2⟩
      (jig_state_of udp_configured 65535 0)).1.valid = false ∧
    (cls_stp sysconf_keyb ⟨0x21, 9, 0x0200, 1, 2⟩
      (jig_state_of udp_configured 65535 0)).2.stats.stp_err_cnt = 0 ∧
    (cls_stp sysconf_keyb ⟨0x21, 9, 0x0200, 1, 2⟩
      (jig_state_of udp_configured 65535 0)).2.stats.stp_err_cnt
      ≠ (jig_state_of udp_configured 65535 0).stats.stp_err_cnt + 1 := by
  decide

/-! ## Case analysis of the two dispatchers -/

/-- Whatever holds of every handler of std_stp, run on the state the
dispatcher hands it, and of the final else branch, holds of std_stp. -/
theorem std_stp_elim (c : sysconf) (sp : usb_stp_pkt) (s : jig_state)
    (P : usb_ctl_req × jig_state → Prop)
    (h_set_desc : sp.b_request = USB_SET_DESCRIPTOR →
      sp.bm_request_type &&& 0x1F = USB_DEVICE_RECIPIENT →
      P (std_set_desc c usb_ctl_req.init { if_log_stp c sp s with stp_pkt := sp }))
    (h_get_desc_dev : sp.b_request = USB_GET_DESCRIPTOR →
      sp.bm_request_type &&& 0x1F = USB_DEVICE_RECIPIENT →
      P (std_get_desc_dev c usb_ctl_req.init { if_log_stp c sp s with stp_pkt := sp }))
    (h_get_desc_ifc : sp.b_request = USB_GET_DESCRIPTOR →
      sp.bm_request_type &&& 0x1F = USB_IFACE_RECIPIENT →
      P (std_get_desc_ifc c usb_ctl_req.init { if_log_stp c sp s with stp_pkt := sp }))
    (h_set_addr : sp.b_request = USB_SET_ADDRESS →
      sp.bm_request_type &&& 0x1F = USB_DEVICE_RECIPIENT →
      P (std_set_addr c usb_ctl_req.init { if_log_stp c sp s with stp_pkt := sp }))
    (h_set_conf : sp.b_request = USB_SET_CONFIGURATION →
      sp.bm_request_type &&& 0x1F = USB_DEVICE_RECIPIENT →
      P (std_set_conf c usb_ctl_req.init { if_log_stp c sp s with stp_pkt := sp }))
    (h_get_conf : sp.b_request = USB_GET_CONFIGURATION →
      sp.bm_request_type &&& 0x1F = USB_DEVICE_RECIPIENT →
      P (std_get_conf c usb_ctl_req.init { if_log_stp c sp s with stp_pkt := sp }))
    (h_set_iface : sp.b_request = USB_SET_INTERFACE →
      sp.bm_request_type &&& 0x1F = USB_IFACE_RECIPIENT →
      P (std_set_iface c usb_ctl_req.init { if_log_stp c sp s with stp_pkt := sp }))
    (h_get_iface : sp.b_request = USB_GET_INTERFACE →
      sp.bm_request_type &&& 0x1F = USB_IFACE_RECIPIENT →
      P (std_get_iface c usb_ctl_req.init { if_log_stp c sp s with stp_pkt := sp }))
    (h_synch_frm : sp.b_request = USB_SYNCH_FRAME →
      sp.bm_request_type &&& 0x1F = USB_ENDP_RECIPIENT →
      P (std_synch_frm c usb_ctl_req.init { if_log_stp c sp s with stp_pkt := sp }))
    (h_get_dev_stat : sp.b_request = USB_GET_STATUS →
      sp.bm_request_type &&& 0x1F = USB_DEVICE_RECIPIENT →
      P (std_get_dev_stat c usb_ctl_req.init { if_log_stp c sp s with stp_pkt := sp }))
    (h_get_iface_stat : sp.b_request = USB_GET_STATUS →
      sp.bm_request_type &&& 0x1F = USB_IFACE_RECIPIENT →
      P (std_get_iface_stat c usb_ctl_req.init { if_log_stp c sp s with stp_pkt := sp }))
    (h_get_endp_stat : sp.b_request = USB_GET_STATUS →
      sp.bm_request_type &&& 0x1F = USB_ENDP_RECIPIENT →
      P (std_get_endp_stat c usb_ctl_req.init { if_log_stp c sp s with stp_pkt := sp }))
    (h_clr_dev_feat : sp.b_request = USB_CLEAR_FEATURE →
      sp.bm_request_type &&& 0x1F = USB_DEVICE_RECIPIENT →
      P (std_clr_dev_feat c usb_ctl_req.init { if_log_stp c sp s with stp_pkt := sp }))
    (h_set_dev_feat : sp.b_request = USB_SET_FEATURE →
      sp.bm_request_type &&& 0x1F = USB_DEVICE_RECIPIENT →
      P (std_set_dev_feat c usb_ctl_req.init { if_log_stp c sp s with stp_pkt := sp }))
    (h_iface_feat : sp.b_request = USB_CLEAR_FEATURE ∨ sp.b_request = USB_SET_FEATURE →
      sp.bm_request_type &&& 0x1F = USB_IFACE_RECIPIENT →
      P (std_clr_set_iface_feat c usb_ctl_req.init { if_log_stp c sp s with stp_pkt := sp }))
    (h_endp_feat : sp.b_request = USB_CLEAR_FEATURE ∨ sp.b_request = USB_SET_FEATURE →
      sp.bm_request_type &&& 0x1F = USB_ENDP_RECIPIENT →
      P (std_clr_set_endp_feat c usb_ctl_req.init { if_log_stp c sp s with stp_pkt := sp }))
    (h_none : P (usb_ctl_req.init,
      stp_err_cnt_inc (if_log_std_cmd c req_err_str { if_log_stp c sp s with stp_pkt := sp }))) :
    P (std_stp c sp s) := by
  unfold std_stp
  simp only []
  by_cases h1 : sp.b_request = USB_SET_DESCRIPTOR ∧
      sp.bm_request_type &&& 0x1F = USB_DEVICE_RECIPIENT
  · rw [if_pos h1]; exact h_set_desc h1.1 h1.2
  rw [if_neg h1]
  by_cases h2 : sp.b_request = USB_GET_DESCRIPTOR ∧
      sp.bm_request_type &&& 0x1F = USB_DEVICE_RECIPIENT
  · rw [if_pos h2]; exact h_get_desc_dev h2.1 h2.2
  rw [if_neg h2]
  by_cases h3 : sp.b_request = USB_GET_DESCRIPTOR ∧
      sp.bm_request_type &&& 0x1F = USB_IFACE_RECIPIENT
  · rw [if_pos h3]; exact h_get_desc_ifc h3.1 h3.2
  rw [if_neg h3]
  by_cases h4 : sp.b_request = USB_SET_ADDRESS ∧
      sp.bm_request_type &&& 0x1F = USB_DEVICE_RECIPIENT
  · rw [if_pos h4]; exact h_set_addr h4.1 h4.2
  rw [if_neg h4]
  by_cases h5 : sp.b_request = USB_SET_CONFIGURATION ∧
      sp.bm_request_type &&& 0x1F = USB_DEVICE_RECIPIENT
  · rw [if_pos h5]; exact h_set_conf h5.1 h5.2
  rw [if_neg h5]
  by_cases h6 : sp.b_request = USB_GET_CONFIGURATION ∧
      sp.bm_request_type &&& 0x1F = USB_DEVICE_RECIPIENT
  · rw [if_pos h6]; exact h_get_conf h6.1 h6.2
  rw [if_neg h6]
  by_cases h7 : sp.b_request = USB_SET_INTERFACE ∧
      sp.bm_request_type &&& 0x1F = USB_IFACE_RECIPIENT
  · rw [if_pos h7]; exact h_set_iface h7.1 h7.2
  rw [if_neg h7]
  by_cases h8 : sp.b_request = USB_GET_INTERFACE ∧
      sp.bm_request_type &&& 0x1F = USB_IFACE_RECIPIENT
  · rw [if_pos h8]; exact h_get_iface h8.1 h8.2
  rw [if_neg h8]
  by_cases h9 : sp.b_request = USB_SYNCH_FRAME ∧
      sp.bm_request_type &&& 0x1F = USB_ENDP_RECIPIENT
  · rw [if_pos h9]; exact h_synch_frm h9.1 h9.2
  rw [if_neg h9]
  by_cases h10 : sp.b_request = USB_GET_STATUS ∧
      sp.bm_request_type &&& 0x1F = USB_DEVICE_RECIPIENT
  · rw [if_pos h10]; exact h_get_dev_stat h10.1 h10.2
  rw [if_neg h10]
  by_cases h11 : sp.b_request = USB_GET_STATUS ∧
      sp.bm_request_type &&& 0x1F = USB_IFACE_RECIPIENT
  · rw [if_pos h11]; exact h_get_iface_stat h11.1 h11.2
  rw [if_neg h11]
  by_cases h12 : sp.b_request = USB_GET_STATUS ∧
      sp.bm_request_type &&& 0x1F = USB_ENDP_RECIPIENT
  · rw [if_pos h12]; exact h_get_endp_stat h12.1 h12.2
  rw [if_neg h12]
  by_cases h13 : sp.b_request = USB_CLEAR_FEATURE ∧
      sp.bm_request_type &&& 0x1F = USB_DEVICE_RECIPIENT
  · rw [if_pos h13]; exact h_clr_dev_feat h13.1 h13.2
  rw [if_neg h13]
  by_cases h14 : sp.b_request = USB_CLEAR_FEATURE ∧
      sp.bm_request_type &&& 0x1F = USB_IFACE_RECIPIENT
  · rw [if_pos h14]; exact h_iface_feat (Or.inl h14.1) h14.2
  rw [if_neg h14]
  by_cases h15 : sp.b_request = USB_CLEAR_FEATURE ∧
      sp.bm_request_type &&& 0x1F = USB_ENDP_RECIPIENT
  · rw [if_pos h15]; exact h_endp_feat (Or.inl h15.1) h15.2
  rw [if_neg h15]
  by_cases h16 : sp.b_request = USB_SET_FEATURE ∧
      sp.bm_request_type &&& 0x1F = USB_DEVICE_RECIPIENT
  · rw [if_pos h16]; exact h_set_dev_feat h16.1 h16.2
  rw [if_neg h16]
  by_cases h17 : sp.b_request = USB_SET_FEATURE ∧
      sp.bm_request_type &&& 0x1F = USB_IFACE_RECIPIENT
  · rw [if_pos h17]; exact h_iface_feat (Or.inr h17.1) h17.2
  rw [if_neg h17]
  by_cases h18 : sp.b_request = USB_SET_FEATURE ∧
      sp.bm_request_type &&& 0x1F = USB_ENDP_RECIPIENT
  · rw [if_pos h18]; exact h_endp_feat (Or.inr h18.1) h18.2
  rw [if_neg h18]
  exact h_none

/-- Whatever holds of every handler of cls_stp, run on the state the
dispatcher hands it, and of the final else branch, holds of cls_stp. -/
theorem cls_stp_elim (c : sysconf) (sp : usb_stp_pkt) (s : jig_state)
    (P : usb_ctl_req × jig_state → Prop)
    (h_get_report : sp.b_request = USB_HID_GET_REPORT →
      P (cls_get_report c usb_ctl_req.init { if_log_stp c sp s with stp_pkt := sp }))
    (h_get_idle : sp.b_request = USB_HID_GET_IDLE →
      P (cls_get_idle c usb_ctl_req.init { if_log_stp c sp s with stp_pkt := sp }))
    (h_get_protocol : sp.b_request = USB_HID_GET_PROTOCOL →
      P (cls_get_protocol c usb_ctl_req.init { if_log_stp c sp s with stp_pkt := sp }))
    (h_set_report : sp.b_request = USB_HID_SET_REPORT →
      P (cls_set_report c usb_ctl_req.init { if_log_stp c sp s with stp_pkt := sp }))
    (h_set_idle : sp.b_request = USB_HID_SET_IDLE →
      P (cls_set_idle c usb_ctl_req.init { if_log_stp c sp s with stp_pkt := sp }))
    (h_set_protocol : sp.b_request = USB_HID_SET_PROTOCOL →
      P (cls_set_protocol c usb_ctl_req.init { if_log_stp c sp s with stp_pkt := sp }))
    (h_none : P (usb_ctl_req.init,
      stp_err_cnt_inc (if_log_cls_cmd c req_err_str { if_log_stp c sp s with stp_pkt := sp }))) :
    P (cls_stp c sp s) := by
  unfold cls_stp
  simp only []
  by_cases h1 : sp.b_request = USB_HID_GET_REPORT ∧
      sp.bm_request_type &&& 0x1F = USB_IFACE_RECIPIENT
  · rw [if_pos h1]; exact h_get_report h1.1
  rw [if_neg h1]
  by_cases h2 : sp.b_request = USB_HID_GET_IDLE ∧
      sp.bm_request_type &&& 0x1F = USB_IFACE_RECIPIENT
  · rw [if_pos h2]; exact h_get_idle h2.1
  rw [if_neg h2]
  by_cases h3 : sp.b_request = USB_HID_GET_PROTOCOL ∧
      sp.bm_request_type &&& 0x1F = USB_IFACE_RECIPIENT
  · rw [if_pos h3]; exact h_get_protocol h3.1
  rw [if_neg h3]
  by_cases h4 : sp.b_request = USB_HID_SET_REPORT ∧
      sp.bm_request_type &&& 0x1F = USB_IFACE_RECIPIENT
  · rw [if_pos h4]; exact h_set_report h4.1
  rw [if_neg h4]
  by_cases h5 : sp.b_request = USB_HID_SET_IDLE ∧
      sp.bm_request_type &&& 0x1F = USB_IFACE_RECIPIENT
  · rw [if_pos h5]; exact h_set_idle h5.1
  rw [if_neg h5]
  by_cases h6 : sp.b_request = USB_HID_SET_PROTOCOL ∧
      sp.bm_request_type &&& 0x1F = USB_IFACE_RECIPIENT
  · rw [if_pos h6]; exact h_set_protocol h6.1
  rw [if_neg h6]
  exact h_none

/-! ## C11: the requested-length field -/

theorem std_stp_trans_nmb (c : sysconf) (sp : usb_stp_pkt) (s : jig_state) :
    (std_stp c sp s).1.valid = true →
      (std_stp c sp s).1.trans_nmb = sp.w_length ∧
      ((std_stp c sp s).1.trans_dir = some udp_ctl_trans_dir.UDP_CTL_TRANS_OUT →
        (std_stp c sp s).1.trans_nmb = 0) := by
  apply std_stp_elim c sp s (fun r => r.1.valid = true →
      r.1.trans_nmb = sp.w_length ∧
      (r.1.trans_dir = some udp_ctl_trans_dir.UDP_CTL_TRANS_OUT → r.1.trans_nmb = 0))
  · intro _ _; unfold std_set_desc; simp only []
    split_ifs <;> simp [usb_ctl_req.init]
  · intro _ _; unfold std_get_desc_dev; simp only []
    split_ifs <;> simp [usb_ctl_req.init, serve_in]
  · intro _ _; unfold std_get_desc_ifc; simp only []
    split_ifs <;> simp [usb_ctl_req.init, serve_in]
  · intro _ _; unfold std_set_addr; simp only []
    split_ifs <;> simp_all [usb_ctl_req.init]
  · intro _ _; unfold std_set_conf; simp only []
    split_ifs with h <;> simp_all [usb_ctl_req.init]
  · intro _ _; unfold std_get_conf; simp only []
    split_ifs <;> simp_all [usb_ctl_req.init, serve_ctl_rpl]
  · intro _ _; unfold std_set_iface; simp only []
    split_ifs <;> simp [usb_ctl_req.init]
  · intro _ _; unfold std_get_iface; simp only []
    split_ifs <;> simp_all [usb_ctl_req.init, serve_ctl_rpl]
  · intro _ _; unfold std_synch_frm; simp only []
    split_ifs <;> simp [usb_ctl_req.init]
  · intro _ _; unfold std_get_dev_stat; simp only []
    split_ifs <;> simp_all [usb_ctl_req.init, serve_ctl_rpl]
  · intro _ _; unfold std_get_iface_stat; simp only []
    split_ifs <;> simp_all [usb_ctl_req.init, serve_ctl_rpl]
  · intro _ _; unfold std_get_endp_stat; simp only []
    split_ifs <;> simp_all [usb_ctl_req.init, serve_ctl_rpl]
  · intro _ _; unfold std_clr_dev_feat; simp only []
    split_ifs <;> simp_all [usb_ctl_req.init]
  · intro _ _; unfold std_set_dev_feat; simp only []
    split_ifs <;> simp_all [usb_ctl_req.init]
  · intro _ _; unfold std_clr_set_iface_feat; simp [usb_ctl_req.init]
  · intro _ _; unfold std_clr_set_endp_feat; simp only []
    split_ifs <;> simp_all [usb_ctl_req.init]
  · simp [usb_ctl_req.init]

theorem cls_stp_trans_nmb (c : sysconf) (sp : usb_stp_pkt) (s : jig_state) :
    (cls_stp c sp s).1.valid = true →
      ((cls_stp c sp s).1.trans_dir = some udp_ctl_trans_dir.UDP_CTL_TRANS_IN →
        (cls_stp c sp s).1.trans_nmb = sp.w_length) ∧
      ((cls_stp c sp s).1.trans_dir = some udp_ctl_trans_dir.UDP_CTL_TRANS_OUT →
        (cls_stp c sp s).1.trans_nmb = 0) ∧
      (sp.b_request ≠ USB_HID_SET_REPORT → (cls_stp c sp s).1.trans_nmb = sp.w_length) ∧
      (sp.b_request = USB_HID_SET_REPORT →
        (cls_stp c sp s).1.trans_dir = some udp_ctl_trans_dir.UDP_CTL_TRANS_OUT ∧
        (cls_stp c sp s).1.trans_nmb = 0 ∧ sp.w_length = 1) := by
  apply cls_stp_elim c sp s (fun r => r.1.valid = true →
      (r.1.trans_dir = some udp_ctl_trans_dir.UDP_CTL_TRANS_IN → r.1.trans_nmb = sp.w_length) ∧
      (r.1.trans_dir = some udp_ctl_trans_dir.UDP_CTL_TRANS_OUT → r.1.trans_nmb = 0) ∧
      (sp.b_request ≠ USB_HID_SET_REPORT → r.1.trans_nmb = sp.w_length) ∧
      (sp.b_request = USB_HID_SET_REPORT →
        r.1.trans_dir = some udp_ctl_trans_dir.UDP_CTL_TRANS_OUT ∧
        r.1.trans_nmb = 0 ∧ sp.w_length = 1))
  · intro hr; unfold cls_get_report; simp only []
    split_ifs <;> simp [usb_ctl_req.init, serve_in, hr]
  · intro hr; unfold cls_get_idle; simp only []
    split_ifs <;> simp_all [usb_ctl_req.init, hr]
  · intro _; unfold cls_get_protocol; simp [usb_ctl_req.init]
  · intro hr; unfold cls_set_report; simp only []
    split_ifs <;> simp_all [usb_ctl_req.init, hr]
  · intro hr; unfold cls_set_idle; simp only []
    split_ifs <;> simp_all [usb_ctl_req.init, hr]
  · intro _; unfold cls_set_protocol; simp [usb_ctl_req.init]
  · simp [usb_ctl_req.init]
/-- C11 (as the code has it): a valid result of std_stp has its
requested-length field trans_nmb equal to w_length.  A valid result of
cls_stp with direction in has trans_nmb equal to w_length; the handlers of
requests with direction out never write trans_nmb, so it keeps the 0 of the
initialiser, which is w_length for every valid out request except SET_REPORT:
that one is valid only with w_length = 1 and returns trans_nmb = 0.  vnd_stp
returns no valid result. -/
theorem C11_requested_length (c : sysconf) (sp : usb_stp_pkt) (s : jig_state) :
    ((std_stp c sp s).1.valid = true → (std_stp c sp s).1.trans_nmb = sp.w_length) ∧
    ((cls_stp c sp s).1.valid = true →
      ((cls_stp c sp s).1.trans_dir = some udp_ctl_trans_dir.UDP_CTL_TRANS_IN →
        (cls_stp c sp s).1.trans_nmb = sp.w_length) ∧
      ((cls_stp c sp s).1.trans_dir = some udp_ctl_trans_dir.UDP_CTL_TRANS_OUT →
        (cls_stp c sp s).1.trans_nmb = 0) ∧
      (sp.b_request ≠ USB_HID_SET_REPORT → (cls_stp c sp s).1.trans_nmb = sp.w_length) ∧
      (sp.b_request = USB_HID_SET_REPORT →
        (cls_stp c sp s).1.trans_dir = some udp_ctl_trans_dir.UDP_CTL_TRANS_OUT ∧
        (cls_stp c sp s).1.trans_nmb = 0 ∧ sp.w_length = 1)) ∧
    (vnd_stp sp s).1.valid = false :=
  ⟨fun h => (std_stp_trans_nmb c sp s h).1, cls_stp_trans_nmb c sp s, rfl⟩

/-- C11, witness: GET_DESCRIPTOR(Device) with w_length 64 is valid and
returns trans_nmb = 64. -/
theorem C11_requested_length_witness :
    (std_stp sysconf_keyb ⟨0x80, 6, 0x0100, 0, 64⟩ (jig_state_of udp_addressed 0 0)).1.trans_nmb
      = 64 :=
  (C11_requested_length sysconf_keyb ⟨0x80, 6, 0x0100, 0, 64⟩
    (jig_state_of udp_addressed 0 0)).1 (by decide)

/-- C11, counterexample: SET_REPORT(Output, id 0) of one byte to the keyboard
interface while Configured is valid, and its trans_nmb is 0 although
w_length is 1. -/
theorem C11_counterexample :
    (cls_stp sysconf_keyb ⟨0x21, 9, 0x0200, 1, 1⟩ (jig_state_of udp_configured 0 0)).1.valid = true ∧
    (cls_stp sysconf_keyb ⟨0x21, 9, 0x0200, 1, 1⟩ (jig_state_of udp_configured 0 0)).1.trans_nmb
      = 0 ∧
    (cls_stp sysconf_keyb ⟨0x21, 9, 0x0200, 1, 1⟩ (jig_state_of udp_configured 0 0)).1.trans_nmb
      ≠ (⟨0x21, 9, 0x0200, 1, 1⟩ : usb_stp_pkt).w_length := by
  decide

/-! ## Logging and counting leave the current setup packet alone -/

@[simp] theorem stp_err_cnt_inc_stp_pkt (s : jig_state) :
    (stp_err_cnt_inc s).stp_pkt = s.stp_pkt := rfl

@[simp] theorem stp_rej_cnt_inc_stp_pkt (s : jig_state) :
    (stp_rej_cnt_inc s).stp_pkt = s.stp_pkt := rfl

@[simp] theorem if_log_std_cmd_stp_pkt (c : sysconf) (t : String) (s : jig_state) :
    (if_log_std_cmd c t s).stp_pkt = s.stp_pkt := by
  unfold if_log_std_cmd log_std_cmd_event xQueueSendFromISR_log inc_qfull_cnt
  split <;> [split; rfl] <;> rfl

@[simp] theorem if_log_cls_cmd_stp_pkt (c : sysconf) (t : String) (s : jig_state) :
    (if_log_cls_cmd c t s).stp_pkt = s.stp_pkt := by
  unfold if_log_cls_cmd log_cls_cmd_event xQueueSendFromISR_log inc_qfull_cnt
  split <;> [split; rfl] <;> rfl
/-! ## C12: only SET_CONFIGURATION reconfigures the device -/

theorem keeps_conf_same (u : udp) (r : usb_ctl_req × jig_state) (h : r.2.udp = u) :
    keeps_conf u r := by
  refine ⟨by rw [h], by rw [h], [], by rw [h]; simp, by simp⟩

theorem keeps_conf_call (u : udp) (r : usb_ctl_req × jig_state) (x : udp_call)
    (hs : r.2.udp.state = u.state) (he : r.2.udp.enabled = u.enabled)
    (hc : r.2.udp.calls = u.calls ++ [x]) (hx : udp_call.is_halt_or_wkup x = true) :
    keeps_conf u r := by
  refine ⟨hs, he, [x], hc, ?_⟩
  intro y hy
  rw [List.mem_singleton] at hy
  rw [hy]; exact hx

theorem std_stp_keeps_conf (c : sysconf) (sp : usb_stp_pkt) (s : jig_state)
    (h : ¬ (sp.b_request = USB_SET_CONFIGURATION ∧
      sp.bm_request_type &&& 0x1F = USB_DEVICE_RECIPIENT)) :
    keeps_conf s.udp (std_stp c sp s) := by
  apply std_stp_elim c sp s (keeps_conf s.udp)
  · intro _ _; apply keeps_conf_same; unfold std_set_desc; simp only []
    split_ifs <;> simp
  · intro _ _; apply keeps_conf_same; unfold std_get_desc_dev; simp only []
    split_ifs <;> simp
  · intro _ _; apply keeps_conf_same; unfold std_get_desc_ifc; simp only []
    split_ifs <;> simp
  · intro _ _; apply keeps_conf_same; unfold std_set_addr; simp only []
    split_ifs <;> simp
  · intro h1 h2; exact absurd ⟨h1, h2⟩ h
  · intro _ _; apply keeps_conf_same; unfold std_get_conf; simp only []
    split_ifs <;> simp
  · intro _ _; apply keeps_conf_same; unfold std_set_iface; simp only []
    split_ifs <;> simp
  · intro _ _; apply keeps_conf_same; unfold std_get_iface; simp only []
    split_ifs <;> simp
  · intro _ _; apply keeps_conf_same; unfold std_synch_frm; simp only []
    split_ifs <;> simp
  · intro _ _; apply keeps_conf_same; unfold std_get_dev_stat; simp only []
    split_ifs <;> simp
  · intro _ _; apply keeps_conf_same; unfold std_get_iface_stat; simp only []
    split_ifs <;> simp
  · intro _ _; apply keeps_conf_same; unfold std_get_endp_stat; simp only []
    split_ifs <;> simp
  · intro _ _; unfold std_clr_dev_feat; simp only []
    split_ifs
    · exact keeps_conf_call _ _ (udp_call.set_rmt_wkup_feat false)
        (by simp [on_udp, set_rmt_wkup_feat]) (by simp [on_udp, set_rmt_wkup_feat])
        (by simp [on_udp, set_rmt_wkup_feat]) rfl
    · apply keeps_conf_same; simp
  · intro _ _; unfold std_set_dev_feat; simp only []
    split_ifs
    · exact keeps_conf_call _ _ (udp_call.set_rmt_wkup_feat true)
        (by simp [on_udp, set_rmt_wkup_feat]) (by simp [on_udp, set_rmt_wkup_feat])
        (by simp [on_udp, set_rmt_wkup_feat]) rfl
    · apply keeps_conf_same; simp
    · apply keeps_conf_same; simp
    · apply keeps_conf_same; simp
  · intro _ _; apply keeps_conf_same; unfold std_clr_set_iface_feat; simp
  · intro _ _; unfold std_clr_set_endp_feat; simp only []
    split_ifs
    · exact keeps_conf_call _ _ (udp_call.un_halt_udp_endp (sp.w_index &&& 0x0F))
        (by simp [on_udp, un_halt_udp_endp]) (by simp [on_udp, un_halt_udp_endp])
        (by simp [on_udp, un_halt_udp_endp]) rfl
    · exact keeps_conf_call _ _ (udp_call.halt_udp_endp (sp.w_index &&& 0x0F))
        (by simp [on_udp, halt_udp_endp]) (by simp [on_udp, halt_udp_endp])
        (by simp [on_udp, halt_udp_endp]) rfl
    · apply keeps_conf_same; simp
  · apply keeps_conf_same; simp

theorem cls_stp_udp (c : sysconf) (sp : usb_stp_pkt) (s : jig_state) :
    (cls_stp c sp s).2.udp = s.udp := by
  apply cls_stp_elim c sp s (fun r => r.2.udp = s.udp)
  · intro _; unfold cls_get_report; simp only []
    split_ifs <;> simp
  · intro _; unfold cls_get_idle; simp only []
    split_ifs <;> simp
  · intro _; unfold cls_get_protocol; simp
  · intro _; unfold cls_set_report; simp only []
    split_ifs <;> simp
  · intro _; unfold cls_set_idle; simp only []
    split_ifs <;> simp
  · intro _; unfold cls_set_protocol; simp
  · simp

/-- C12: the only setup dispatch that changes the enumeration state or the
set of enabled endpoints is SET_CONFIGURATION to the device.  Every other
dispatch of std_stp leaves both as they were, and the only requests it makes
to the driver are halt, un-halt and the remote-wakeup setting; cls_stp leaves
the driver untouched and vnd_stp the whole state.  SET_ADDRESS makes no
request during setup: the address is handed to the driver by the
out-acknowledge callback, which does not change the enumeration state. -/
theorem C12_only_set_conf_reconfigures (c : sysconf) (sp : usb_stp_pkt) (s : jig_state) :
    (¬ (sp.b_request = USB_SET_CONFIGURATION ∧
        sp.bm_request_type &&& 0x1F = USB_DEVICE_RECIPIENT) →
      (std_stp c sp s).2.udp.state = s.udp.state ∧
      (std_stp c sp s).2.udp.enabled = s.udp.enabled ∧
      ∃ l, (std_stp c sp s).2.udp.calls = s.udp.calls ++ l ∧
        ∀ x ∈ l, udp_call.is_halt_or_wkup x = true) ∧
    (cls_stp c sp s).2.udp = s.udp ∧
    (vnd_stp sp s).2 = s ∧
    (sp.b_request = USB_SET_ADDRESS →
      sp.bm_request_type &&& 0x1F = USB_DEVICE_RECIPIENT →
      (std_stp c sp s).2.udp = s.udp ∧
      (std_out_req_ack_clbk c (std_stp c sp s).2).udp.calls
        = s.udp.calls ++ [udp_call.set_udp_addr sp.w_value] ∧
      (std_out_req_ack_clbk c (std_stp c sp s).2).udp.state = s.udp.state ∧
      (std_out_req_ack_clbk c (std_stp c sp s).2).udp.enabled = s.udp.enabled) := by
  refine ⟨fun h => std_stp_keeps_conf c sp s h, cls_stp_udp c sp s, rfl, fun hr hd => ?_⟩
  rw [std_stp_set_addr c sp s hr hd]
  unfold std_set_addr std_out_req_ack_clbk
  simp only []
  split_ifs <;> simp_all [on_udp, set_udp_addr]

/-- C12, witness: SET_FEATURE(ENDPOINT_HALT) on endpoint 1 while Configured
keeps the state Configured and endpoint 1 enabled. -/
theorem C12_only_set_conf_reconfigures_witness :
    (std_stp sysconf_keyb ⟨0x02, 3, 0, 0x81, 0⟩ (jig_state_of udp_configured 0 0)).2.udp.state
      = udp_state.UDP_STATE_CONFIGURED ∧
    (std_stp sysconf_keyb ⟨0x02, 3, 0, 0x81, 0⟩ (jig_state_of udp_configured 0 0)).2.udp.enabled 1
      = true :=
  have h := (C12_only_set_conf_reconfigures sysconf_keyb ⟨0x02, 3, 0, 0x81, 0⟩
    (jig_state_of udp_configured 0 0)).1 (by decide)
  ⟨h.1, (congrFun h.2.1 1).trans (by decide)⟩

/-! ## C13: GET_DESCRIPTOR does not look at the driver -/

theorem if_log_stp_on_udp (c : sysconf) (sp : usb_stp_pkt) (s : jig_state) (f : udp → udp) :
    if_log_stp c sp (on_udp f s) = on_udp f (if_log_stp c sp s) := by
  unfold if_log_stp log_stp_event xQueueSendFromISR_log inc_qfull_cnt on_udp
  split <;> [split; rfl] <;> rfl

theorem if_log_std_cmd_on_udp (c : sysconf) (t : String) (s : jig_state) (f : udp → udp) :
    if_log_std_cmd c t (on_udp f s) = on_udp f (if_log_std_cmd c t s) := by
  unfold if_log_std_cmd log_std_cmd_event xQueueSendFromISR_log inc_qfull_cnt on_udp
  split <;> [split; rfl] <;> rfl

theorem stp_err_cnt_inc_on_udp (s : jig_state) (f : udp → udp) :
    stp_err_cnt_inc (on_udp f s) = on_udp f (stp_err_cnt_inc s) := rfl

theorem stp_rej_cnt_inc_on_udp (s : jig_state) (f : udp → udp) :
    stp_rej_cnt_inc (on_udp f s) = on_udp f (stp_rej_cnt_inc s) := rfl

theorem std_get_desc_dev_on_udp (c : sysconf) (ucr : usb_ctl_req) (s : jig_state) (u : udp) :
    std_get_desc_dev c ucr (on_udp (fun _ => u) s)
      = ((std_get_desc_dev c ucr s).1, on_udp (fun _ => u) (std_get_desc_dev c ucr s).2) := by
  unfold std_get_desc_dev
  simp only [show (on_udp (fun _ => u) s).stp_pkt = s.stp_pkt from rfl]
  split_ifs <;>
    simp only [stp_err_cnt_inc_on_udp, stp_rej_cnt_inc_on_udp, if_log_std_cmd_on_udp]

theorem std_get_desc_ifc_on_udp (c : sysconf) (ucr : usb_ctl_req) (s : jig_state) (u : udp) :
    std_get_desc_ifc c ucr (on_udp (fun _ => u) s)
      = ((std_get_desc_ifc c ucr s).1, on_udp (fun _ => u) (std_get_desc_ifc c ucr s).2) := by
  unfold std_get_desc_ifc
  simp only [show (on_udp (fun _ => u) s).stp_pkt = s.stp_pkt from rfl]
  split_ifs <;>
    simp only [stp_err_cnt_inc_on_udp, stp_rej_cnt_inc_on_udp, if_log_std_cmd_on_udp]

theorem std_stp_get_desc_ifc (c : sysconf) (sp : usb_stp_pkt) (s : jig_state)
    (hr : sp.b_request = USB_GET_DESCRIPTOR)
    (hd : sp.bm_request_type &&& 0x1F = USB_IFACE_RECIPIENT) :
    std_stp c sp s
      = std_get_desc_ifc c usb_ctl_req.init { if_log_stp c sp s with stp_pkt := sp } := by
  unfold std_stp
  simp [hr, hd]

theorem std_stp_get_desc_on_udp (c : sysconf) (sp : usb_stp_pkt) (s : jig_state) (u : udp)
    (hr : sp.b_request = USB_GET_DESCRIPTOR)
    (hd : sp.bm_request_type &&& 0x1F = USB_DEVICE_RECIPIENT ∨
      sp.bm_request_type &&& 0x1F = USB_IFACE_RECIPIENT) :
    std_stp c sp (on_udp (fun _ => u) s)
      = ((std_stp c sp s).1, on_udp (fun _ => u) (std_stp c sp s).2) := by
  rcases hd with hd | hd
  · rw [std_stp_get_desc_dev c sp _ hr hd, std_stp_get_desc_dev c sp _ hr hd,
      if_log_stp_on_udp]
    exact std_get_desc_dev_on_udp c _ { if_log_stp c sp s with stp_pkt := sp } u
  · rw [std_stp_get_desc_ifc c sp _ hr hd, std_stp_get_desc_ifc c sp _ hr hd,
      if_log_stp_on_udp]
    exact std_get_desc_ifc_on_udp c _ { if_log_stp c sp s with stp_pkt := sp } u

/-- C13: the result of GET_DESCRIPTOR (device recipient and interface
recipient) does not depend on the device state: for every setup packet the
result and both counters after the dispatch are the same whatever the driver
state is, in particular in the states Default, Addressed and Configured. -/
theorem C13_get_descriptor_state_independent (c : sysconf) (sp : usb_stp_pkt) (s : jig_state)
    (hr : sp.b_request = USB_GET_DESCRIPTOR)
    (hd : sp.bm_request_type &&& 0x1F = USB_DEVICE_RECIPIENT ∨
      sp.bm_request_type &&& 0x1F = USB_IFACE_RECIPIENT) :
    (∀ u : udp,
      (std_stp c sp { s with udp := u }).1 = (std_stp c sp s).1 ∧
      (std_stp c sp { s with udp := u }).2.stats = (std_stp c sp s).2.stats) ∧
    (∀ st1 st2 : udp_state,
      (std_stp c sp { s with udp := { s.udp with state := st1 } }).1
        = (std_stp c sp { s with udp := { s.udp with state := st2 } }).1 ∧
      (std_stp c sp { s with udp := { s.udp with state := st1 } }).2.stats
        = (std_stp c sp { s with udp := { s.udp with state := st2 } }).2.stats) := by
  have key : ∀ u : udp,
      (std_stp c sp { s with udp := u }).1 = (std_stp c sp s).1 ∧
      (std_stp c sp { s with udp := u }).2.stats = (std_stp c sp s).2.stats := by
    intro u
    have h := std_stp_get_desc_on_udp c sp s u hr hd
    rw [show ({ s with udp := u } : jig_state) = on_udp (fun _ => u) s from rfl, h]
    exact ⟨rfl, rfl⟩
  refine ⟨key, fun st1 st2 => ?_⟩
  have h1 := key { s.udp with state := st1 }
  have h2 := key { s.udp with state := st2 }
  exact ⟨h1.1.trans h2.1.symm, h1.2.trans h2.2.symm⟩

/-- C13, witness: GET_DESCRIPTOR(Configuration) gives the same result in the
states Addressed and Configured. -/
theorem C13_get_descriptor_state_independent_witness :
    (std_stp sysconf_keyb ⟨0x80, 6, 0x0200, 0, 9⟩ (jig_state_of udp_configured 3 4)).1
      = (std_stp sysconf_keyb ⟨0x80, 6, 0x0200, 0, 9⟩ (jig_state_of udp_addressed 3 4)).1 ∧
    (std_stp sysconf_keyb ⟨0x80, 6, 0x0200, 0, 9⟩ (jig_state_of udp_configured 3 4)).2.stats
      = (std_stp sysconf_keyb ⟨0x80, 6, 0x0200, 0, 9⟩ (jig_state_of udp_addressed 3 4)).2.stats :=
  (C13_get_descriptor_state_independent sysconf_keyb ⟨0x80, 6, 0x0200, 0, 9⟩
    (jig_state_of udp_addressed 3 4) (by decide) (Or.inl (by decide))).1 udp_configured

/-! ## C14: device-qualifier and other-speed-configuration descriptors -/

/-- C14 (as the code has it): GET_DESCRIPTOR to the device for type
device-qualifier or other-speed-configuration, with descriptor index 0 and
w_index 0, is a reject for every w_length and state: valid=false, stp_err_cnt
is unchanged and stp_rej_cnt is incremented modulo 2^16 (by exactly one while
it is below 65535); with a non-zero descriptor index or w_index it is an
error instead: stp_rej_cnt unchanged, stp_err_cnt incremented modulo 2^16. -/
theorem C14_get_descriptor_unsupported (c : sysconf) (sp : usb_stp_pkt) (s : jig_state)
    (hr : sp.b_request = USB_GET_DESCRIPTOR)
    (hd : sp.bm_request_type &&& 0x1F = USB_DEVICE_RECIPIENT)
    (ht : sp.w_value >>> 8 = USB_DEV_QUAL_DESC ∨ sp.w_value >>> 8 = USB_ALT_SPEED_CONF_DESC) :
    (sp.w_value &&& 0xFF = 0 ∧ sp.w_index = 0 →
      (std_stp c sp s).1.valid = false ∧
      (std_stp c sp s).2.stats.stp_rej_cnt = (s.stats.stp_rej_cnt + 1) % 65536 ∧
      (s.stats.stp_rej_cnt < 65535 →
        (std_stp c sp s).2.stats.stp_rej_cnt = s.stats.stp_rej_cnt + 1) ∧
      (std_stp c sp s).2.stats.stp_err_cnt = s.stats.stp_err_cnt) ∧
    (sp.w_value &&& 0xFF ≠ 0 ∨ sp.w_index ≠ 0 →
      (std_stp c sp s).1.valid = false ∧
      (std_stp c sp s).2.stats.stp_err_cnt = (s.stats.stp_err_cnt + 1) % 65536 ∧
      (s.stats.stp_err_cnt < 65535 →
        (std_stp c sp s).2.stats.stp_err_cnt = s.stats.stp_err_cnt + 1) ∧
      (std_stp c sp s).2.stats.stp_rej_cnt = s.stats.stp_rej_cnt) := by
  rw [std_stp_get_desc_dev c sp s hr hd]
  unfold std_get_desc_dev
  have hm : ∀ n : Nat, n < 65535 → (n + 1) % 65536 = n + 1 :=
    fun n hn => Nat.mod_eq_of_lt (by omega)
  constructor
  · intro h0
    have h0' : ¬ (sp.w_value &&& 0xFF ≠ 0 ∨ sp.w_index ≠ 0) := by
      rintro (h | h)
      · exact h h0.1
      · exact h h0.2
    rcases ht with ht | ht
    · simp only [ht, USB_DEV_QUAL_DESC, USB_DEV_DESC, USB_ALT_SPEED_CONF_DESC, USB_CONF_DESC,
        if_neg h0']
      refine ⟨by simp [usb_ctl_req.init], by simp, fun hlt => ?_, by simp⟩
      simp [hm _ hlt]
    · simp only [ht, USB_DEV_QUAL_DESC, USB_DEV_DESC, USB_ALT_SPEED_CONF_DESC, USB_CONF_DESC,
        if_neg h0']
      refine ⟨by simp [usb_ctl_req.init], by simp, fun hlt => ?_, by simp⟩
      simp [hm _ hlt]
  · intro h1
    rcases ht with ht | ht
    · simp only [ht, USB_DEV_QUAL_DESC, USB_DEV_DESC, USB_ALT_SPEED_CONF_DESC, USB_CONF_DESC,
        if_pos h1]
      refine ⟨by simp [usb_ctl_req.init], by simp, fun hlt => ?_, by simp⟩
      simp [hm _ hlt]
    · simp only [ht, USB_DEV_QUAL_DESC, USB_DEV_DESC, USB_ALT_SPEED_CONF_DESC, USB_CONF_DESC,
        if_pos h1]
      refine ⟨by simp [usb_ctl_req.init], by simp, fun hlt => ?_, by simp⟩
      simp [hm _ hlt]

/-- C14, witness: GET_DESCRIPTOR(device-qualifier) with index 0 and
w_index 0, counters at 7, is a reject. -/
theorem C14_get_descriptor_unsupported_witness :
    (std_stp sysconf_keyb ⟨0x80, 6, 0x0600, 0, 10⟩ (jig_state_of udp_addressed 7 7)).1.valid
      = false ∧
    (std_stp sysconf_keyb ⟨0x80, 6, 0x0600, 0, 10⟩
      (jig_state_of udp_addressed 7 7)).2.stats.stp_rej_cnt = 8 ∧
    (std_stp sysconf_keyb ⟨0x80, 6, 0x0600, 0, 10⟩
      (jig_state_of udp_addressed 7 7)).2.stats.stp_err_cnt = 7 :=
  have h := (C14_get_descriptor_unsupported sysconf_keyb ⟨0x80, 6, 0x0600, 0, 10⟩
    (jig_state_of udp_addressed 7 7) (by decide) (by decide) (Or.inl (by decide))).1
    ⟨by decide, by decide⟩
  ⟨h.1, h.2.2.1 (by decide), h.2.2.2⟩

/-- C14, counterexample: GET_DESCRIPTOR(other-speed-configuration) with index
0 and w_index 0 and stp_rej_cnt at 65535 leaves the counter at 0, not at
65536. -/
theorem C14_counterexample :
    (std_stp sysconf_keyb ⟨0x80, 6, 0x0700, 0, 10⟩
      (jig_state_of udp_addressed 0 65535)).1.valid = false ∧
    (std_stp sysconf_keyb ⟨0x80, 6, 0x0700, 0, 10⟩
      (jig_state_of udp_addressed 0 65535)).2.stats.stp_rej_cnt = 0 ∧
    (std_stp sysconf_keyb ⟨0x80, 6, 0x0700, 0, 10⟩
      (jig_state_of udp_addressed 0 65535)).2.stats.stp_rej_cnt
      ≠ (jig_state_of udp_addressed 0 65535).stats.stp_rej_cnt + 1 := by
  decide

/-! ## C15: string descriptors -/

theorem land_0xFF_eq_mod (w : Nat) : w &&& 0xFF = w % 256 := by
  have h := Nat.and_pow_two_sub_one_eq_mod w 8
  norm_num at h
  exact h

theorem check_lng_code_iff (w : Nat) : check_lng_code w = true ↔ w = 0x0409 := by
  unfold check_lng_code lang_str_desc
  simp [usb_std_str_desc_size]
  exact eq_comm

theorem std_get_desc_dev_str (c : sysconf) (ucr : usb_ctl_req) (s : jig_state)
    (ht : s.stp_pkt.w_value >>> 8 = USB_STR_DESC) :
    std_get_desc_dev c ucr s =
      if (s.stp_pkt.w_value &&& 0xFF = 0 ∧ s.stp_pkt.w_index = 0) ∨
          (s.stp_pkt.w_value &&& 0xFF ≠ 0 ∧ s.stp_pkt.w_value &&& 0xFF < 4 ∧
            s.stp_pkt.w_index = 0x0409) then
        (serve_in ucr (buf_ref.str_desc (s.stp_pkt.w_value &&& 0xFF))
          (str_desc_size (s.stp_pkt.w_value &&& 0xFF)) s.stp_pkt.w_length, s)
      else
        (ucr, if_log_std_cmd c req_err_str (stp_err_cnt_inc s)) := by
  unfold std_get_desc_dev
  simp only [ht, USB_STR_DESC, USB_DEV_DESC, USB_DEV_QUAL_DESC, USB_CONF_DESC,
    USB_ALT_SPEED_CONF_DESC, Nat.reduceEqDiff, if_false, if_true]
  rw [← land_0xFF_eq_mod]
  by_cases hlow : s.stp_pkt.w_value &&& 0xFF = 0
  · by_cases hi : s.stp_pkt.w_index = 0
    · simp [hlow, hi]
    · simp [hlow, hi]
  · by_cases hx : s.stp_pkt.w_value &&& 0xFF < 4 ∧ s.stp_pkt.w_index = 0x0409
    · have hc : check_lng_code 1033 = true := (check_lng_code_iff _).mpr rfl
      simp [hlow, hx.1, hx.2, hc, str_desc_arry]
    · have hc : ¬ (s.stp_pkt.w_value &&& 0xFF < str_desc_arry.length ∧
          check_lng_code s.stp_pkt.w_index = true) := by
        rintro ⟨h1, h2⟩
        exact hx ⟨by simpa [str_desc_arry] using h1, (check_lng_code_iff _).mp h2⟩
      have hx' : ¬ (s.stp_pkt.w_value &&& 0xFF < 4 ∧ s.stp_pkt.w_index = 1033) := hx
      simp only [hlow, if_false, if_neg hc, false_and, false_or, ne_eq, not_false_eq_true,
        true_and, if_neg hx']
/-- C15 (as the code has it): GET_DESCRIPTOR(String) to the device is valid
exactly when the descriptor index is 0 and w_index is 0 (the language
descriptor) or the descriptor index is 1, 2 or 3 (Manufacturer, Product,
SerialNumber) and w_index is the language id 0x0409.  A served descriptor has
direction in, byte-count min(w_length, first byte of the descriptor) and
requested length w_length, and no counter moves.  Every other combination is
valid=false with stp_rej_cnt unchanged and stp_err_cnt incremented modulo
2^16 (by exactly one while it is below 65535). -/
theorem C15_string_descriptors (c : sysconf) (sp : usb_stp_pkt) (s : jig_state)
    (hr : sp.b_request = USB_GET_DESCRIPTOR)
    (hd : sp.bm_request_type &&& 0x1F = USB_DEVICE_RECIPIENT)
    (ht : sp.w_value >>> 8 = USB_STR_DESC) :
    ((std_stp c sp s).1.valid = true ↔
      (sp.w_value &&& 0xFF = 0 ∧ sp.w_index = 0) ∨
      ((sp.w_value &&& 0xFF = 1 ∨ sp.w_value &&& 0xFF = 2 ∨ sp.w_value &&& 0xFF = 3) ∧
        sp.w_index = 0x0409)) ∧
    ((std_stp c sp s).1.valid = true →
      (std_stp c sp s).1.buf = buf_ref.str_desc (sp.w_value &&& 0xFF) ∧
      (std_stp c sp s).1.nmb
        = min sp.w_length ((buf_bytes c s (buf_ref.str_desc (sp.w_value &&& 0xFF))).headD 0) ∧
      (std_stp c sp s).1.trans_nmb = sp.w_length ∧
      (std_stp c sp s).1.trans_dir = some udp_ctl_trans_dir.UDP_CTL_TRANS_IN ∧
      (std_stp c sp s).2.stats = s.stats) ∧
    ((std_stp c sp s).1.valid = false →
      (std_stp c sp s).2.stats.stp_err_cnt = (s.stats.stp_err_cnt + 1) % 65536 ∧
      (s.stats.stp_err_cnt < 65535 →
        (std_stp c sp s).2.stats.stp_err_cnt = s.stats.stp_err_cnt + 1) ∧
      (std_stp c sp s).2.stats.stp_rej_cnt = s.stats.stp_rej_cnt) ∧
    (buf_bytes c s (buf_ref.str_desc 0) = lang_str_desc ∧
     buf_bytes c s (buf_ref.str_desc 1) = manufacturer_str_desc ∧
     buf_bytes c s (buf_ref.str_desc 2) = product_str_desc ∧
     buf_bytes c s (buf_ref.str_desc 3) = serial_str_desc) := by
  rw [std_stp_get_desc_dev c sp s hr hd, std_get_desc_dev_str c _ _ ht]
  simp only []
  have hcond : ((sp.w_value &&& 0xFF = 0 ∧ sp.w_index = 0) ∨
      (sp.w_value &&& 0xFF ≠ 0 ∧ sp.w_value &&& 0xFF < 4 ∧ sp.w_index = 0x0409)) ↔
      ((sp.w_value &&& 0xFF = 0 ∧ sp.w_index = 0) ∨
      ((sp.w_value &&& 0xFF = 1 ∨ sp.w_value &&& 0xFF = 2 ∨ sp.w_value &&& 0xFF = 3) ∧
        sp.w_index = 0x0409)) := by
    constructor
    · rintro (h | ⟨h1, h2, h3⟩)
      · exact Or.inl h
      · exact Or.inr ⟨by omega, h3⟩
    · rintro (h | ⟨h1, h3⟩)
      · exact Or.inl h
      · exact Or.inr ⟨by omega, by omega, h3⟩
  rw [← hcond]
  have hsz : ∀ i, (if sp.w_length > str_desc_size i then str_desc_size i else sp.w_length)
      = min sp.w_length ((buf_bytes c s (buf_ref.str_desc i)).headD 0) := by
    intro i
    show _ = min sp.w_length (str_desc_size i)
    split_ifs <;> omega
  refine ⟨?_, ?_, ?_, rfl, rfl, rfl, rfl⟩
  · split_ifs with h
    · exact ⟨fun _ => h, fun _ => rfl⟩
    · exact ⟨fun hv => by simp [usb_ctl_req.init] at hv, fun h' => absurd h' h⟩
  · split_ifs with h
    · intro _
      exact ⟨rfl, hsz _, rfl, rfl, by simp⟩
    · intro hv; simp [usb_ctl_req.init] at hv
  · split_ifs with h
    · intro hv; simp [serve_in] at hv
    · intro _
      refine ⟨by simp, fun hlt => ?_, by simp⟩
      simp only [if_log_std_cmd_stats, stp_err_cnt_inc_err, if_log_stp_stats]
      exact Nat.mod_eq_of_lt (by omega)

/-- C15, witness: the product string, index 2 with language id 0x0409 and
w_length 255: 24 bytes, "SAM_JIGGLER" in UTF-16LE. -/
theorem C15_string_descriptors_witness :
    (std_stp sysconf_keyb ⟨0x80, 6, 0x0302, 0x0409, 255⟩
      (jig_state_of udp_addressed 0 0)).1.valid = true ∧
    (std_stp sysconf_keyb ⟨0x80, 6, 0x0302, 0x0409, 255⟩
      (jig_state_of udp_addressed 0 0)).1.nmb = 24 :=
  have h := C15_string_descriptors sysconf_keyb ⟨0x80, 6, 0x0302, 0x0409, 255⟩
    (jig_state_of udp_addressed 0 0) (by decide) (by decide) (by decide)
  ⟨h.1.2 (by decide), (h.2.1 (h.1.2 (by decide))).2.1.trans (by decide)⟩

/-- C15, counterexample: the product string asked for with language id 0
and stp_err_cnt at 65535 is invalid and leaves the counter at 0, not at
65536. -/
theorem C15_counterexample :
    (std_stp sysconf_keyb ⟨0x80, 6, 0x0302, 0, 255⟩
      (jig_state_of udp_addressed 65535 0)).1.valid = false ∧
    (std_stp sysconf_keyb ⟨0x80, 6, 0x0302, 0, 255⟩
      (jig_state_of udp_addressed 65535 0)).2.stats.stp_err_cnt = 0 ∧
    (std_stp sysconf_keyb ⟨0x80, 6, 0x0302, 0, 255⟩
      (jig_state_of udp_addressed 65535 0)).2.stats.stp_err_cnt
      ≠ (jig_state_of udp_addressed 65535 0).stats.stp_err_cnt + 1 := by
  decide

/-! ## C16: GET_DESCRIPTOR to an interface -/

theorem is_error_exact_of_lt (st : usb_jiggler_stats) (r : usb_ctl_req × jig_state)
    (h : is_error st r) (hlt : st.stp_err_cnt < 65535) : is_error_exact st r := by
  obtain ⟨h1, h2, h3⟩ := h
  refine ⟨h1, ?_, h3⟩
  rw [h2]
  exact Nat.mod_eq_of_lt (by simp only [USHRT_NMB]; omega)

theorem is_reject_exact_of_lt (st : usb_jiggler_stats) (r : usb_ctl_req × jig_state)
    (h : is_reject st r) (hlt : st.stp_rej_cnt < 65535) : is_reject_exact st r := by
  obtain ⟨h1, h2, h3⟩ := h
  refine ⟨h1, ?_, h3⟩
  rw [h2]
  exact Nat.mod_eq_of_lt (by simp only [USHRT_NMB]; omega)

/-- C16 (as the code has it): GET_DESCRIPTOR to an interface.  Type
HID-report with descriptor index 0 and w_index 0 serves the mouse report
descriptor with byte-count min(w_length, 62), and in the keyboard build
w_index 1 serves the keyboard report descriptor with byte-count
min(w_length, 63); any other w_index or a non-zero descriptor index is an
error.  Type HID-physical addressed to an existing interface index is a
reject and to a non-existing interface index an error; every other
descriptor type is an error.  Error and reject are valid=false with the one
counter incremented modulo 2^16 (by exactly one while it is below 65535) and
the other unchanged. -/
theorem C16_get_descriptor_interface (c : sysconf) (sp : usb_stp_pkt) (s : jig_state)
    (hr : sp.b_request = USB_GET_DESCRIPTOR)
    (hd : sp.bm_request_type &&& 0x1F = USB_IFACE_RECIPIENT) :
    (sp.w_value >>> 8 = USB_HID_REPORT_DESC → sp.w_value &&& 0xFF = 0 → sp.w_index = 0 →
      (std_stp c sp s).1 =
        { valid := true, buf := buf_ref.m_rep_desc, nmb := min sp.w_length 62,
          trans_nmb := sp.w_length, trans_dir := some udp_ctl_trans_dir.UDP_CTL_TRANS_IN } ∧
      (std_stp c sp s).2.stats = s.stats) ∧
    (c.USB_JIG_KEYB_IFACE = true →
      sp.w_value >>> 8 = USB_HID_REPORT_DESC → sp.w_value &&& 0xFF = 0 → sp.w_index = 1 →
      (std_stp c sp s).1 =
        { valid := true, buf := buf_ref.k_rep_desc, nmb := min sp.w_length 63,
          trans_nmb := sp.w_length, trans_dir := some udp_ctl_trans_dir.UDP_CTL_TRANS_IN } ∧
      (std_stp c sp s).2.stats = s.stats) ∧
    (sp.w_value >>> 8 = USB_HID_REPORT_DESC →
      ¬ (sp.w_value &&& 0xFF = 0 ∧
        (sp.w_index = 0 ∨ (c.USB_JIG_KEYB_IFACE = true ∧ sp.w_index = 1))) →
      is_error s.stats (std_stp c sp s)) ∧
    (sp.w_value >>> 8 = USB_HID_PHYSICAL_DESC →
      sp.w_index < (conf_descs c).conf_desc.b_num_interfaces →
      is_reject s.stats (std_stp c sp s)) ∧
    (sp.w_value >>> 8 = USB_HID_PHYSICAL_DESC →
      ¬ sp.w_index < (conf_descs c).conf_desc.b_num_interfaces →
      is_error s.stats (std_stp c sp s)) ∧
    (sp.w_value >>> 8 ≠ USB_HID_REPORT_DESC → sp.w_value >>> 8 ≠ USB_HID_PHYSICAL_DESC →
      is_error s.stats (std_stp c sp s)) ∧
    (is_error s.stats (std_stp c sp s) → s.stats.stp_err_cnt < 65535 →
      is_error_exact s.stats (std_stp c sp s)) ∧
    (is_reject s.stats (std_stp c sp s) → s.stats.stp_rej_cnt < 65535 →
      is_reject_exact s.stats (std_stp c sp s)) ∧
    (buf_bytes c s buf_ref.m_rep_desc).length = 62 ∧
    (buf_bytes c s buf_ref.k_rep_desc).length = 63 := by
  have hm62 : (if sp.w_length > 62 then 62 else sp.w_length) = min sp.w_length 62 := by
    split_ifs <;> omega
  have hm63 : (if sp.w_length > 63 then 63 else sp.w_length) = min sp.w_length 63 := by
    split_ifs <;> omega
  have hlm : m_rep_desc.length = 62 := rfl
  have hlk : k_rep_desc.length = 63 := rfl
  refine ⟨?_, ?_, ?_, ?_, ?_, ?_, is_error_exact_of_lt _ _, is_reject_exact_of_lt _ _, rfl, rfl⟩
  · intro ht hx hi
    rw [std_stp_get_desc_ifc c sp s hr hd]
    unfold std_get_desc_ifc
    simp [ht, hx, hi, serve_in, usb_ctl_req.init, hlm, hm62]
  · intro hk ht hx hi
    rw [std_stp_get_desc_ifc c sp s hr hd]
    unfold std_get_desc_ifc
    simp [hk, ht, hx, hi, serve_in, usb_ctl_req.init, hlk, hm63]
  · intro ht hn
    rw [std_stp_get_desc_ifc c sp s hr hd]
    unfold std_get_desc_ifc
    have h1 : ¬ (sp.w_value &&& 0xFF = 0 ∧ sp.w_index = 0) := fun h => hn ⟨h.1, Or.inl h.2⟩
    have h2 : ¬ (c.USB_JIG_KEYB_IFACE = true ∧ sp.w_value &&& 0xFF = 0 ∧ sp.w_index = 1) :=
      fun h => hn ⟨h.2.1, Or.inr ⟨h.1, h.2.2⟩⟩
    simp only [ht, USB_HID_REPORT_DESC, if_true, if_neg h1, if_neg h2]
    simp [is_error, usb_ctl_req.init]
  · intro ht hi
    rw [std_stp_get_desc_ifc c sp s hr hd]
    unfold std_get_desc_ifc
    cases hk : c.USB_JIG_KEYB_IFACE
    · have h0 : sp.w_index = 0 := by simp [conf_descs, hk] at hi; exact hi
      simp [ht, hk, h0, is_reject, usb_ctl_req.init]
    · have h0 : sp.w_index = 0 ∨ sp.w_index = 1 := by simp [conf_descs, hk] at hi; omega
      rcases h0 with h0 | h0 <;> simp [ht, hk, h0, is_reject, usb_ctl_req.init]
  · intro ht hi
    rw [std_stp_get_desc_ifc c sp s hr hd]
    unfold std_get_desc_ifc
    cases hk : c.USB_JIG_KEYB_IFACE
    · have h0 : sp.w_index ≠ 0 := by simp [conf_descs, hk] at hi; omega
      simp [ht, hk, h0, is_error, usb_ctl_req.init]
    · have h0 : sp.w_index ≠ 0 ∧ sp.w_index ≠ 1 := by
        simp [conf_descs, hk] at hi; omega
      simp [ht, hk, h0.1, h0.2, is_error, usb_ctl_req.init]
  · intro h1 h2
    rw [std_stp_get_desc_ifc c sp s hr hd]
    unfold std_get_desc_ifc
    simp only [if_neg h1, if_neg h2]
    simp [is_error, usb_ctl_req.init]

/-- C16, witness: the keyboard report descriptor asked for with w_length
255 is served with byte-count 63. -/
theorem C16_get_descriptor_interface_witness :
    (std_stp sysconf_keyb ⟨0x81, 6, 0x2200, 1, 255⟩ (jig_state_of udp_configured 0 0)).1 =
      { valid := true, buf := buf_ref.k_rep_desc, nmb := 63, trans_nmb := 255,
        trans_dir := some udp_ctl_trans_dir.UDP_CTL_TRANS_IN } :=
  ((C16_get_descriptor_interface sysconf_keyb ⟨0x81, 6, 0x2200, 1, 255⟩
    (jig_state_of udp_configured 0 0) (by decide) (by decide)).2.1
    rfl (by decide) (by decide) (by decide)).1

/-- C16, counterexample: GET_DESCRIPTOR(HID-physical) to interface 0 with
stp_rej_cnt at 65535 leaves the counter at 0, not at 65536. -/
theorem C16_counterexample :
    (std_stp sysconf_keyb ⟨0x81, 6, 0x2300, 0, 16⟩
      (jig_state_of udp_configured 0 65535)).1.valid = false ∧
    (std_stp sysconf_keyb ⟨0x81, 6, 0x2300, 0, 16⟩
      (jig_state_of udp_configured 0 65535)).2.stats.stp_rej_cnt = 0 ∧
    (std_stp sysconf_keyb ⟨0x81, 6, 0x2300, 0, 16⟩
      (jig_state_of udp_configured 0 65535)).2.stats.stp_rej_cnt
      ≠ (jig_state_of udp_configured 0 65535).stats.stp_rej_cnt + 1 := by
  decide

/-! ## C17: GET_STATUS to the device -/

theorem std_stp_get_dev_stat (c : sysconf) (sp : usb_stp_pkt) (s : jig_state)
    (hr : sp.b_request = USB_GET_STATUS)
    (hd : sp.bm_request_type &&& 0x1F = USB_DEVICE_RECIPIENT) :
    std_stp c sp s
      = std_get_dev_stat c usb_ctl_req.init { if_log_stp c sp s with stp_pkt := sp } := by
  unfold std_stp
  simp [hr, hd]

/-- GET_STATUS to the device: when it is valid and what it serves. -/
theorem get_dev_stat_spec (c : sysconf) (sp : usb_stp_pkt) (s : jig_state)
    (hr : sp.b_request = USB_GET_STATUS)
    (hd : sp.bm_request_type &&& 0x1F = USB_DEVICE_RECIPIENT) :
    ((std_stp c sp s).1.valid = true ↔
      sp.w_value = 0 ∧ sp.w_index = 0 ∧ sp.w_length = 2 ∧
      (s.udp.state = udp_state.UDP_STATE_ADDRESSED ∨
        s.udp.state = udp_state.UDP_STATE_CONFIGURED)) ∧
    ((std_stp c sp s).1.valid = true →
      (std_stp c sp s).1 = serve_ctl_rpl usb_ctl_req.init 2 ∧
      (std_stp c sp s).2.ctl_rpl = { b0 := if s.udp.rmt_wkup = true then 2 else 0, b1 := 0 } ∧
      (std_stp c sp s).2.stats = s.stats ∧
      (std_stp c sp s).2.udp = s.udp) := by
  rw [std_stp_get_dev_stat c sp s hr hd]
  unfold std_get_dev_stat
  simp only [get_udp_state, get_rmt_wkup_feat, if_log_stp_udp, is_self_powered]
  by_cases h : sp.w_value = 0 ∧ sp.w_index = 0 ∧ sp.w_length = 2 ∧
      (s.udp.state = udp_state.UDP_STATE_ADDRESSED ∨
        s.udp.state = udp_state.UDP_STATE_CONFIGURED)
  · rw [if_pos h]
    refine ⟨⟨fun _ => h, fun _ => rfl⟩, fun _ => ⟨rfl, ?_, by simp, by simp⟩⟩
    cases hw : s.udp.rmt_wkup <;> simp [ctl_rpl_bytes.set_stat]
  · rw [if_neg h]
    refine ⟨⟨fun hv => ?_, fun h' => absurd h' h⟩, fun hv => ?_⟩
    · simp [usb_ctl_req.init] at hv
    · simp [usb_ctl_req.init] at hv

/-- C17: GET_STATUS to the device is valid if and only if w_value = 0,
w_index = 0, w_length = 2 and the state is Addressed or Configured; the
served 2-byte status word then has bit0 (self-powered) equal to 0 always,
bit1 equal to the current remote-wakeup feature and all other bits 0, so the
word is 0 or 2. -/
theorem C17_get_status_device (c : sysconf) (sp : usb_stp_pkt) (s : jig_state)
    (hr : sp.b_request = USB_GET_STATUS)
    (hd : sp.bm_request_type &&& 0x1F = USB_DEVICE_RECIPIENT) :
    ((std_stp c sp s).1.valid = true ↔
      sp.w_value = 0 ∧ sp.w_index = 0 ∧ sp.w_length = 2 ∧
      (s.udp.state = udp_state.UDP_STATE_ADDRESSED ∨
        s.udp.state = udp_state.UDP_STATE_CONFIGURED)) ∧
    ((std_stp c sp s).1.valid = true →
      (std_stp c sp s).1.buf = buf_ref.ctl_rpl ∧
      (std_stp c sp s).1.nmb = 2 ∧
      (std_stp c sp s).1.trans_dir = some udp_ctl_trans_dir.UDP_CTL_TRANS_IN ∧
      (std_stp c sp s).2.ctl_rpl.stat = (if get_rmt_wkup_feat s.udp = true then 2 else 0) ∧
      (std_stp c sp s).2.ctl_rpl.stat.testBit 0 = false ∧
      (std_stp c sp s).2.ctl_rpl.stat.testBit 1 = get_rmt_wkup_feat s.udp ∧
      (∀ i, 2 ≤ i → (std_stp c sp s).2.ctl_rpl.stat.testBit i = false) ∧
      in_data c (std_stp c sp s).2 (std_stp c sp s).1
        = [if get_rmt_wkup_feat s.udp = true then 2 else 0, 0]) := by
  obtain ⟨hiff, hval⟩ := get_dev_stat_spec c sp s hr hd
  refine ⟨hiff, fun hv => ?_⟩
  obtain ⟨h1, h2, _, _⟩ := hval hv
  have h2pow : (2 : Nat) = 2 ^ 1 := rfl
  have hb : (std_stp c sp s).1.buf = buf_ref.ctl_rpl := by rw [h1]; rfl
  have hn : (std_stp c sp s).1.nmb = 2 := by rw [h1]; rfl
  have hdir : (std_stp c sp s).1.trans_dir = some udp_ctl_trans_dir.UDP_CTL_TRANS_IN := by
    rw [h1]; rfl
  have hstat : (std_stp c sp s).2.ctl_rpl.stat
      = (if get_rmt_wkup_feat s.udp = true then 2 else 0) := by
    rw [h2]
    simp [ctl_rpl_bytes.stat, get_rmt_wkup_feat]
  have hdata : in_data c (std_stp c sp s).2 (std_stp c sp s).1
      = [if get_rmt_wkup_feat s.udp = true then 2 else 0, 0] := by
    unfold in_data
    rw [hb, hn]
    simp [buf_bytes, h2, get_rmt_wkup_feat]
  refine ⟨hb, hn, hdir, hstat, ?_, ?_, ?_, hdata⟩
  · rw [hstat]
    cases get_rmt_wkup_feat s.udp <;> decide
  · rw [hstat]
    cases get_rmt_wkup_feat s.udp <;> decide
  · intro i hi
    rw [hstat]
    cases get_rmt_wkup_feat s.udp
    · simp
    · simp only [if_true]
      rw [h2pow, Nat.testBit_two_pow]
      simp; omega

/-- C17, witness: GET_STATUS to the device in state Addressed with remote
wakeup off serves the two bytes 0, 0. -/
theorem C17_get_status_device_witness :
    (std_stp sysconf_keyb ⟨0x80, 0, 0, 0, 2⟩ (jig_state_of udp_addressed 0 0)).1.valid = true ∧
    in_data sysconf_keyb
      (std_stp sysconf_keyb ⟨0x80, 0, 0, 0, 2⟩ (jig_state_of udp_addressed 0 0)).2
      (std_stp sysconf_keyb ⟨0x80, 0, 0, 0, 2⟩ (jig_state_of udp_addressed 0 0)).1 = [0, 0] :=
  have h := C17_get_status_device sysconf_keyb ⟨0x80, 0, 0, 0, 2⟩
    (jig_state_of udp_addressed 0 0) (by decide) (by decide)
  ⟨h.1.2 (by decide), (h.2 (h.1.2 (by decide))).2.2.2.2.2.2.2⟩

/-! ## C18 and C19: CLEAR_FEATURE / SET_FEATURE to the device -/

theorem std_stp_clr_dev_feat (c : sysconf) (sp : usb_stp_pkt) (s : jig_state)
    (hr : sp.b_request = USB_CLEAR_FEATURE)
    (hd : sp.bm_request_type &&& 0x1F = USB_DEVICE_RECIPIENT) :
    std_stp c sp s
      = std_clr_dev_feat c usb_ctl_req.init { if_log_stp c sp s with stp_pkt := sp } := by
  unfold std_stp
  simp [hr, hd]

theorem std_stp_set_dev_feat (c : sysconf) (sp : usb_stp_pkt) (s : jig_state)
    (hr : sp.b_request = USB_SET_FEATURE)
    (hd : sp.bm_request_type &&& 0x1F = USB_DEVICE_RECIPIENT) :
    std_stp c sp s
      = std_set_dev_feat c usb_ctl_req.init { if_log_stp c sp s with stp_pkt := sp } := by
  unfold std_stp
  simp [hr, hd]

/-- A valid remote-wakeup request hands the new setting to the driver and
nothing else. -/
theorem dev_feat_rem_wkup (c : sysconf) (sp : usb_stp_pkt) (s : jig_state)
    (hr : sp.b_request = USB_SET_FEATURE ∨ sp.b_request = USB_CLEAR_FEATURE)
    (hd : sp.bm_request_type &&& 0x1F = USB_DEVICE_RECIPIENT)
    (hv : sp.w_value = USB_DEV_REM_WKUP_FEAT) (hi : sp.w_index = 0) (hl : sp.w_length = 0)
    (hs : s.udp.state = udp_state.UDP_STATE_ADDRESSED ∨
      s.udp.state = udp_state.UDP_STATE_CONFIGURED) :
    (std_stp c sp s).1.valid = true ∧
    (std_stp c sp s).2.udp
      = set_rmt_wkup_feat (decide (sp.b_request = USB_SET_FEATURE)) s.udp := by
  rcases hr with hr | hr
  · rw [std_stp_set_dev_feat c sp s hr hd]
    unfold std_set_dev_feat
    simp [hv, hi, hl, hs, hr, get_udp_state, on_udp]
  · rw [std_stp_clr_dev_feat c sp s hr hd]
    unfold std_clr_dev_feat
    simp [hv, hi, hl, hs, hr, get_udp_state, on_udp]

/-- Any other feature selector to the device is refused and the driver is
left as it was. -/
theorem dev_feat_other (c : sysconf) (sp : usb_stp_pkt) (s : jig_state)
    (hr : sp.b_request = USB_SET_FEATURE ∨ sp.b_request = USB_CLEAR_FEATURE)
    (hd : sp.bm_request_type &&& 0x1F = USB_DEVICE_RECIPIENT)
    (hv : sp.w_value ≠ USB_DEV_REM_WKUP_FEAT) :
    (std_stp c sp s).1.valid = false ∧ (std_stp c sp s).2.udp = s.udp := by
  rcases hr with hr | hr
  · rw [std_stp_set_dev_feat c sp s hr hd]
    unfold std_set_dev_feat
    simp only []
    split_ifs <;> simp_all [usb_ctl_req.init]
  · rw [std_stp_clr_dev_feat c sp s hr hd]
    unfold std_clr_dev_feat
    simp only []
    split_ifs <;> simp_all [usb_ctl_req.init]

/-- C18: SET_FEATURE (respectively CLEAR_FEATURE) to the device with the
remote-wakeup selector, w_index 0 and w_length 0 in state Addressed or
Configured is valid and sets the driver's remote-wakeup feature to true
(respectively false) by one request, so a following valid GET_STATUS to the
device reports bit1 = 1 (respectively 0), and GET_STATUS with w_value 0,
w_index 0, w_length 2 is such a valid request.  Every other feature selector
to the device is never valid and never changes the remote-wakeup feature. -/
theorem C18_remote_wakeup_feature (c : sysconf) (sp sq : usb_stp_pkt) (s : jig_state)
    (hr : sp.b_request = USB_SET_FEATURE ∨ sp.b_request = USB_CLEAR_FEATURE)
    (hd : sp.bm_request_type &&& 0x1F = USB_DEVICE_RECIPIENT)
    (hqr : sq.b_request = USB_GET_STATUS)
    (hqd : sq.bm_request_type &&& 0x1F = USB_DEVICE_RECIPIENT) :
    (sp.w_value = USB_DEV_REM_WKUP_FEAT → sp.w_index = 0 → sp.w_length = 0 →
      (s.udp.state = udp_state.UDP_STATE_ADDRESSED ∨
        s.udp.state = udp_state.UDP_STATE_CONFIGURED) →
      (std_stp c sp s).1.valid = true ∧
      get_rmt_wkup_feat (std_stp c sp s).2.udp = decide (sp.b_request = USB_SET_FEATURE) ∧
      (std_stp c sp s).2.udp.calls = s.udp.calls ++
        [udp_call.set_rmt_wkup_feat (decide (sp.b_request = USB_SET_FEATURE))] ∧
      ((std_stp c sq (std_stp c sp s).2).1.valid = true →
        (std_stp c sq (std_stp c sp s).2).2.ctl_rpl.stat.testBit 1
          = decide (sp.b_request = USB_SET_FEATURE) ∧
        (std_stp c sq (std_stp c sp s).2).2.ctl_rpl.stat
          = (if sp.b_request = USB_SET_FEATURE then 2 else 0)) ∧
      (sq.w_value = 0 → sq.w_index = 0 → sq.w_length = 2 →
        (std_stp c sq (std_stp c sp s).2).1.valid = true)) ∧
    (sp.w_value ≠ USB_DEV_REM_WKUP_FEAT →
      (std_stp c sp s).1.valid = false ∧
      (std_stp c sp s).2.udp = s.udp ∧
      get_rmt_wkup_feat (std_stp c sp s).2.udp = get_rmt_wkup_feat s.udp) := by
  constructor
  · intro hv hi hl hs
    obtain ⟨h1, h2⟩ := dev_feat_rem_wkup c sp s hr hd hv hi hl hs
    obtain ⟨hiff, hval⟩ := get_dev_stat_spec c sq (std_stp c sp s).2 hqr hqd
    have hw : (std_stp c sp s).2.udp.rmt_wkup = decide (sp.b_request = USB_SET_FEATURE) := by
      rw [h2]; rfl
    have hst : (std_stp c sp s).2.udp.state = s.udp.state := by rw [h2]; rfl
    refine ⟨h1, hw, by rw [h2]; rfl, fun hq => ?_, fun q1 q2 q3 => ?_⟩
    · obtain ⟨_, hrpl, _, _⟩ := hval hq
      rw [hrpl, hw]
      by_cases hset : sp.b_request = USB_SET_FEATURE
      · simp only [hset, decide_True, if_true, ctl_rpl_bytes.stat]
        decide
      · simp only [hset, decide_False, if_false, ctl_rpl_bytes.stat]
        decide
    · exact hiff.2 ⟨q1, q2, q3, by rw [hst]; exact hs⟩
  · intro hv
    obtain ⟨h1, h2⟩ := dev_feat_other c sp s hr hd hv
    exact ⟨h1, h2, by rw [h2]⟩

/-- C18, witness: SET_FEATURE(remote wakeup) in state Addressed, then
GET_STATUS: the status word is 2. -/
theorem C18_remote_wakeup_feature_witness :
    (std_stp sysconf_keyb ⟨0x00, 3, 1, 0, 0⟩ (jig_state_of udp_addressed 0 0)).1.valid = true ∧
    (std_stp sysconf_keyb ⟨0x80, 0, 0, 0, 2⟩
      (std_stp sysconf_keyb ⟨0x00, 3, 1, 0, 0⟩ (jig_state_of udp_addressed 0 0)).2).1.valid
      = true ∧
    (std_stp sysconf_keyb ⟨0x80, 0, 0, 0, 2⟩
      (std_stp sysconf_keyb ⟨0x00, 3, 1, 0, 0⟩ (jig_state_of udp_addressed 0 0)).2).2.ctl_rpl.stat
      = 2 :=
  have h := (C18_remote_wakeup_feature sysconf_keyb ⟨0x00, 3, 1, 0, 0⟩ ⟨0x80, 0, 0, 0, 2⟩
    (jig_state_of udp_addressed 0 0) (Or.inl (by decide)) (by decide) (by decide)
    (by decide)).1 (by decide) (by decide) (by decide) (Or.inl (by decide))
  ⟨h.1, h.2.2.2.2 rfl rfl rfl, (h.2.2.2.1 (h.2.2.2.2 rfl rfl rfl)).2⟩

/-- C19 (as the code has it): SET_FEATURE to the device with the test-mode
feature selector, w_index 0 and w_length 0 is rejected in every state:
valid=false, stp_err_cnt unchanged, stp_rej_cnt incremented modulo 2^16 (by
exactly one while it is below 65535).  CLEAR_FEATURE to the device with the
test-mode selector is not a reject but an error, for every w_index, w_length
and state: valid=false, stp_rej_cnt unchanged, stp_err_cnt incremented modulo
2^16. -/
theorem C19_test_mode_feature (c : sysconf) (sp : usb_stp_pkt) (s : jig_state)
    (hd : sp.bm_request_type &&& 0x1F = USB_DEVICE_RECIPIENT)
    (hv : sp.w_value = USB_TEST_MODE_FEAT) :
    (sp.b_request = USB_SET_FEATURE → sp.w_index = 0 → sp.w_length = 0 →
      is_reject s.stats (std_stp c sp s) ∧
      (s.stats.stp_rej_cnt < 65535 → is_reject_exact s.stats (std_stp c sp s))) ∧
    (sp.b_request = USB_CLEAR_FEATURE →
      is_error s.stats (std_stp c sp s) ∧
      (s.stats.stp_err_cnt < 65535 → is_error_exact s.stats (std_stp c sp s)) ∧
      (std_stp c sp s).2.stats.stp_rej_cnt = s.stats.stp_rej_cnt) := by
  constructor
  · intro hr hi hl
    have h : is_reject s.stats (std_stp c sp s) := by
      rw [std_stp_set_dev_feat c sp s hr hd]
      unfold std_set_dev_feat
      simp [hv, hi, hl, is_reject, usb_ctl_req.init]
    exact ⟨h, is_reject_exact_of_lt _ _ h⟩
  · intro hr
    have h : is_error s.stats (std_stp c sp s) := by
      rw [std_stp_clr_dev_feat c sp s hr hd]
      unfold std_clr_dev_feat
      simp [hv, is_error, usb_ctl_req.init]
    exact ⟨h, is_error_exact_of_lt _ _ h, h.2.2⟩

/-- C19, witness: SET_FEATURE(TEST_MODE) with w_index 0 and w_length 0,
counters at 7: a reject, stp_rej_cnt becomes 8. -/
theorem C19_test_mode_feature_witness :
    (std_stp sysconf_keyb ⟨0x00, 3, 2, 0, 0⟩ (jig_state_of udp_addressed 7 7)).1.valid = false ∧
    (std_stp sysconf_keyb ⟨0x00, 3, 2, 0, 0⟩ (jig_state_of udp_addressed 7 7)).2.stats.stp_rej_cnt
      = 8 :=
  have h := ((C19_test_mode_feature sysconf_keyb ⟨0x00, 3, 2, 0, 0⟩
    (jig_state_of udp_addressed 7 7) (by decide) (by decide)).1
    (by decide) (by decide) (by decide)).2 (by decide)
  ⟨h.1, h.2.1⟩

/-- C19, counterexample: CLEAR_FEATURE(TEST_MODE) with w_index 0 and
w_length 0 in state Addressed, counters at 7, is counted as an error:
stp_rej_cnt stays 7 and stp_err_cnt becomes 8. -/
theorem C19_counterexample :
    (std_stp sysconf_keyb ⟨0x00, 1, 2, 0, 0⟩ (jig_state_of udp_addressed 7 7)).1.valid = false ∧
    (std_stp sysconf_keyb ⟨0x00, 1, 2, 0, 0⟩ (jig_state_of udp_addressed 7 7)).2.stats.stp_rej_cnt
      = 7 ∧
    (std_stp sysconf_keyb ⟨0x00, 1, 2, 0, 0⟩ (jig_state_of udp_addressed 7 7)).2.stats.stp_err_cnt
      = 8 ∧
    ¬ ((std_stp sysconf_keyb ⟨0x00, 1, 2, 0, 0⟩
        (jig_state_of udp_addressed 7 7)).2.stats.stp_rej_cnt
        = (jig_state_of udp_addressed 7 7).stats.stp_rej_cnt + 1 ∧
       (std_stp sysconf_keyb ⟨0x00, 1, 2, 0, 0⟩
        (jig_state_of udp_addressed 7 7)).2.stats.stp_err_cnt
        = (jig_state_of udp_addressed 7 7).stats.stp_err_cnt) := by
  decide

/-! ## C20: the unconditional rejects -/

/-- C20 (as the code has it): CLEAR_FEATURE and SET_FEATURE to an interface,
and the class requests GET_PROTOCOL and SET_PROTOCOL to an interface, are
rejected for every value, index, length and device state: valid=false,
stp_err_cnt is unchanged, the driver is left as it was, and stp_rej_cnt is
incremented modulo 2^16 (by exactly one while it is below 65535). -/
theorem C20_unconditional_rejects (c : sysconf) (sp : usb_stp_pkt) (s : jig_state)
    (hd : sp.bm_request_type &&& 0x1F = USB_IFACE_RECIPIENT) :
    (sp.b_request = USB_CLEAR_FEATURE ∨ sp.b_request = USB_SET_FEATURE →
      is_reject s.stats (std_stp c sp s) ∧
      (s.stats.stp_rej_cnt < 65535 → is_reject_exact s.stats (std_stp c sp s)) ∧
      (std_stp c sp s).2.udp = s.udp) ∧
    (sp.b_request = USB_HID_GET_PROTOCOL ∨ sp.b_request = USB_HID_SET_PROTOCOL →
      is_reject s.stats (cls_stp c sp s) ∧
      (s.stats.stp_rej_cnt < 65535 → is_reject_exact s.stats (cls_stp c sp s)) ∧
      (cls_stp c sp s).2.udp = s.udp) := by
  constructor
  · intro hr
    have he : std_stp c sp s = std_clr_set_iface_feat c usb_ctl_req.init
        { if_log_stp c sp s with stp_pkt := sp } := by
      unfold std_stp
      rcases hr with hr | hr <;> simp [hr, hd]
    have h : is_reject s.stats (std_stp c sp s) := by
      rw [he]; unfold std_clr_set_iface_feat
      simp [is_reject, usb_ctl_req.init]
    refine ⟨h, is_reject_exact_of_lt _ _ h, ?_⟩
    rw [he]; unfold std_clr_set_iface_feat; simp
  · intro hr
    have he : cls_stp c sp s = (usb_ctl_req.init, stp_rej_cnt_inc
        (if_log_cls_cmd c req_rej_str { if_log_stp c sp s with stp_pkt := sp })) := by
      unfold cls_stp cls_get_protocol cls_set_protocol
      rcases hr with hr | hr <;> simp [hr, hd]
    have h : is_reject s.stats (cls_stp c sp s) := by
      rw [he]
      simp [is_reject, usb_ctl_req.init]
    refine ⟨h, is_reject_exact_of_lt _ _ h, ?_⟩
    rw [he]; simp

/-- C20, witness: SET_FEATURE to interface 0 and GET_PROTOCOL to interface
0, counters at 7: both are rejects, stp_rej_cnt becomes 8. -/
theorem C20_unconditional_rejects_witness :
    (std_stp sysconf_keyb ⟨0x01, 3, 0, 0, 0⟩ (jig_state_of udp_configured 7 7)).2.stats.stp_rej_cnt
      = 8 ∧
    (cls_stp sysconf_keyb ⟨0xA1, 3, 0, 0, 1⟩ (jig_state_of udp_configured 7 7)).2.stats.stp_rej_cnt
      = 8 :=
  have h := C20_unconditional_rejects sysconf_keyb ⟨0x01, 3, 0, 0, 0⟩
    (jig_state_of udp_configured 7 7) (by decide)
  have k := C20_unconditional_rejects sysconf_keyb ⟨0xA1, 3, 0, 0, 1⟩
    (jig_state_of udp_configured 7 7) (by decide)
  ⟨((h.1 (Or.inr (by decide))).2.1 (by decide)).2.1,
   ((k.2 (Or.inl (by decide))).2.1 (by decide)).2.1⟩

/-- C20, counterexample: SET_PROTOCOL to interface 0 with stp_rej_cnt at
65535 leaves the counter at 0, not at 65536. -/
theorem C20_counterexample :
    (cls_stp sysconf_keyb ⟨0x21, 11, 0, 0, 0⟩
      (jig_state_of udp_configured 0 65535)).1.valid = false ∧
    (cls_stp sysconf_keyb ⟨0x21, 11, 0, 0, 0⟩
      (jig_state_of udp_configured 0 65535)).2.stats.stp_rej_cnt = 0 ∧
    (cls_stp sysconf_keyb ⟨0x21, 11, 0, 0, 0⟩
      (jig_state_of udp_configured 0 65535)).2.stats.stp_rej_cnt
      ≠ (jig_state_of udp_configured 0 65535).stats.stp_rej_cnt + 1 := by
  decide

/-! ## C21: GET_CONFIGURATION -/

theorem std_stp_get_conf (c : sysconf) (sp : usb_stp_pkt) (s : jig_state)
    (hr : sp.b_request = USB_GET_CONFIGURATION)
    (hd : sp.bm_request_type &&& 0x1F = USB_DEVICE_RECIPIENT) :
    std_stp c sp s = std_get_conf c usb_ctl_req.init { if_log_stp c sp s with stp_pkt := sp } := by
  unfold std_stp
  simp [hr, hd]

/-- C21 (as the code has it): GET_CONFIGURATION to the device is valid if
and only if w_value = 0, w_index = 0, w_length = 1 and the state is Addressed
or Configured; the single served byte is 1 when the state is Configured and
0 when it is Addressed, and no counter moves; otherwise valid=false,
stp_rej_cnt is unchanged and stp_err_cnt is incremented modulo 2^16 (by
exactly one while it is below 65535). -/
theorem C21_get_configuration (c : sysconf) (sp : usb_stp_pkt) (s : jig_state)
    (hr : sp.b_request = USB_GET_CONFIGURATION)
    (hd : sp.bm_request_type &&& 0x1F = USB_DEVICE_RECIPIENT) :
    ((std_stp c sp s).1.valid = true ↔
      sp.w_value = 0 ∧ sp.w_index = 0 ∧ sp.w_length = 1 ∧
      (s.udp.state = udp_state.UDP_STATE_ADDRESSED ∨
        s.udp.state = udp_state.UDP_STATE_CONFIGURED)) ∧
    ((std_stp c sp s).1.valid = true →
      (std_stp c sp s).1.trans_dir = some udp_ctl_trans_dir.UDP_CTL_TRANS_IN ∧
      (std_stp c sp s).1.nmb = 1 ∧
      in_data c (std_stp c sp s).2 (std_stp c sp s).1
        = [if s.udp.state = udp_state.UDP_STATE_CONFIGURED then 1 else 0] ∧
      (std_stp c sp s).2.stats = s.stats) ∧
    ((std_stp c sp s).1.valid = false →
      is_error s.stats (std_stp c sp s) ∧
      (s.stats.stp_err_cnt < 65535 → is_error_exact s.stats (std_stp c sp s))) := by
  have key : ((std_stp c sp s).1.valid = true ↔
      sp.w_value = 0 ∧ sp.w_index = 0 ∧ sp.w_length = 1 ∧
      (s.udp.state = udp_state.UDP_STATE_ADDRESSED ∨
        s.udp.state = udp_state.UDP_STATE_CONFIGURED)) ∧
    ((std_stp c sp s).1.valid = true →
      (std_stp c sp s).1.trans_dir = some udp_ctl_trans_dir.UDP_CTL_TRANS_IN ∧
      (std_stp c sp s).1.nmb = 1 ∧
      in_data c (std_stp c sp s).2 (std_stp c sp s).1
        = [if s.udp.state = udp_state.UDP_STATE_CONFIGURED then 1 else 0] ∧
      (std_stp c sp s).2.stats = s.stats) ∧
    ((std_stp c sp s).1.valid = false → is_error s.stats (std_stp c sp s)) := by
    rw [std_stp_get_conf c sp s hr hd]
    unfold std_get_conf
    simp only [get_udp_state, if_log_stp_udp]
    by_cases h : sp.w_value = 0 ∧ sp.w_index = 0 ∧ sp.w_length = 1 ∧
        (s.udp.state = udp_state.UDP_STATE_ADDRESSED ∨
          s.udp.state = udp_state.UDP_STATE_CONFIGURED)
    · rw [if_pos h]
      refine ⟨⟨fun _ => h, fun _ => rfl⟩, fun _ => ⟨rfl, rfl, ?_, by simp⟩, fun hv => ?_⟩
      · by_cases hc : s.udp.state = udp_state.UDP_STATE_CONFIGURED <;>
          simp [hc, in_data, buf_bytes, serve_ctl_rpl, ctl_rpl_bytes.set_conf]
      · simp [serve_ctl_rpl] at hv
    · rw [if_neg h]
      refine ⟨⟨fun hv => ?_, fun h' => absurd h' h⟩, fun hv => ?_, fun _ => ?_⟩
      · simp [usb_ctl_req.init] at hv
      · simp [usb_ctl_req.init] at hv
      · simp [is_error, usb_ctl_req.init]
  exact ⟨key.1, key.2.1, fun hv => ⟨key.2.2 hv, is_error_exact_of_lt _ _ (key.2.2 hv)⟩⟩

/-- C21, witness: GET_CONFIGURATION while Configured serves the byte 1. -/
theorem C21_get_configuration_witness :
    (std_stp sysconf_keyb ⟨0x80, 8, 0, 0, 1⟩ (jig_state_of udp_configured 0 0)).1.valid = true ∧
    in_data sysconf_keyb
      (std_stp sysconf_keyb ⟨0x80, 8, 0, 0, 1⟩ (jig_state_of udp_configured 0 0)).2
      (std_stp sysconf_keyb ⟨0x80, 8, 0, 0, 1⟩ (jig_state_of udp_configured 0 0)).1 = [1] :=
  have h := C21_get_configuration sysconf_keyb ⟨0x80, 8, 0, 0, 1⟩
    (jig_state_of udp_configured 0 0) (by decide) (by decide)
  ⟨h.1.2 (by decide), (h.2.1 (h.1.2 (by decide))).2.2.1⟩

/-- C21, counterexample: GET_CONFIGURATION with w_length = 2 and
stp_err_cnt at 65535 is invalid and leaves the counter at 0, not at 65536. -/
theorem C21_counterexample :
    (std_stp sysconf_keyb ⟨0x80, 8, 0, 0, 2⟩
      (jig_state_of udp_configured 65535 0)).1.valid = false ∧
    (std_stp sysconf_keyb ⟨0x80, 8, 0, 0, 2⟩
      (jig_state_of udp_configured 65535 0)).2.stats.stp_err_cnt = 0 ∧
    (std_stp sysconf_keyb ⟨0x80, 8, 0, 0, 2⟩
      (jig_state_of udp_configured 65535 0)).2.stats.stp_err_cnt
      ≠ (jig_state_of udp_configured 65535 0).stats.stp_err_cnt + 1 := by
  decide

/-! ## C22: SET_DESCRIPTOR -/

theorem std_stp_set_desc (c : sysconf) (sp : usb_stp_pkt) (s : jig_state)
    (hr : sp.b_request = USB_SET_DESCRIPTOR)
    (hd : sp.bm_request_type &&& 0x1F = USB_DEVICE_RECIPIENT) :
    std_stp c sp s = std_set_desc c usb_ctl_req.init { if_log_stp c sp s with stp_pkt := sp } := by
  unfold std_stp
  simp [hr, hd]

/-- C22 (as the code has it): SET_DESCRIPTOR to the device is never valid,
for every value, index and length, and makes no request to the driver: in
state Addressed or Configured it is a reject (stp_err_cnt unchanged,
stp_rej_cnt incremented modulo 2^16) and in every other state an error
(stp_rej_cnt unchanged, stp_err_cnt incremented modulo 2^16); an increment is
exactly one while the counter is below 65535. -/
theorem C22_set_descriptor (c : sysconf) (sp : usb_stp_pkt) (s : jig_state)
    (hr : sp.b_request = USB_SET_DESCRIPTOR)
    (hd : sp.bm_request_type &&& 0x1F = USB_DEVICE_RECIPIENT) :
    (std_stp c sp s).1.valid = false ∧
    (std_stp c sp s).2.udp = s.udp ∧
    ((s.udp.state = udp_state.UDP_STATE_ADDRESSED ∨
        s.udp.state = udp_state.UDP_STATE_CONFIGURED) →
      is_reject s.stats (std_stp c sp s) ∧
      (s.stats.stp_rej_cnt < 65535 → is_reject_exact s.stats (std_stp c sp s))) ∧
    (¬ (s.udp.state = udp_state.UDP_STATE_ADDRESSED ∨
        s.udp.state = udp_state.UDP_STATE_CONFIGURED) →
      is_error s.stats (std_stp c sp s) ∧
      (s.stats.stp_err_cnt < 65535 → is_error_exact s.stats (std_stp c sp s))) := by
  have he := std_stp_set_desc c sp s hr hd
  by_cases h : s.udp.state = udp_state.UDP_STATE_ADDRESSED ∨
      s.udp.state = udp_state.UDP_STATE_CONFIGURED
  · have hj : is_reject s.stats (std_stp c sp s) := by
      rw [he]; unfold std_set_desc
      simp [get_udp_state, h, is_reject, usb_ctl_req.init]
    refine ⟨hj.1, ?_, fun _ => ⟨hj, is_reject_exact_of_lt _ _ hj⟩, fun h' => absurd h h'⟩
    rw [he]; unfold std_set_desc
    simp [get_udp_state, h]
  · have hj : is_error s.stats (std_stp c sp s) := by
      rw [he]; unfold std_set_desc
      simp only [get_udp_state, if_log_stp_udp, if_neg h]
      simp [is_error, usb_ctl_req.init]
    refine ⟨hj.1, ?_, fun h' => absurd h' h, fun _ => ⟨hj, is_error_exact_of_lt _ _ hj⟩⟩
    rw [he]; unfold std_set_desc
    simp only [get_udp_state, if_log_stp_udp, if_neg h]
    simp

/-- C22, witness: SET_DESCRIPTOR in state Addressed, counters at 7, is a
reject: stp_rej_cnt becomes 8. -/
theorem C22_set_descriptor_witness :
    (std_stp sysconf_keyb ⟨0x00, 7, 0x0100, 0, 18⟩ (jig_state_of udp_addressed 7 7)).1.valid
      = false ∧
    (std_stp sysconf_keyb ⟨0x00, 7, 0x0100, 0, 18⟩
      (jig_state_of udp_addressed 7 7)).2.stats.stp_rej_cnt = 8 :=
  have h := C22_set_descriptor sysconf_keyb ⟨0x00, 7, 0x0100, 0, 18⟩
    (jig_state_of udp_addressed 7 7) (by decide) (by decide)
  ⟨h.1, ((h.2.2.1 (Or.inl (by decide))).2 (by decide)).2.1⟩

/-- C22, counterexample: SET_DESCRIPTOR in state Addressed with stp_rej_cnt
at 65535 leaves the counter at 0, not at 65536. -/
theorem C22_counterexample :
    (std_stp sysconf_keyb ⟨0x00, 7, 0x0100, 0, 18⟩
      (jig_state_of udp_addressed 0 65535)).1.valid = false ∧
    (std_stp sysconf_keyb ⟨0x00, 7, 0x0100, 0, 18⟩
      (jig_state_of udp_addressed 0 65535)).2.stats.stp_rej_cnt = 0 ∧
    (std_stp sysconf_keyb ⟨0x00, 7, 0x0100, 0, 18⟩
      (jig_state_of udp_addressed 0 65535)).2.stats.stp_rej_cnt
      ≠ (jig_state_of udp_addressed 0 65535).stats.stp_rej_cnt + 1 := by
  decide

/-! ## C23 and C24: SET_INTERFACE and GET_INTERFACE -/

theorem std_stp_set_iface (c : sysconf) (sp : usb_stp_pkt) (s : jig_state)
    (hr : sp.b_request = USB_SET_INTERFACE)
    (hd : sp.bm_request_type &&& 0x1F = USB_IFACE_RECIPIENT) :
    std_stp c sp s = std_set_iface c usb_ctl_req.init { if_log_stp c sp s with stp_pkt := sp } := by
  unfold std_stp
  simp [hr, hd]

theorem std_stp_get_iface (c : sysconf) (sp : usb_stp_pkt) (s : jig_state)
    (hr : sp.b_request = USB_GET_INTERFACE)
    (hd : sp.bm_request_type &&& 0x1F = USB_IFACE_RECIPIENT) :
    std_stp c sp s = std_get_iface c usb_ctl_req.init { if_log_stp c sp s with stp_pkt := sp } := by
  unfold std_stp
  simp [hr, hd]

/-- C23 (as the code has it): SET_INTERFACE to an interface is never valid
and makes no request to the driver, for every value (alternate setting 0
included), index, length and device state.  It is tallied as a reject
(stp_err_cnt unchanged, stp_rej_cnt incremented modulo 2^16) exactly when the
state is Configured and w_length = 0, for every value and index; in every
other state and for every other length it is tallied as an error
(stp_rej_cnt unchanged, stp_err_cnt incremented modulo 2^16).  An increment
is exactly one while the counter is below 65535. -/
theorem C23_set_interface (c : sysconf) (sp : usb_stp_pkt) (s : jig_state)
    (hr : sp.b_request = USB_SET_INTERFACE)
    (hd : sp.bm_request_type &&& 0x1F = USB_IFACE_RECIPIENT) :
    (std_stp c sp s).1.valid = false ∧
    (std_stp c sp s).2.udp = s.udp ∧
    (s.udp.state = udp_state.UDP_STATE_CONFIGURED ∧ sp.w_length = 0 →
      is_reject s.stats (std_stp c sp s) ∧
      (s.stats.stp_rej_cnt < 65535 → is_reject_exact s.stats (std_stp c sp s))) ∧
    (¬ (s.udp.state = udp_state.UDP_STATE_CONFIGURED ∧ sp.w_length = 0) →
      is_error s.stats (std_stp c sp s) ∧
      (s.stats.stp_err_cnt < 65535 → is_error_exact s.stats (std_stp c sp s))) := by
  have he := std_stp_set_iface c sp s hr hd
  by_cases h : s.udp.state = udp_state.UDP_STATE_CONFIGURED ∧ sp.w_length = 0
  · have hj : is_reject s.stats (std_stp c sp s) := by
      rw [he]; unfold std_set_iface
      simp [get_udp_state, h, is_reject, usb_ctl_req.init]
    refine ⟨hj.1, ?_, fun _ => ⟨hj, is_reject_exact_of_lt _ _ hj⟩, fun h' => absurd h h'⟩
    rw [he]; unfold std_set_iface
    simp [get_udp_state, h]
  · have hj : is_error s.stats (std_stp c sp s) := by
      rw [he]; unfold std_set_iface
      simp only [get_udp_state, if_log_stp_udp, if_neg h]
      simp [is_error, usb_ctl_req.init]
    refine ⟨hj.1, ?_, fun h' => absurd h' h, fun _ => ⟨hj, is_error_exact_of_lt _ _ hj⟩⟩
    rw [he]; unfold std_set_iface
    simp only [get_udp_state, if_log_stp_udp, if_neg h]
    simp

/-- C23, witness: SET_INTERFACE(alternate setting 0) to interface 0 while
Configured, counters at 7, is a reject: stp_rej_cnt becomes 8. -/
theorem C23_set_interface_witness :
    (std_stp sysconf_keyb ⟨0x01, 11, 0, 0, 0⟩ (jig_state_of udp_configured 7 7)).1.valid = false ∧
    (std_stp sysconf_keyb ⟨0x01, 11, 0, 0, 0⟩
      (jig_state_of udp_configured 7 7)).2.stats.stp_rej_cnt = 8 :=
  have h := C23_set_interface sysconf_keyb ⟨0x01, 11, 0, 0, 0⟩
    (jig_state_of udp_configured 7 7) (by decide) (by decide)
  ⟨h.1, ((h.2.2.1 ⟨by decide, by decide⟩).2 (by decide)).2.1⟩

/-- C23, counterexample: SET_INTERFACE(alternate setting 0) to interface 0
in state Addressed, counters at 7, is tallied as an error: stp_rej_cnt stays
7 and stp_err_cnt becomes 8. -/
theorem C23_counterexample :
    (std_stp sysconf_keyb ⟨0x01, 11, 0, 0, 0⟩ (jig_state_of udp_addressed 7 7)).1.valid = false ∧
    (std_stp sysconf_keyb ⟨0x01, 11, 0, 0, 0⟩
      (jig_state_of udp_addressed 7 7)).2.stats.stp_rej_cnt = 7 ∧
    (std_stp sysconf_keyb ⟨0x01, 11, 0, 0, 0⟩
      (jig_state_of udp_addressed 7 7)).2.stats.stp_err_cnt = 8 ∧
    ¬ ((std_stp sysconf_keyb ⟨0x01, 11, 0, 0, 0⟩
        (jig_state_of udp_addressed 7 7)).2.stats.stp_rej_cnt
        = (jig_state_of udp_addressed 7 7).stats.stp_rej_cnt + 1 ∧
       (std_stp sysconf_keyb ⟨0x01, 11, 0, 0, 0⟩
        (jig_state_of udp_addressed 7 7)).2.stats.stp_err_cnt
        = (jig_state_of udp_addressed 7 7).stats.stp_err_cnt) := by
  decide

/-- C24 (as the code has it): GET_INTERFACE to an interface is valid if and
only if w_value = 0, w_length = 1, w_index is smaller than the number of
interfaces declared in the configuration descriptor and the state is
Configured; the single served byte, the alternate setting, is then 0 and no
counter moves; otherwise valid=false, stp_rej_cnt is unchanged and
stp_err_cnt is incremented modulo 2^16 (by exactly one while it is below
65535). -/
theorem C24_get_interface (c : sysconf) (sp : usb_stp_pkt) (s : jig_state)
    (hr : sp.b_request = USB_GET_INTERFACE)
    (hd : sp.bm_request_type &&& 0x1F = USB_IFACE_RECIPIENT) :
    ((std_stp c sp s).1.valid = true ↔
      sp.w_value = 0 ∧ sp.w_length = 1 ∧
      sp.w_index < (conf_descs c).conf_desc.b_num_interfaces ∧
      s.udp.state = udp_state.UDP_STATE_CONFIGURED) ∧
    ((std_stp c sp s).1.valid = true →
      (std_stp c sp s).1.trans_dir = some udp_ctl_trans_dir.UDP_CTL_TRANS_IN ∧
      (std_stp c sp s).1.nmb = 1 ∧
      in_data c (std_stp c sp s).2 (std_stp c sp s).1 = [0] ∧
      (std_stp c sp s).2.stats = s.stats) ∧
    ((std_stp c sp s).1.valid = false →
      is_error s.stats (std_stp c sp s) ∧
      (s.stats.stp_err_cnt < 65535 → is_error_exact s.stats (std_stp c sp s))) := by
  have key : ((std_stp c sp s).1.valid = true ↔
      sp.w_value = 0 ∧ sp.w_length = 1 ∧
      sp.w_index < (conf_descs c).conf_desc.b_num_interfaces ∧
      s.udp.state = udp_state.UDP_STATE_CONFIGURED) ∧
    ((std_stp c sp s).1.valid = true →
      (std_stp c sp s).1.trans_dir = some udp_ctl_trans_dir.UDP_CTL_TRANS_IN ∧
      (std_stp c sp s).1.nmb = 1 ∧
      in_data c (std_stp c sp s).2 (std_stp c sp s).1 = [0] ∧
      (std_stp c sp s).2.stats = s.stats) ∧
    ((std_stp c sp s).1.valid = false → is_error s.stats (std_stp c sp s)) := by
    rw [std_stp_get_iface c sp s hr hd]
    unfold std_get_iface
    simp only [get_udp_state, if_log_stp_udp]
    by_cases h : sp.w_value = 0 ∧ sp.w_length = 1 ∧
        sp.w_index < (conf_descs c).conf_desc.b_num_interfaces ∧
        s.udp.state = udp_state.UDP_STATE_CONFIGURED
    · rw [if_pos h]
      refine ⟨⟨fun _ => h, fun _ => rfl⟩, fun _ => ⟨rfl, rfl, ?_, by simp⟩, fun hv => ?_⟩
      · simp [in_data, buf_bytes, serve_ctl_rpl, ctl_rpl_bytes.set_conf]
      · simp [serve_ctl_rpl] at hv
    · rw [if_neg h]
      refine ⟨⟨fun hv => ?_, fun h' => absurd h' h⟩, fun hv => ?_, fun _ => ?_⟩
      · simp [usb_ctl_req.init] at hv
      · simp [usb_ctl_req.init] at hv
      · simp [is_error, usb_ctl_req.init]
  exact ⟨key.1, key.2.1, fun hv => ⟨key.2.2 hv, is_error_exact_of_lt _ _ (key.2.2 hv)⟩⟩

/-- C24, witness: GET_INTERFACE of interface 1 while Configured (keyboard
build) serves the byte 0. -/
theorem C24_get_interface_witness :
    (std_stp sysconf_keyb ⟨0x81, 10, 0, 1, 1⟩ (jig_state_of udp_configured 0 0)).1.valid = true ∧
    in_data sysconf_keyb
      (std_stp sysconf_keyb ⟨0x81, 10, 0, 1, 1⟩ (jig_state_of udp_configured 0 0)).2
      (std_stp sysconf_keyb ⟨0x81, 10, 0, 1, 1⟩ (jig_state_of udp_configured 0 0)).1 = [0] :=
  have h := C24_get_interface sysconf_keyb ⟨0x81, 10, 0, 1, 1⟩
    (jig_state_of udp_configured 0 0) (by decide) (by decide)
  ⟨h.1.2 (by decide), (h.2.1 (h.1.2 (by decide))).2.2.1⟩

/-- C24, counterexample: GET_INTERFACE of the non-existing interface 2 with
stp_err_cnt at 65535 is invalid and leaves the counter at 0, not at 65536. -/
theorem C24_counterexample :
    (std_stp sysconf_keyb ⟨0x81, 10, 0, 2, 1⟩
      (jig_state_of udp_configured 65535 0)).1.valid = false ∧
    (std_stp sysconf_keyb ⟨0x81, 10, 0, 2, 1⟩
      (jig_state_of udp_configured 65535 0)).2.stats.stp_err_cnt = 0 ∧
    (std_stp sysconf_keyb ⟨0x81, 10, 0, 2, 1⟩
      (jig_state_of udp_configured 65535 0)).2.stats.stp_err_cnt
      ≠ (jig_state_of udp_configured 65535 0).stats.stp_err_cnt + 1 := by
  decide

/-! ## C25, C26 and C27: GET_REPORT, GET_IDLE and SET_IDLE -/

@[simp] theorem if_log_stp_mouse_report (c : sysconf) (sp : usb_stp_pkt) (s : jig_state) :
    (if_log_stp c sp s).mouse_report = s.mouse_report := by
  unfold if_log_stp log_stp_event xQueueSendFromISR_log inc_qfull_cnt
  split <;> [split; rfl] <;> rfl

@[simp] theorem if_log_stp_keyb_report (c : sysconf) (sp : usb_stp_pkt) (s : jig_state) :
    (if_log_stp c sp s).keyb_report = s.keyb_report := by
  unfold if_log_stp log_stp_event xQueueSendFromISR_log inc_qfull_cnt
  split <;> [split; rfl] <;> rfl

@[simp] theorem if_log_stp_keyb_led_report (c : sysconf) (sp : usb_stp_pkt) (s : jig_state) :
    (if_log_stp c sp s).keyb_led_report = s.keyb_led_report := by
  unfold if_log_stp log_stp_event xQueueSendFromISR_log inc_qfull_cnt
  split <;> [split; rfl] <;> rfl

theorem cls_stp_get_report (c : sysconf) (sp : usb_stp_pkt) (s : jig_state)
    (hr : sp.b_request = USB_HID_GET_REPORT)
    (hd : sp.bm_request_type &&& 0x1F = USB_IFACE_RECIPIENT) :
    cls_stp c sp s
      = cls_get_report c usb_ctl_req.init { if_log_stp c sp s with stp_pkt := sp } := by
  unfold cls_stp
  simp [hr, hd]

theorem cls_stp_get_idle (c : sysconf) (sp : usb_stp_pkt) (s : jig_state)
    (hr : sp.b_request = USB_HID_GET_IDLE)
    (hd : sp.bm_request_type &&& 0x1F = USB_IFACE_RECIPIENT) :
    cls_stp c sp s
      = cls_get_idle c usb_ctl_req.init { if_log_stp c sp s with stp_pkt := sp } := by
  unfold cls_stp
  simp [hr, hd]

theorem cls_stp_set_idle (c : sysconf) (sp : usb_stp_pkt) (s : jig_state)
    (hr : sp.b_request = USB_HID_SET_IDLE)
    (hd : sp.bm_request_type &&& 0x1F = USB_IFACE_RECIPIENT) :
    cls_stp c sp s
      = cls_set_idle c usb_ctl_req.init { if_log_stp c sp s with stp_pkt := sp } := by
  unfold cls_stp
  simp [hr, hd]

/-- C25 (as the code has it): GET_REPORT (class, interface recipient) with
report type Input and report id 0 while Configured returns the current report
snapshot cut to the requested length: for w_index 0 the mouse report with
byte-count min(w_length, 4) and, in the keyboard build, for w_index 1 the
keyboard report with byte-count min(w_length, 8), direction in, requested
length w_length, no counter moved.  Any other interface index, report type,
report id or device state gives valid=false, stp_rej_cnt unchanged and
stp_err_cnt incremented modulo 2^16 (by exactly one while it is below
65535). -/
theorem C25_get_report (c : sysconf) (sp : usb_stp_pkt) (s : jig_state)
    (hr : sp.b_request = USB_HID_GET_REPORT)
    (hd : sp.bm_request_type &&& 0x1F = USB_IFACE_RECIPIENT) :
    (sp.w_value >>> 8 = USB_HID_REPORT_IN → sp.w_value &&& 0xFF = 0 →
      s.udp.state = udp_state.UDP_STATE_CONFIGURED → sp.w_index = 0 →
      (cls_stp c sp s).1 =
        { valid := true, buf := buf_ref.mouse_report, nmb := min sp.w_length 4,
          trans_nmb := sp.w_length, trans_dir := some udp_ctl_trans_dir.UDP_CTL_TRANS_IN } ∧
      in_data c (cls_stp c sp s).2 (cls_stp c sp s).1
        = s.mouse_report.take (min sp.w_length 4) ∧
      (cls_stp c sp s).2.stats = s.stats) ∧
    (c.USB_JIG_KEYB_IFACE = true →
      sp.w_value >>> 8 = USB_HID_REPORT_IN → sp.w_value &&& 0xFF = 0 →
      s.udp.state = udp_state.UDP_STATE_CONFIGURED → sp.w_index = 1 →
      (cls_stp c sp s).1 =
        { valid := true, buf := buf_ref.keyb_report, nmb := min sp.w_length 8,
          trans_nmb := sp.w_length, trans_dir := some udp_ctl_trans_dir.UDP_CTL_TRANS_IN } ∧
      in_data c (cls_stp c sp s).2 (cls_stp c sp s).1
        = s.keyb_report.take (min sp.w_length 8) ∧
      (cls_stp c sp s).2.stats = s.stats) ∧
    (¬ (sp.w_value >>> 8 = USB_HID_REPORT_IN ∧ sp.w_value &&& 0xFF = 0 ∧
        s.udp.state = udp_state.UDP_STATE_CONFIGURED ∧
        (sp.w_index = 0 ∨ (c.USB_JIG_KEYB_IFACE = true ∧ sp.w_index = 1))) →
      is_error s.stats (cls_stp c sp s) ∧
      (s.stats.stp_err_cnt < 65535 → is_error_exact s.stats (cls_stp c sp s))) := by
  have hm4 : (if sp.w_length > 4 then 4 else sp.w_length) = min sp.w_length 4 := by
    split_ifs <;> omega
  have hm8 : (if sp.w_length > 8 then 8 else sp.w_length) = min sp.w_length 8 := by
    split_ifs <;> omega
  have he := cls_stp_get_report c sp s hr hd
  refine ⟨?_, ?_, ?_⟩
  · intro ht hx hs hi
    rw [he]; unfold cls_get_report
    simp [ht, hx, hs, hi, get_udp_state, serve_in, usb_ctl_req.init, hm4, in_data, buf_bytes]
  · intro hk ht hx hs hi
    rw [he]; unfold cls_get_report
    simp [hk, ht, hx, hs, hi, get_udp_state, serve_in, usb_ctl_req.init, hm8, in_data,
      buf_bytes]
  · intro hn
    have hj : is_error s.stats (cls_stp c sp s) := by
      rw [he]; unfold cls_get_report
      simp only [get_udp_state, if_log_stp_udp]
      by_cases h1 : sp.w_value >>> 8 = USB_HID_REPORT_IN ∧ sp.w_value &&& 0xFF = 0 ∧
          s.udp.state = udp_state.UDP_STATE_CONFIGURED
      · have h2 : ¬ sp.w_index = 0 := fun h => hn ⟨h1.1, h1.2.1, h1.2.2, Or.inl h⟩
        have h3 : ¬ (c.USB_JIG_KEYB_IFACE = true ∧ sp.w_index = 1) :=
          fun h => hn ⟨h1.1, h1.2.1, h1.2.2, Or.inr h⟩
        rw [if_pos h1, if_neg h2, if_neg h3]
        simp [is_error, usb_ctl_req.init]
      · rw [if_neg h1]
        simp [is_error, usb_ctl_req.init]
    exact ⟨hj, is_error_exact_of_lt _ _ hj⟩

/-- C25, witness: GET_REPORT(Input, id 0) of the mouse interface with
w_length 64 while Configured serves the 4 bytes of the mouse report. -/
theorem C25_get_report_witness :
    in_data sysconf_keyb
      (cls_stp sysconf_keyb ⟨0xA1, 1, 0x0100, 0, 64⟩ (jig_state_of udp_configured 0 0)).2
      (cls_stp sysconf_keyb ⟨0xA1, 1, 0x0100, 0, 64⟩ (jig_state_of udp_configured 0 0)).1
      = [0, 0, 0, 0] :=
  ((C25_get_report sysconf_keyb ⟨0xA1, 1, 0x0100, 0, 64⟩ (jig_state_of udp_configured 0 0)
    (by decide) (by decide)).1 (by decide) (by decide) (by decide) (by decide)).2.1.trans
    (by decide)

/-- C25, counterexample: GET_REPORT(Feature, id 0) of the mouse interface
with stp_err_cnt at 65535 is invalid and leaves the counter at 0, not at
65536. -/
theorem C25_counterexample :
    (cls_stp sysconf_keyb ⟨0xA1, 1, 0x0300, 0, 4⟩
      (jig_state_of udp_configured 65535 0)).1.valid = false ∧
    (cls_stp sysconf_keyb ⟨0xA1, 1, 0x0300, 0, 4⟩
      (jig_state_of udp_configured 65535 0)).2.stats.stp_err_cnt = 0 ∧
    (cls_stp sysconf_keyb ⟨0xA1, 1, 0x0300, 0, 4⟩
      (jig_state_of udp_configured 65535 0)).2.stats.stp_err_cnt
      ≠ (jig_state_of udp_configured 65535 0).stats.stp_err_cnt + 1 := by
  decide

/-- C26 (as the code has it): GET_IDLE (class, interface recipient) is valid
if and only if w_value = 0, w_length = 1, the state is Configured and w_index
is 0 (the mouse interface) or, in the keyboard build, 1 (the keyboard
interface); it then serves exactly one byte whose value is 0 and no counter
moves.  For any other interface index, value, length or state it is
valid=false with stp_rej_cnt unchanged and stp_err_cnt incremented modulo
2^16 (by exactly one while it is below 65535). -/
theorem C26_get_idle (c : sysconf) (sp : usb_stp_pkt) (s : jig_state)
    (hr : sp.b_request = USB_HID_GET_IDLE)
    (hd : sp.bm_request_type &&& 0x1F = USB_IFACE_RECIPIENT) :
    ((cls_stp c sp s).1.valid = true ↔
      sp.w_value = 0 ∧ sp.w_length = 1 ∧ s.udp.state = udp_state.UDP_STATE_CONFIGURED ∧
      (sp.w_index = 0 ∨ (c.USB_JIG_KEYB_IFACE = true ∧ sp.w_index = 1))) ∧
    ((cls_stp c sp s).1.valid = true →
      (cls_stp c sp s).1.trans_dir = some udp_ctl_trans_dir.UDP_CTL_TRANS_IN ∧
      (cls_stp c sp s).1.nmb = 1 ∧
      in_data c (cls_stp c sp s).2 (cls_stp c sp s).1 = [0] ∧
      (cls_stp c sp s).2.stats = s.stats) ∧
    ((cls_stp c sp s).1.valid = false →
      is_error s.stats (cls_stp c sp s) ∧
      (s.stats.stp_err_cnt < 65535 → is_error_exact s.stats (cls_stp c sp s))) := by
  have key : ((cls_stp c sp s).1.valid = true ↔
      sp.w_value = 0 ∧ sp.w_length = 1 ∧ s.udp.state = udp_state.UDP_STATE_CONFIGURED ∧
      (sp.w_index = 0 ∨ (c.USB_JIG_KEYB_IFACE = true ∧ sp.w_index = 1))) ∧
    ((cls_stp c sp s).1.valid = true →
      (cls_stp c sp s).1.trans_dir = some udp_ctl_trans_dir.UDP_CTL_TRANS_IN ∧
      (cls_stp c sp s).1.nmb = 1 ∧
      in_data c (cls_stp c sp s).2 (cls_stp c sp s).1 = [0] ∧
      (cls_stp c sp s).2.stats = s.stats) ∧
    ((cls_stp c sp s).1.valid = false → is_error s.stats (cls_stp c sp s)) := by
    rw [cls_stp_get_idle c sp s hr hd]
    unfold cls_get_idle
    simp only [get_udp_state, if_log_stp_udp]
    by_cases h1 : sp.w_value = 0 ∧ sp.w_length = 1 ∧
        s.udp.state = udp_state.UDP_STATE_CONFIGURED
    · rw [if_pos h1]
      by_cases h2 : sp.w_index = 0
      · rw [if_pos h2]
        refine ⟨⟨fun _ => ⟨h1.1, h1.2.1, h1.2.2, Or.inl h2⟩, fun _ => rfl⟩,
          fun _ => ⟨rfl, rfl, by simp [in_data, buf_bytes], by simp⟩, fun hv => ?_⟩
        simp at hv
      · rw [if_neg h2]
        by_cases h3 : c.USB_JIG_KEYB_IFACE = true ∧ sp.w_index = 1
        · rw [if_pos h3]
          refine ⟨⟨fun _ => ⟨h1.1, h1.2.1, h1.2.2, Or.inr h3⟩, fun _ => rfl⟩,
            fun _ => ⟨rfl, rfl, by simp [in_data, buf_bytes], by simp⟩, fun hv => ?_⟩
          simp at hv
        · rw [if_neg h3]
          refine ⟨⟨fun hv => ?_, fun h' => ?_⟩, fun hv => ?_, fun _ => ?_⟩
          · simp [usb_ctl_req.init] at hv
          · rcases h'.2.2.2 with h | h
            · exact absurd h h2
            · exact absurd h h3
          · simp [usb_ctl_req.init] at hv
          · simp [is_error, usb_ctl_req.init]
    · rw [if_neg h1]
      refine ⟨⟨fun hv => ?_, fun h' => absurd ⟨h'.1, h'.2.1, h'.2.2.1⟩ h1⟩,
        fun hv => ?_, fun _ => ?_⟩
      · simp [usb_ctl_req.init] at hv
      · simp [usb_ctl_req.init] at hv
      · simp [is_error, usb_ctl_req.init]
  exact ⟨key.1, key.2.1, fun hv => ⟨key.2.2 hv, is_error_exact_of_lt _ _ (key.2.2 hv)⟩⟩

/-- C26, witness: GET_IDLE of the keyboard interface while Configured
serves the byte 0. -/
theorem C26_get_idle_witness :
    (cls_stp sysconf_keyb ⟨0xA1, 2, 0, 1, 1⟩ (jig_state_of udp_configured 0 0)).1.valid = true ∧
    in_data sysconf_keyb
      (cls_stp sysconf_keyb ⟨0xA1, 2, 0, 1, 1⟩ (jig_state_of udp_configured 0 0)).2
      (cls_stp sysconf_keyb ⟨0xA1, 2, 0, 1, 1⟩ (jig_state_of udp_configured 0 0)).1 = [0] :=
  have h := C26_get_idle sysconf_keyb ⟨0xA1, 2, 0, 1, 1⟩
    (jig_state_of udp_configured 0 0) (by decide) (by decide)
  ⟨h.1.2 (by decide), (h.2.1 (h.1.2 (by decide))).2.2.1⟩

/-- C26, counterexample: GET_IDLE of the non-existing interface 2 with
stp_err_cnt at 65535 is invalid and leaves the counter at 0, not at 65536. -/
theorem C26_counterexample :
    (cls_stp sysconf_keyb ⟨0xA1, 2, 0, 2, 1⟩
      (jig_state_of udp_configured 65535 0)).1.valid = false ∧
    (cls_stp sysconf_keyb ⟨0xA1, 2, 0, 2, 1⟩
      (jig_state_of udp_configured 65535 0)).2.stats.stp_err_cnt = 0 ∧
    (cls_stp sysconf_keyb ⟨0xA1, 2, 0, 2, 1⟩
      (jig_state_of udp_configured 65535 0)).2.stats.stp_err_cnt
      ≠ (jig_state_of udp_configured 65535 0).stats.stp_err_cnt + 1 := by
  decide

/-- C27 (as the code has it): SET_IDLE (class, interface recipient) is
accepted and ignored exactly when w_value = 0 (idle duration 0 and report id
0), w_length = 0, the state is Configured and w_index is 0 (the mouse
interface) or, in the keyboard build, 1 (the keyboard interface): the result
is then valid with direction out and no report buffer, counter or driver
state is changed.  With any non-zero idle duration or report id in w_value
the result is valid=false, stp_rej_cnt is unchanged and stp_err_cnt is
incremented modulo 2^16 (by exactly one while it is below 65535). -/
theorem C27_set_idle (c : sysconf) (sp : usb_stp_pkt) (s : jig_state)
    (hr : sp.b_request = USB_HID_SET_IDLE)
    (hd : sp.bm_request_type &&& 0x1F = USB_IFACE_RECIPIENT) :
    ((cls_stp c sp s).1.valid = true ↔
      sp.w_value = 0 ∧ sp.w_length = 0 ∧ s.udp.state = udp_state.UDP_STATE_CONFIGURED ∧
      (sp.w_index = 0 ∨ (c.USB_JIG_KEYB_IFACE = true ∧ sp.w_index = 1))) ∧
    ((cls_stp c sp s).1.valid = true →
      (cls_stp c sp s).1.trans_dir = some udp_ctl_trans_dir.UDP_CTL_TRANS_OUT ∧
      (cls_stp c sp s).2.stats = s.stats ∧
      (cls_stp c sp s).2.udp = s.udp ∧
      (cls_stp c sp s).2.mouse_report = s.mouse_report ∧
      (cls_stp c sp s).2.keyb_report = s.keyb_report ∧
      (cls_stp c sp s).2.keyb_led_report = s.keyb_led_report) ∧
    ((cls_stp c sp s).1.valid = false →
      is_error s.stats (cls_stp c sp s) ∧
      (s.stats.stp_err_cnt < 65535 → is_error_exact s.stats (cls_stp c sp s))) ∧
    (sp.w_value ≠ 0 → (cls_stp c sp s).1.valid = false) := by
  have key : ((cls_stp c sp s).1.valid = true ↔
      sp.w_value = 0 ∧ sp.w_length = 0 ∧ s.udp.state = udp_state.UDP_STATE_CONFIGURED ∧
      (sp.w_index = 0 ∨ (c.USB_JIG_KEYB_IFACE = true ∧ sp.w_index = 1))) ∧
    ((cls_stp c sp s).1.valid = true →
      (cls_stp c sp s).1.trans_dir = some udp_ctl_trans_dir.UDP_CTL_TRANS_OUT ∧
      (cls_stp c sp s).2.stats = s.stats ∧
      (cls_stp c sp s).2.udp = s.udp ∧
      (cls_stp c sp s).2.mouse_report = s.mouse_report ∧
      (cls_stp c sp s).2.keyb_report = s.keyb_report ∧
      (cls_stp c sp s).2.keyb_led_report = s.keyb_led_report) ∧
    ((cls_stp c sp s).1.valid = false → is_error s.stats (cls_stp c sp s)) := by
    rw [cls_stp_set_idle c sp s hr hd]
    unfold cls_set_idle
    simp only [get_udp_state, if_log_stp_udp]
    by_cases h1 : sp.w_value = 0 ∧ sp.w_length = 0 ∧
        s.udp.state = udp_state.UDP_STATE_CONFIGURED
    · rw [if_pos h1]
      by_cases h2 : sp.w_index = 0
      · rw [if_pos h2]
        refine ⟨⟨fun _ => ⟨h1.1, h1.2.1, h1.2.2, Or.inl h2⟩, fun _ => rfl⟩,
          fun _ => ⟨rfl, by simp, by simp, by simp, by simp, by simp⟩, fun hv => ?_⟩
        simp at hv
      · rw [if_neg h2]
        by_cases h3 : c.USB_JIG_KEYB_IFACE = true ∧ sp.w_index = 1
        · rw [if_pos h3]
          refine ⟨⟨fun _ => ⟨h1.1, h1.2.1, h1.2.2, Or.inr h3⟩, fun _ => rfl⟩,
            fun _ => ⟨rfl, by simp, by simp, by simp, by simp, by simp⟩, fun hv => ?_⟩
          simp at hv
        · rw [if_neg h3]
          refine ⟨⟨fun hv => ?_, fun h' => ?_⟩, fun hv => ?_, fun _ => ?_⟩
          · simp [usb_ctl_req.init] at hv
          · rcases h'.2.2.2 with h | h
            · exact absurd h h2
            · exact absurd h h3
          · simp [usb_ctl_req.init] at hv
          · simp [is_error, usb_ctl_req.init]
    · rw [if_neg h1]
      refine ⟨⟨fun hv => ?_, fun h' => absurd ⟨h'.1, h'.2.1, h'.2.2.1⟩ h1⟩,
        fun hv => ?_, fun _ => ?_⟩
      · simp [usb_ctl_req.init] at hv
      · simp [usb_ctl_req.init] at hv
      · simp [is_error, usb_ctl_req.init]
  refine ⟨key.1, key.2.1, fun hv => ⟨key.2.2 hv, is_error_exact_of_lt _ _ (key.2.2 hv)⟩,
    fun hw => ?_⟩
  cases hv : (cls_stp c sp s).1.valid
  · rfl
  · exact absurd (key.1.1 hv).1 hw

/-- C27, witness: SET_IDLE with w_value 0 to the mouse interface while
Configured is accepted. -/
theorem C27_set_idle_witness :
    (cls_stp sysconf_keyb ⟨0x21, 10, 0, 0, 0⟩ (jig_state_of udp_configured 7 7)).1.valid = true ∧
    (cls_stp sysconf_keyb ⟨0x21, 10, 0, 0, 0⟩ (jig_state_of udp_configured 7 7)).2.stats
      = (jig_state_of udp_configured 7 7).stats :=
  have h := C27_set_idle sysconf_keyb ⟨0x21, 10, 0, 0, 0⟩
    (jig_state_of udp_configured 7 7) (by decide) (by decide)
  ⟨h.1.2 (by decide), (h.2.1 (h.1.2 (by decide))).2.1⟩

/-- C27, counterexample: SET_IDLE with idle duration 0x7D (500 ms) and
report id 0, w_value = 0x7D00, to the mouse interface with w_length 0 while
Configured is not accepted: valid=false and stp_err_cnt goes from 7 to 8. -/
theorem C27_counterexample :
    (jig_state_of udp_configured 7 7).udp.state = udp_state.UDP_STATE_CONFIGURED ∧
    (cls_stp sysconf_keyb ⟨0x21, 10, 0x7D00, 0, 0⟩ (jig_state_of udp_configured 7 7)).1.valid
      = false ∧
    (cls_stp sysconf_keyb ⟨0x21, 10, 0x7D00, 0, 0⟩
      (jig_state_of udp_configured 7 7)).2.stats.stp_err_cnt = 8 := by
  decide

/-! ## C28: the class out-received callback -/

/-- C28: in the keyboard build the class out-received callback accepts the
OUT data stage (returns true) if and only if the current request code is
SET_REPORT.  The answer does not depend on the notification queue: it is the
same for every queue content, so the same whether the non-blocking send of
the LED report finds room or finds the queue full; with the queue full the
whole state is left as it was, and in no case does a counter (stp_err_cnt,
stp_rej_cnt, qfull_cnt) change.  With room and LOG_KEYB_LEDS == 1 the LED
report is appended to the queue. -/
theorem C28_out_received_ignores_queue (c : sysconf) (s : jig_state)
    (hk : c.USB_JIG_KEYB_IFACE = true) :
    ((cls_out_req_rec_clbk c s).1 = true ↔ s.stp_pkt.b_request = USB_HID_SET_REPORT) ∧
    (∀ q : List (List Nat),
      (cls_out_req_rec_clbk c { s with keyb_led_rep_que := q }).1
        = (cls_out_req_rec_clbk c s).1) ∧
    (cls_out_req_rec_clbk c s).2.stats = s.stats ∧
    (cls_out_req_rec_clbk c s).2.qfull_cnt = s.qfull_cnt ∧
    (cls_out_req_rec_clbk c s).2.udp = s.udp ∧
    (KEYB_LED_REPORT_QUE_SIZE ≤ s.keyb_led_rep_que.length →
      (cls_out_req_rec_clbk c s).2 = s) ∧
    (c.LOG_KEYB_LEDS = true → s.stp_pkt.b_request = USB_HID_SET_REPORT →
      s.keyb_led_rep_que.length < KEYB_LED_REPORT_QUE_SIZE →
      (cls_out_req_rec_clbk c s).2.keyb_led_rep_que
        = s.keyb_led_rep_que ++ [s.keyb_led_report]) := by
  by_cases hr : s.stp_pkt.b_request = USB_HID_SET_REPORT
  · have e : ∀ t : jig_state, t.stp_pkt = s.stp_pkt → cls_out_req_rec_clbk c t
        = (true, if c.LOG_KEYB_LEDS then xQueueSendFromISR_led t else t) := by
      intro t ht
      unfold cls_out_req_rec_clbk
      rw [if_pos ⟨hk, by rw [ht]; exact hr⟩]
    have hq : ∀ q : List (List Nat),
        (cls_out_req_rec_clbk c { s with keyb_led_rep_que := q }).1
          = (cls_out_req_rec_clbk c s).1 := by
      intro q
      rw [e { s with keyb_led_rep_que := q } rfl, e s rfl]
    refine ⟨?_, hq, ?_⟩
    · rw [e s rfl]; exact ⟨fun _ => hr, fun _ => rfl⟩
    rw [e s rfl]
    refine ⟨?_, ?_, ?_, ?_, ?_⟩
    · unfold xQueueSendFromISR_led; split_ifs <;> rfl
    · unfold xQueueSendFromISR_led; split_ifs <;> rfl
    · unfold xQueueSendFromISR_led; split_ifs <;> rfl
    · intro hfull
      have hn : ¬ s.keyb_led_rep_que.length < KEYB_LED_REPORT_QUE_SIZE := by omega
      unfold xQueueSendFromISR_led
      rw [if_neg hn]
      split_ifs <;> rfl
    · intro hl _ hroom
      unfold xQueueSendFromISR_led
      rw [hl, if_pos hroom]
      rfl
  · have e : ∀ t : jig_state, t.stp_pkt = s.stp_pkt → cls_out_req_rec_clbk c t = (false, t) := by
      intro t ht
      unfold cls_out_req_rec_clbk
      rw [if_neg (fun h => hr (by rw [← ht]; exact h.2))]
    have hq : ∀ q : List (List Nat),
        (cls_out_req_rec_clbk c { s with keyb_led_rep_que := q }).1
          = (cls_out_req_rec_clbk c s).1 := by
      intro q
      rw [e { s with keyb_led_rep_que := q } rfl, e s rfl]
    refine ⟨?_, hq, ?_⟩
    · rw [e s rfl]; exact ⟨fun h => Bool.noConfusion h, fun h => absurd h hr⟩
    rw [e s rfl]
    exact ⟨rfl, rfl, rfl, fun _ => rfl, fun _ h => absurd h hr⟩

/-- C28, witness: SET_REPORT pending and the notification queue already
holding its two reports: the callback returns true and stores nothing. -/
theorem C28_out_received_ignores_queue_witness :
    (cls_out_req_rec_clbk sysconf_keyb
      { jig_state_of udp_configured 0 0 with
        stp_pkt := ⟨0x21, 9, 0x0200, 1, 1⟩, keyb_led_rep_que := [[1], [2]] }).1 = true ∧
    (cls_out_req_rec_clbk sysconf_keyb
      { jig_state_of udp_configured 0 0 with
        stp_pkt := ⟨0x21, 9, 0x0200, 1, 1⟩, keyb_led_rep_que := [[1], [2]] }).2.keyb_led_rep_que
      = [[1], [2]] :=
  have h := C28_out_received_ignores_queue sysconf_keyb
    { jig_state_of udp_configured 0 0 with
      stp_pkt := ⟨0x21, 9, 0x0200, 1, 1⟩, keyb_led_rep_que := [[1], [2]] } rfl
  ⟨h.1.2 (by decide), congrArg jig_state.keyb_led_rep_que (h.2.2.2.2.2.1 (by decide))⟩

/-! ## C29: the composite configuration descriptor -/

/-- C29: the total size declared in the configuration descriptor
(w_total_size of conf_descs) equals the sum of the size (bLength) fields of
all descriptors nested in it, the configuration descriptor itself and the
interface, HID and endpoint descriptor of each interface: 9+9+9+7 = 34 bytes
for the mouse-only build and 9+9+7 more, 59, with the keyboard.  It is also
the length of the memory image, and a walk over the image by bLength finds
exactly these descriptors.  The declared interface count equals the number of
interface descriptors present. -/
theorem C29_conf_descs_total_size (c : sysconf) :
    (conf_descs c).conf_desc.w_total_size
      = (((conf_descs c).headers).map Prod.fst).sum ∧
    (conf_descs c).conf_desc.w_total_size
      = (if c.USB_JIG_KEYB_IFACE = true then 9 + 9 + 9 + 7 + (9 + 9 + 7) else 9 + 9 + 9 + 7) ∧
    (conf_descs c).bytes.length = (conf_descs c).conf_desc.w_total_size ∧
    desc_walk (conf_descs c).bytes.length (conf_descs c).bytes
      = some (conf_descs c).headers ∧
    (conf_descs c).headers
      = (if c.USB_JIG_KEYB_IFACE = true then
          [(9, USB_CONF_DESC), (9, USB_IFACE_DESC), (9, USB_HID_DESC), (7, USB_ENDP_DESC),
           (9, USB_IFACE_DESC), (9, USB_HID_DESC), (7, USB_ENDP_DESC)]
         else
          [(9, USB_CONF_DESC), (9, USB_IFACE_DESC), (9, USB_HID_DESC), (7, USB_ENDP_DESC)]) ∧
    (conf_descs c).conf_desc.b_num_interfaces
      = (((conf_descs c).headers).filter (fun h => h.2 = USB_IFACE_DESC)).length := by
  cases hk : c.USB_JIG_KEYB_IFACE
  · refine ⟨?_, ?_, ?_, ?_, ?_, ?_⟩
    · simp [conf_descs, jig_conf_descs.headers, hid_group, sizeof_jig_conf_descs, hk]
    · simp [conf_descs, sizeof_jig_conf_descs, hk]
    · simp [conf_descs, jig_conf_descs.bytes, jig_iface_descs.bytes, hid_group,
        usb_conf_desc.bytes, usb_iface_desc.bytes, usb_hid_desc.bytes, usb_endp_desc.bytes,
        le16, sizeof_jig_conf_descs, hk]
    · simp [conf_descs, jig_conf_descs.bytes, jig_iface_descs.bytes, hid_group,
        usb_conf_desc.bytes, usb_iface_desc.bytes, usb_hid_desc.bytes, usb_endp_desc.bytes,
        le16, jig_conf_descs.headers, desc_walk, hk]
    · simp [conf_descs, jig_conf_descs.headers, hid_group, hk]
    · simp [conf_descs, jig_conf_descs.headers, hid_group, hk]
  · refine ⟨?_, ?_, ?_, ?_, ?_, ?_⟩
    · simp [conf_descs, jig_conf_descs.headers, hid_group, sizeof_jig_conf_descs, hk]
    · simp [conf_descs, sizeof_jig_conf_descs, hk]
    · simp [conf_descs, jig_conf_descs.bytes, jig_iface_descs.bytes, hid_group,
        usb_conf_desc.bytes, usb_iface_desc.bytes, usb_hid_desc.bytes, usb_endp_desc.bytes,
        le16, sizeof_jig_conf_descs, hk]
    · simp [conf_descs, jig_conf_descs.bytes, jig_iface_descs.bytes, hid_group,
        usb_conf_desc.bytes, usb_iface_desc.bytes, usb_hid_desc.bytes, usb_endp_desc.bytes,
        le16, jig_conf_descs.headers, desc_walk, hk]
    · simp [conf_descs, jig_conf_descs.headers, hid_group, hk]
    · simp [conf_descs, jig_conf_descs.headers, hid_group, hk]

/-- C30: read as HID short items, the mouse report descriptor declares, in
order, the Input fields 3 x 1 bit (buttons 1..3, data), 1 x 5 bits (constant),
2 x 8 bits (X and Y, relative, logical range -127..127) and 1 x 8 bits
(wheel, relative, -127..127): 32 bits, the 4 bytes of `struct mouse_report`.
The keyboard report descriptor declares the Input fields 8 x 1 bit
(modifiers 0xE0..0xE7), 1 x 8 bits (constant) and 6 x 8 bits (key codes
0..101): 64 bits, the 8 bytes of `struct keyb_report`; and the Output fields
5 x 1 bit (LEDs 1..5) and 1 x 3 bits (constant): 8 bits, the 1 byte of
`struct keyb_led_report`.  The reader succeeds on both tables, so every item
is complete and the collections are balanced. -/
theorem C30_report_descriptors :
    hid_fields m_rep_desc = some
      [{ kind := hid_main.input, flags := 0x02, report_size := 1, report_count := 3,
         logical_min := 0, logical_max := 1, usage_page := 0x09, usages := [],
         usage_min := some 1, usage_max := some 3 },
       { kind := hid_main.input, flags := 0x03, report_size := 5, report_count := 1,
         logical_min := 0, logical_max := 1, usage_page := 0x09, usages := [],
         usage_min := none, usage_max := none },
       { kind := hid_main.input, flags := 0x06, report_size := 8, report_count := 2,
         logical_min := -127, logical_max := 127, usage_page := 0x01, usages := [0x30, 0x31],
         usage_min := none, usage_max := none },
       { kind := hid_main.input, flags := 0x06, report_size := 8, report_count := 1,
         logical_min := -127, logical_max := 127, usage_page := 0x01, usages := [0x38],
         usage_min := none, usage_max := none }] ∧
    (hid_fields m_rep_desc).map (hid_bits hid_main.input) = some (8 * sizeof_mouse_report) ∧
    (hid_fields m_rep_desc).map (hid_bits hid_main.output) = some 0 ∧
    sizeof_mouse_report = 4 ∧
    hid_fields k_rep_desc = some
      [{ kind := hid_main.input, flags := 0x02, report_size := 1, report_count := 8,
         logical_min := 0, logical_max := 1, usage_page := 0x07, usages := [],
         usage_min := some 0xE0, usage_max := some 0xE7 },
       { kind := hid_main.input, flags := 0x03, report_size := 8, report_count := 1,
         logical_min := 0, logical_max := 1, usage_page := 0x07, usages := [],
         usage_min := none, usage_max := none },
       { kind := hid_main.output, flags := 0x02, report_size := 1, report_count := 5,
         logical_min := 0, logical_max := 1, usage_page := 0x08, usages := [],
         usage_min := some 1, usage_max := some 5 },
       { kind := hid_main.output, flags := 0x03, report_size := 3, report_count := 1,
         logical_min := 0, logical_max := 1, usage_page := 0x08, usages := [],
         usage_min := none, usage_max := none },
       { kind := hid_main.input, flags := 0x00, report_size := 8, report_count := 6,
         logical_min := 0, logical_max := 101, usage_page := 0x07, usages := [],
         usage_min := some 0, usage_max := some 101 }] ∧
    (hid_fields k_rep_desc).map (hid_bits hid_main.input) = some (8 * sizeof_keyb_report) ∧
    (hid_fields k_rep_desc).map (hid_bits hid_main.output) =
      some (8 * sizeof_keyb_led_report) ∧
    sizeof_keyb_report = 8 ∧ sizeof_keyb_led_report = 1 := by
  refine ⟨?_, ?_, ?_, ?_, ?_, ?_, ?_, ?_, ?_⟩ <;> decide


/-! ## C31: the counters over sequences of calls -/

theorem has_outcome_step (st : usb_jiggler_stats) (r : usb_ctl_req × jig_state)
    (h : has_outcome st r) :
    (r.2.stats.stp_err_cnt = st.stp_err_cnt ∨
      r.2.stats.stp_err_cnt = (st.stp_err_cnt + 1) % 65536) ∧
    (r.2.stats.stp_rej_cnt = st.stp_rej_cnt ∨
      r.2.stats.stp_rej_cnt = (st.stp_rej_cnt + 1) % 65536) := by
  rcases h with h | h | h
  · exact ⟨Or.inl (by rw [h.2]), Or.inl (by rw [h.2])⟩
  · exact ⟨Or.inr h.2.1, Or.inl h.2.2⟩
  · exact ⟨Or.inl h.2.2, Or.inr h.2.1⟩

theorem xQueueSendFromISR_led_stats (s : jig_state) :
    (xQueueSendFromISR_led s).stats = s.stats := by
  unfold xQueueSendFromISR_led
  split_ifs <;> rfl

theorem jig_call_run_stats (c : sysconf) (k : jig_call) (s : jig_state) :
    ((k.run c s).stats.stp_err_cnt = s.stats.stp_err_cnt ∨
      (k.run c s).stats.stp_err_cnt = (s.stats.stp_err_cnt + 1) % 65536) ∧
    ((k.run c s).stats.stp_rej_cnt = s.stats.stp_rej_cnt ∨
      (k.run c s).stats.stp_rej_cnt = (s.stats.stp_rej_cnt + 1) % 65536) := by
  cases k with
  | setup_std sp => exact has_outcome_step _ _ (std_stp_outcome c sp s)
  | setup_cls sp => exact has_outcome_step _ _ (cls_stp_outcome c sp s)
  | setup_vnd sp => exact ⟨Or.inl rfl, Or.inl rfl⟩
  | in_ack_std =>
    have e : (std_in_req_ack_clbk c s).stats = s.stats := by
      unfold std_in_req_ack_clbk; simp only []; split_ifs <;> simp
    exact ⟨Or.inl (by simp only [jig_call.run, e]), Or.inl (by simp only [jig_call.run, e])⟩
  | out_rec_std => exact ⟨Or.inl rfl, Or.inl rfl⟩
  | out_ack_std =>
    have e : (std_out_req_ack_clbk c s).stats = s.stats := by
      unfold std_out_req_ack_clbk; simp only []; split_ifs <;> simp [on_udp]
    exact ⟨Or.inl (by simp only [jig_call.run, e]), Or.inl (by simp only [jig_call.run, e])⟩
  | in_ack_cls =>
    have e : (cls_in_req_ack_clbk c s).stats = s.stats := by
      unfold cls_in_req_ack_clbk; simp only []; split_ifs <;> simp
    exact ⟨Or.inl (by simp only [jig_call.run, e]), Or.inl (by simp only [jig_call.run, e])⟩
  | out_rec_cls =>
    have e : (cls_out_req_rec_clbk c s).2.stats = s.stats := by
      unfold cls_out_req_rec_clbk; split_ifs <;> simp [xQueueSendFromISR_led_stats]
    exact ⟨Or.inl (by simp only [jig_call.run, e]), Or.inl (by simp only [jig_call.run, e])⟩
  | out_ack_cls =>
    have e : (cls_out_req_ack_clbk c s).stats = s.stats := by
      unfold cls_out_req_ack_clbk; simp only []; split_ifs <;> simp
    exact ⟨Or.inl (by simp only [jig_call.run, e]), Or.inl (by simp only [jig_call.run, e])⟩
  | in_ack_vnd => exact ⟨Or.inl rfl, Or.inl rfl⟩
  | out_rec_vnd => exact ⟨Or.inl rfl, Or.inl rfl⟩
  | out_ack_vnd => exact ⟨Or.inl rfl, Or.inl rfl⟩

theorem run_calls_err_bounds (c : sysconf) (l : List jig_call) (s : jig_state)
    (h : s.stats.stp_err_cnt + l.length ≤ 65535) :
    s.stats.stp_err_cnt ≤ (run_calls c l s).stats.stp_err_cnt ∧
    (run_calls c l s).stats.stp_err_cnt ≤ s.stats.stp_err_cnt + l.length := by
  induction l generalizing s with
  | nil => simp [run_calls]
  | cons k l ih =>
    have hk := (jig_call_run_stats c k s).1
    simp only [List.length_cons] at h
    have hm : (s.stats.stp_err_cnt + 1) % 65536 = s.stats.stp_err_cnt + 1 :=
      Nat.mod_eq_of_lt (by omega)
    rw [hm] at hk
    have ih' := ih (k.run c s) (by rcases hk with hk | hk <;> omega)
    have e : run_calls c (k :: l) s = run_calls c l (k.run c s) := rfl
    rw [e]
    simp only [List.length_cons]
    rcases hk with hk | hk <;> omega

theorem run_calls_rej_bounds (c : sysconf) (l : List jig_call) (s : jig_state)
    (h : s.stats.stp_rej_cnt + l.length ≤ 65535) :
    s.stats.stp_rej_cnt ≤ (run_calls c l s).stats.stp_rej_cnt ∧
    (run_calls c l s).stats.stp_rej_cnt ≤ s.stats.stp_rej_cnt + l.length := by
  induction l generalizing s with
  | nil => simp [run_calls]
  | cons k l ih =>
    have hk := (jig_call_run_stats c k s).2
    simp only [List.length_cons] at h
    have hm : (s.stats.stp_rej_cnt + 1) % 65536 = s.stats.stp_rej_cnt + 1 :=
      Nat.mod_eq_of_lt (by omega)
    rw [hm] at hk
    have ih' := ih (k.run c s) (by rcases hk with hk | hk <;> omega)
    have e : run_calls c (k :: l) s = run_calls c l (k.run c s) := rfl
    rw [e]
    simp only [List.length_cons]
    rcases hk with hk | hk <;> omega

/-- C31 (as the code has it): the two statistics counters stp_err_cnt and
stp_rej_cnt are `unsigned short` and count modulo 2^16.  Every call of a
callback, a dispatch included, leaves each counter as it was or replaces it by
(counter + 1) mod 65536; so a counter below 65535 never decreases in a call,
and a counter at 65535 either stays or wraps to 0.  Over a sequence of calls
that cannot reach the wrap, counter + number of calls <= 65535, the value
after is greater than or equal to the value before and exceeds it by at most
the number of calls. -/
theorem C31_counters_monotone_below_wrap (c : sysconf) (l : List jig_call) (k : jig_call)
    (s : jig_state) :
    ((k.run c s).stats.stp_err_cnt = s.stats.stp_err_cnt ∨
      (k.run c s).stats.stp_err_cnt = (s.stats.stp_err_cnt + 1) % 65536) ∧
    ((k.run c s).stats.stp_rej_cnt = s.stats.stp_rej_cnt ∨
      (k.run c s).stats.stp_rej_cnt = (s.stats.stp_rej_cnt + 1) % 65536) ∧
    (s.stats.stp_err_cnt < 65535 → s.stats.stp_err_cnt ≤ (k.run c s).stats.stp_err_cnt) ∧
    (s.stats.stp_rej_cnt < 65535 → s.stats.stp_rej_cnt ≤ (k.run c s).stats.stp_rej_cnt) ∧
    (s.stats.stp_err_cnt + l.length ≤ 65535 →
      s.stats.stp_err_cnt ≤ (run_calls c l s).stats.stp_err_cnt ∧
      (run_calls c l s).stats.stp_err_cnt ≤ s.stats.stp_err_cnt + l.length) ∧
    (s.stats.stp_rej_cnt + l.length ≤ 65535 →
      s.stats.stp_rej_cnt ≤ (run_calls c l s).stats.stp_rej_cnt ∧
      (run_calls c l s).stats.stp_rej_cnt ≤ s.stats.stp_rej_cnt + l.length) := by
  have hk := jig_call_run_stats c k s
  refine ⟨hk.1, hk.2, fun h => ?_, fun h => ?_, run_calls_err_bounds c l s,
    run_calls_rej_bounds c l s⟩
  · have hm : (s.stats.stp_err_cnt + 1) % 65536 = s.stats.stp_err_cnt + 1 :=
      Nat.mod_eq_of_lt (by omega)
    rcases hk.1 with e | e <;> omega
  · have hm : (s.stats.stp_rej_cnt + 1) % 65536 = s.stats.stp_rej_cnt + 1 :=
      Nat.mod_eq_of_lt (by omega)
    rcases hk.2 with e | e <;> omega

/-- C31, witness: three dispatches from counters 7 and 7, an unmatched
standard request, SET_INTERFACE while Configured and a vendor request, leave
stp_err_cnt and stp_rej_cnt within 7..10. -/
theorem C31_counters_monotone_below_wrap_witness :
    7 ≤ (run_calls sysconf_keyb
      [jig_call.setup_std ⟨0x00, 0x30, 0, 0, 0⟩, jig_call.setup_std ⟨0x01, 11, 0, 0, 0⟩,
       jig_call.setup_vnd ⟨0x40, 1, 0, 0, 0⟩]
      (jig_state_of udp_configured 7 7)).stats.stp_err_cnt ∧
    (run_calls sysconf_keyb
      [jig_call.setup_std ⟨0x00, 0x30, 0, 0, 0⟩, jig_call.setup_std ⟨0x01, 11, 0, 0, 0⟩,
       jig_call.setup_vnd ⟨0x40, 1, 0, 0, 0⟩]
      (jig_state_of udp_configured 7 7)).stats.stp_err_cnt ≤ 10 :=
  (C31_counters_monotone_below_wrap sysconf_keyb
    [jig_call.setup_std ⟨0x00, 0x30, 0, 0, 0⟩, jig_call.setup_std ⟨0x01, 11, 0, 0, 0⟩,
     jig_call.setup_vnd ⟨0x40, 1, 0, 0, 0⟩]
    jig_call.in_ack_std (jig_state_of udp_configured 7 7)).2.2.2.2.1 (by decide)

/-- C31, counterexample: from stp_err_cnt = 65534 two dispatches of an
unmatched standard request take the counter to 65535 and then to 0, which is
below the value before the second dispatch and below the value before the
sequence. -/
theorem C31_counterexample :
    (run_calls sysconf_keyb [jig_call.setup_std ⟨0x00, 0x30, 0, 0, 0⟩]
      (jig_state_of udp_configured 65534 0)).stats.stp_err_cnt = 65535 ∧
    (run_calls sysconf_keyb
      [jig_call.setup_std ⟨0x00, 0x30, 0, 0, 0⟩, jig_call.setup_std ⟨0x00, 0x30, 0, 0, 0⟩]
      (jig_state_of udp_configured 65534 0)).stats.stp_err_cnt = 0 ∧
    ¬ ((jig_state_of udp_configured 65534 0).stats.stp_err_cnt ≤
      (run_calls sysconf_keyb
        [jig_call.setup_std ⟨0x00, 0x30, 0, 0, 0⟩, jig_call.setup_std ⟨0x00, 0x30, 0, 0, 0⟩]
        (jig_state_of udp_configured 65534 0)).stats.stp_err_cnt) := by
  decide


/-! ## C32: the vendor handler set -/

/-- C32 (as the code has it): for every setup packet handed to the vendor
handler set, which implements no request, the result is the initialiser
`{.valid = FALSE}`, so valid=false with no buffer, no byte count and no
direction, and nothing is counted: stp_err_cnt and stp_rej_cnt keep their
values, as does the rest of the state (no event is posted, no request is made
to the driver, the packet is not stored). -/
theorem C32_vendor_setup_counts_nothing (sp : usb_stp_pkt) (s : jig_state) :
    (vnd_stp sp s).1.valid = false ∧
    (vnd_stp sp s).1 = usb_ctl_req.init ∧
    (vnd_stp sp s).2.stats.stp_err_cnt = s.stats.stp_err_cnt ∧
    (vnd_stp sp s).2.stats.stp_rej_cnt = s.stats.stp_rej_cnt ∧
    (vnd_stp sp s).2 = s ∧
    ¬ is_error s.stats (vnd_stp sp s) := by
  refine ⟨rfl, rfl, rfl, rfl, rfl, fun h => ?_⟩
  have h1 : s.stats.stp_err_cnt = (s.stats.stp_err_cnt + 1) % 65536 := h.2.1
  omega

/-- C32, counterexample: a vendor request (bm_request_type 0x40, request
code 1) with stp_err_cnt at 7 is invalid and leaves the counter at 7, not
at 8. -/
theorem C32_counterexample :
    (vnd_stp ⟨0x40, 1, 0, 0, 0⟩ (jig_state_of udp_configured 7 7)).1.valid = false ∧
    (vnd_stp ⟨0x40, 1, 0, 0, 0⟩ (jig_state_of udp_configured 7 7)).2.stats.stp_err_cnt = 7 ∧
    (vnd_stp ⟨0x40, 1, 0, 0, 0⟩ (jig_state_of udp_configured 7 7)).2.stats.stp_err_cnt
      ≠ (jig_state_of udp_configured 7 7).stats.stp_err_cnt + 1 := by
  decide


/-! ## C33: a full telemetry queue -/

theorem std_stp_handler (c : sysconf) (sp : usb_stp_pkt) :
    ∃ h ∈ std_stp_handlers c,
      ∀ s, std_stp c sp s = h { if_log_stp c sp s with stp_pkt := sp } := by
  by_cases h1 : sp.b_request = USB_SET_DESCRIPTOR ∧ sp.bm_request_type &&& 0x1F = USB_DEVICE_RECIPIENT
  · exact ⟨std_set_desc c usb_ctl_req.init, by simp [std_stp_handlers], fun s => by
      unfold std_stp; simp only []; rw [if_pos h1]⟩
  by_cases h2 : sp.b_request = USB_GET_DESCRIPTOR ∧ sp.bm_request_type &&& 0x1F = USB_DEVICE_RECIPIENT
  · exact ⟨std_get_desc_dev c usb_ctl_req.init, by simp [std_stp_handlers], fun s => by
      unfold std_stp; simp only []; rw [if_neg h1, if_pos h2]⟩
  by_cases h3 : sp.b_request = USB_GET_DESCRIPTOR ∧ sp.bm_request_type &&& 0x1F = USB_IFACE_RECIPIENT
  · exact ⟨std_get_desc_ifc c usb_ctl_req.init, by simp [std_stp_handlers], fun s => by
      unfold std_stp; simp only []; rw [if_neg h1, if_neg h2, if_pos h3]⟩
  by_cases h4 : sp.b_request = USB_SET_ADDRESS ∧ sp.bm_request_type &&& 0x1F = USB_DEVICE_RECIPIENT
  · exact ⟨std_set_addr c usb_ctl_req.init, by simp [std_stp_handlers], fun s => by
      unfold std_stp; simp only []; rw [if_neg h1, if_neg h2, if_neg h3, if_pos h4]⟩
  by_cases h5 : sp.b_request = USB_SET_CONFIGURATION ∧ sp.bm_request_type &&& 0x1F = USB_DEVICE_RECIPIENT
  · exact ⟨std_set_conf c usb_ctl_req.init, by simp [std_stp_handlers], fun s => by
      unfold std_stp; simp only []; rw [if_neg h1, if_neg h2, if_neg h3, if_neg h4, if_pos h5]⟩
  by_cases h6 : sp.b_request = USB_GET_CONFIGURATION ∧ sp.bm_request_type &&& 0x1F = USB_DEVICE_RECIPIENT
  · exact ⟨std_get_conf c usb_ctl_req.init, by simp [std_stp_handlers], fun s => by
      unfold std_stp; simp only []; rw [if_neg h1, if_neg h2, if_neg h3, if_neg h4, if_neg h5, if_pos h6]⟩
  by_cases h7 : sp.b_request = USB_SET_INTERFACE ∧ sp.bm_request_type &&& 0x1F = USB_IFACE_RECIPIENT
  · exact ⟨std_set_iface c usb_ctl_req.init, by simp [std_stp_handlers], fun s => by
      unfold std_stp; simp only []; rw [if_neg h1, if_neg h2, if_neg h3, if_neg h4, if_neg h5, if_neg h6, if_pos h7]⟩
  by_cases h8 : sp.b_request = USB_GET_INTERFACE ∧ sp.bm_request_type &&& 0x1F = USB_IFACE_RECIPIENT
  · exact ⟨std_get_iface c usb_ctl_req.init, by simp [std_stp_handlers], fun s => by
      unfold std_stp; simp only []; rw [if_neg h1, if_neg h2, if_neg h3, if_neg h4, if_neg h5, if_neg h6, if_neg h7, if_pos h8]⟩
  by_cases h9 : sp.b_request = USB_SYNCH_FRAME ∧ sp.bm_request_type &&& 0x1F = USB_ENDP_RECIPIENT
  · exact ⟨std_synch_frm c usb_ctl_req.init, by simp [std_stp_handlers], fun s => by
      unfold std_stp; simp only []; rw [if_neg h1, if_neg h2, if_neg h3, if_neg h4, if_neg h5, if_neg h6, if_neg h7, if_neg h8, if_pos h9]⟩
  by_cases h10 : sp.b_request = USB_GET_STATUS ∧ sp.bm_request_type &&& 0x1F = USB_DEVICE_RECIPIENT
  · exact ⟨std_get_dev_stat c usb_ctl_req.init, by simp [std_stp_handlers], fun s => by
      unfold std_stp; simp only []; rw [if_neg h1, if_neg h2, if_neg h3, if_neg h4, if_neg h5, if_neg h6, if_neg h7, if_neg h8, if_neg h9, if_pos h10]⟩
  by_cases h11 : sp.b_request = USB_GET_STATUS ∧ sp.bm_request_type &&& 0x1F = USB_IFACE_RECIPIENT
  · exact ⟨std_get_iface_stat c usb_ctl_req.init, by simp [std_stp_handlers], fun s => by
      unfold std_stp; simp only []; rw [if_neg h1, if_neg h2, if_neg h3, if_neg h4, if_neg h5, if_neg h6, if_neg h7, if_neg h8, if_neg h9, if_neg h10, if_pos h11]⟩
  by_cases h12 : sp.b_request = USB_GET_STATUS ∧ sp.bm_request_type &&& 0x1F = USB_ENDP_RECIPIENT
  · exact ⟨std_get_endp_stat c usb_ctl_req.init, by simp [std_stp_handlers], fun s => by
      unfold std_stp; simp only []; rw [if_neg h1, if_neg h2, if_neg h3, if_neg h4, if_neg h5, if_neg h6, if_neg h7, if_neg h8, if_neg h9, if_neg h10, if_neg h11, if_pos h12]⟩
  by_cases h13 : sp.b_request = USB_CLEAR_FEATURE ∧ sp.bm_request_type &&& 0x1F = USB_DEVICE_RECIPIENT
  · exact ⟨std_clr_dev_feat c usb_ctl_req.init, by simp [std_stp_handlers], fun s => by
      unfold std_stp; simp only []; rw [if_neg h1, if_neg h2, if_neg h3, if_neg h4, if_neg h5, if_neg h6, if_neg h7, if_neg h8, if_neg h9, if_neg h10, if_neg h11, if_neg h12, if_pos h13]⟩
  by_cases h14 : sp.b_request = USB_CLEAR_FEATURE ∧ sp.bm_request_type &&& 0x1F = USB_IFACE_RECIPIENT
  · exact ⟨std_clr_set_iface_feat c usb_ctl_req.init, by simp [std_stp_handlers], fun s => by
      unfold std_stp; simp only []; rw [if_neg h1, if_neg h2, if_neg h3, if_neg h4, if_neg h5, if_neg h6, if_neg h7, if_neg h8, if_neg h9, if_neg h10, if_neg h11, if_neg h12, if_neg h13, if_pos h14]⟩
  by_cases h15 : sp.b_request = USB_CLEAR_FEATURE ∧ sp.bm_request_type &&& 0x1F = USB_ENDP_RECIPIENT
  · exact ⟨std_clr_set_endp_feat c usb_ctl_req.init, by simp [std_stp_handlers], fun s => by
      unfold std_stp; simp only []; rw [if_neg h1, if_neg h2, if_neg h3, if_neg h4, if_neg h5, if_neg h6, if_neg h7, if_neg h8, if_neg h9, if_neg h10, if_neg h11, if_neg h12, if_neg h13, if_neg h14, if_pos h15]⟩
  by_cases h16 : sp.b_request = USB_SET_FEATURE ∧ sp.bm_request_type &&& 0x1F = USB_DEVICE_RECIPIENT
  · exact ⟨std_set_dev_feat c usb_ctl_req.init, by simp [std_stp_handlers], fun s => by
      unfold std_stp; simp only []; rw [if_neg h1, if_neg h2, if_neg h3, if_neg h4, if_neg h5, if_neg h6, if_neg h7, if_neg h8, if_neg h9, if_neg h10, if_neg h11, if_neg h12, if_neg h13, if_neg h14, if_neg h15, if_pos h16]⟩
  by_cases h17 : sp.b_request = USB_SET_FEATURE ∧ sp.bm_request_type &&& 0x1F = USB_IFACE_RECIPIENT
  · exact ⟨std_clr_set_iface_feat c usb_ctl_req.init, by simp [std_stp_handlers], fun s => by
      unfold std_stp; simp only []; rw [if_neg h1, if_neg h2, if_neg h3, if_neg h4, if_neg h5, if_neg h6, if_neg h7, if_neg h8, if_neg h9, if_neg h10, if_neg h11, if_neg h12, if_neg h13, if_neg h14, if_neg h15, if_neg h16, if_pos h17]⟩
  by_cases h18 : sp.b_request = USB_SET_FEATURE ∧ sp.bm_request_type &&& 0x1F = USB_ENDP_RECIPIENT
  · exact ⟨std_clr_set_endp_feat c usb_ctl_req.init, by simp [std_stp_handlers], fun s => by
      unfold std_stp; simp only []; rw [if_neg h1, if_neg h2, if_neg h3, if_neg h4, if_neg h5, if_neg h6, if_neg h7, if_neg h8, if_neg h9, if_neg h10, if_neg h11, if_neg h12, if_neg h13, if_neg h14, if_neg h15, if_neg h16, if_neg h17, if_pos h18]⟩
  exact ⟨fun s => (usb_ctl_req.init, stp_err_cnt_inc (if_log_std_cmd c req_err_str s)),
    by simp [std_stp_handlers], fun s => by
      unfold std_stp; simp only []; rw [if_neg h1, if_neg h2, if_neg h3, if_neg h4, if_neg h5,
      if_neg h6, if_neg h7, if_neg h8, if_neg h9, if_neg h10, if_neg h11, if_neg h12, if_neg
      h13, if_neg h14, if_neg h15, if_neg h16, if_neg h17, if_neg h18]⟩

theorem cls_stp_handler (c : sysconf) (sp : usb_stp_pkt) :
    ∃ h ∈ cls_stp_handlers c,
      ∀ s, cls_stp c sp s = h { if_log_stp c sp s with stp_pkt := sp } := by
  by_cases h1 : sp.b_request = USB_HID_GET_REPORT ∧ sp.bm_request_type &&& 0x1F = USB_IFACE_RECIPIENT
  · exact ⟨cls_get_report c usb_ctl_req.init, by simp [cls_stp_handlers], fun s => by
      unfold cls_stp; simp only []; rw [if_pos h1]⟩
  by_cases h2 : sp.b_request = USB_HID_GET_IDLE ∧ sp.bm_request_type &&& 0x1F = USB_IFACE_RECIPIENT
  · exact ⟨cls_get_idle c usb_ctl_req.init, by simp [cls_stp_handlers], fun s => by
      unfold cls_stp; simp only []; rw [if_neg h1, if_pos h2]⟩
  by_cases h3 : sp.b_request = USB_HID_GET_PROTOCOL ∧ sp.bm_request_type &&& 0x1F = USB_IFACE_RECIPIENT
  · exact ⟨cls_get_protocol c usb_ctl_req.init, by simp [cls_stp_handlers], fun s => by
      unfold cls_stp; simp only []; rw [if_neg h1, if_neg h2, if_pos h3]⟩
  by_cases h4 : sp.b_request = USB_HID_SET_REPORT ∧ sp.bm_request_type &&& 0x1F = USB_IFACE_RECIPIENT
  · exact ⟨cls_set_report c usb_ctl_req.init, by simp [cls_stp_handlers], fun s => by
      unfold cls_stp; simp only []; rw [if_neg h1, if_neg h2, if_neg h3, if_pos h4]⟩
  by_cases h5 : sp.b_request = USB_HID_SET_IDLE ∧ sp.bm_request_type &&& 0x1F = USB_IFACE_RECIPIENT
  · exact ⟨cls_set_idle c usb_ctl_req.init, by simp [cls_stp_handlers], fun s => by
      unfold cls_stp; simp only []; rw [if_neg h1, if_neg h2, if_neg h3, if_neg h4, if_pos h5]⟩
  by_cases h6 : sp.b_request = USB_HID_SET_PROTOCOL ∧ sp.bm_request_type &&& 0x1F = USB_IFACE_RECIPIENT
  · exact ⟨cls_set_protocol c usb_ctl_req.init, by simp [cls_stp_handlers], fun s => by
      unfold cls_stp; simp only []; rw [if_neg h1, if_neg h2, if_neg h3, if_neg h4, if_neg h5, if_pos h6]⟩
  exact ⟨fun s => (usb_ctl_req.init, stp_err_cnt_inc (if_log_cls_cmd c req_err_str s)),
    by simp [cls_stp_handlers], fun s => by
      unfold cls_stp; simp only []; rw [if_neg h1, if_neg h2, if_neg h3, if_neg h4, if_neg h5,
      if_neg h6]⟩

theorem same_but_log_refl (a : jig_state) : same_but_log a a :=
  ⟨rfl, rfl, rfl, rfl, rfl, rfl, rfl, rfl, rfl⟩

theorem same_but_log_symm (a b : jig_state) (h : same_but_log a b) : same_but_log b a := by
  obtain ⟨h1, h2, h3, h4, h5, h6, h7, h8, h9⟩ := h
  exact ⟨h1.symm, h2.symm, h3.symm, h4.symm, h5.symm, h6.symm, h7.symm, h8.symm, h9.symm⟩

theorem same_but_log_trans (a b d : jig_state) (h : same_but_log a b) (k : same_but_log b d) :
    same_but_log a d := by
  obtain ⟨h1, h2, h3, h4, h5, h6, h7, h8, h9⟩ := h
  obtain ⟨k1, k2, k3, k4, k5, k6, k7, k8, k9⟩ := k
  exact ⟨h1.trans k1, h2.trans k2, h3.trans k3, h4.trans k4, h5.trans k5, h6.trans k6,
    h7.trans k7, h8.trans k8, h9.trans k9⟩

theorem same_but_log_send (c : sysconf) (e : log_entry) (s : jig_state) :
    same_but_log (xQueueSendFromISR_log c e s).2 s := by
  unfold xQueueSendFromISR_log
  split_ifs <;> exact same_but_log_refl _

theorem same_but_log_inc_qfull (s : jig_state) : same_but_log (inc_qfull_cnt s) s :=
  same_but_log_refl _

theorem same_but_log_log_stp (c : sysconf) (sp : usb_stp_pkt) (s : jig_state) :
    same_but_log (if_log_stp c sp s) s := by
  unfold if_log_stp log_stp_event
  simp only []
  split_ifs
  · exact same_but_log_send c _ s
  · exact same_but_log_trans _ _ _ (same_but_log_inc_qfull _) (same_but_log_send c _ s)
  · exact same_but_log_refl s

theorem same_but_log_log_std (c : sysconf) (t : String) (s : jig_state) :
    same_but_log (if_log_std_cmd c t s) s := by
  unfold if_log_std_cmd log_std_cmd_event
  simp only []
  split_ifs
  · exact same_but_log_send c _ s
  · exact same_but_log_trans _ _ _ (same_but_log_inc_qfull _) (same_but_log_send c _ s)
  · exact same_but_log_refl s

theorem same_but_log_log_cls (c : sysconf) (t : String) (s : jig_state) :
    same_but_log (if_log_cls_cmd c t s) s := by
  unfold if_log_cls_cmd log_cls_cmd_event
  simp only []
  split_ifs
  · exact same_but_log_send c _ s
  · exact same_but_log_trans _ _ _ (same_but_log_inc_qfull _) (same_but_log_send c _ s)
  · exact same_but_log_refl s

theorem same_but_log_if_log_std (c : sysconf) (t : String) (a b : jig_state)
    (h : same_but_log a b) : same_but_log (if_log_std_cmd c t a) (if_log_std_cmd c t b) :=
  same_but_log_trans _ _ _ (same_but_log_log_std c t a)
    (same_but_log_trans _ _ _ h (same_but_log_symm _ _ (same_but_log_log_std c t b)))

theorem same_but_log_if_log_cls (c : sysconf) (t : String) (a b : jig_state)
    (h : same_but_log a b) : same_but_log (if_log_cls_cmd c t a) (if_log_cls_cmd c t b) :=
  same_but_log_trans _ _ _ (same_but_log_log_cls c t a)
    (same_but_log_trans _ _ _ h (same_but_log_symm _ _ (same_but_log_log_cls c t b)))

theorem same_but_log_err_inc (a b : jig_state) (h : same_but_log a b) :
    same_but_log (stp_err_cnt_inc a) (stp_err_cnt_inc b) := by
  obtain ⟨h1, h2, h3, h4, h5, h6, h7, h8, h9⟩ := h
  exact ⟨h1, by simp [stp_err_cnt_inc, h2], h3, h4, h5, h6, h7, h8, h9⟩

theorem same_but_log_rej_inc (a b : jig_state) (h : same_but_log a b) :
    same_but_log (stp_rej_cnt_inc a) (stp_rej_cnt_inc b) := by
  obtain ⟨h1, h2, h3, h4, h5, h6, h7, h8, h9⟩ := h
  exact ⟨h1, by simp [stp_rej_cnt_inc, h2], h3, h4, h5, h6, h7, h8, h9⟩

theorem same_but_log_on_udp (f : udp → udp) (a b : jig_state) (h : same_but_log a b) :
    same_but_log (on_udp f a) (on_udp f b) := by
  obtain ⟨h1, h2, h3, h4, h5, h6, h7, h8, h9⟩ := h
  exact ⟨by simp [on_udp, h1], h2, h3, h4, h5, h6, h7, h8, h9⟩

theorem same_but_log_ctl_rpl (x : ctl_rpl_bytes) (a b : jig_state) (h : same_but_log a b) :
    same_but_log { a with ctl_rpl := x } { b with ctl_rpl := x } := by
  obtain ⟨h1, h2, h3, h4, h5, h6, h7, h8, h9⟩ := h
  exact ⟨h1, h2, h3, rfl, h5, h6, h7, h8, h9⟩

theorem same_but_log_get_idle_rpl (x : Nat) (a b : jig_state) (h : same_but_log a b) :
    same_but_log { a with get_idle_rpl := x } { b with get_idle_rpl := x } := by
  obtain ⟨h1, h2, h3, h4, h5, h6, h7, h8, h9⟩ := h
  exact ⟨h1, h2, h3, h4, rfl, h6, h7, h8, h9⟩

theorem same_but_log_stp_pkt (sp : usb_stp_pkt) (a b : jig_state) (h : same_but_log a b) :
    same_but_log { a with stp_pkt := sp } { b with stp_pkt := sp } := by
  obtain ⟨h1, h2, h3, h4, h5, h6, h7, h8, h9⟩ := h
  exact ⟨h1, h2, rfl, h4, h5, h6, h7, h8, h9⟩

theorem std_handlers_log_indep (c : sysconf) (h : jig_state → usb_ctl_req × jig_state)
    (hm : h ∈ std_stp_handlers c) (a b : jig_state) (hab : same_but_log a b) :
    (h a).1 = (h b).1 ∧ same_but_log (h a).2 (h b).2 := by
  have hu : a.udp = b.udp := hab.1
  have hp : a.stp_pkt = b.stp_pkt := hab.2.2.1
  have hc : a.ctl_rpl = b.ctl_rpl := hab.2.2.2.1
  have he := same_but_log_err_inc _ _ (same_but_log_if_log_std c req_err_str a b hab)
  have he' := fun t => same_but_log_if_log_std c t _ _ (same_but_log_err_inc a b hab)
  have hj := same_but_log_rej_inc _ _ (same_but_log_if_log_std c req_rej_str a b hab)
  have hj' := fun t => same_but_log_if_log_std c t _ _ (same_but_log_rej_inc a b hab)
  have hcr := fun x => same_but_log_ctl_rpl x a b hab
  have hou := fun f => same_but_log_on_udp f a b hab
  simp only [std_stp_handlers, List.mem_cons, List.mem_singleton, List.not_mem_nil,
    or_false] at hm
  rcases hm with rfl | rfl | rfl | rfl | rfl | rfl | rfl | rfl | rfl | rfl | rfl | rfl | rfl |
    rfl | rfl | rfl | rfl
  · unfold std_set_desc
    simp only [get_udp_state, is_udp_endp_halted, get_rmt_wkup_feat, hu, hp, hc]
    split_ifs <;> simp [hab, he, he', hj, hj', hcr, hou]
  · unfold std_get_desc_dev
    simp only [get_udp_state, is_udp_endp_halted, get_rmt_wkup_feat, hu, hp, hc]
    split_ifs <;> simp [hab, he, he', hj, hj', hcr, hou]
  · unfold std_get_desc_ifc
    simp only [get_udp_state, is_udp_endp_halted, get_rmt_wkup_feat, hu, hp, hc]
    split_ifs <;> simp [hab, he, he', hj, hj', hcr, hou]
  · unfold std_set_addr
    simp only [get_udp_state, is_udp_endp_halted, get_rmt_wkup_feat, hu, hp, hc]
    split_ifs <;> simp [hab, he, he', hj, hj', hcr, hou]
  · unfold std_set_conf
    simp only [get_udp_state, is_udp_endp_halted, get_rmt_wkup_feat, hu, hp, hc]
    split_ifs <;> simp [hab, he, he', hj, hj', hcr, hou]
  · unfold std_get_conf
    simp only [get_udp_state, is_udp_endp_halted, get_rmt_wkup_feat, hu, hp, hc]
    split_ifs <;>
      (simp [hab, he, he', hj, hj', hcr, hou] <;>
        simp [same_but_log, hab.2.1, hab.2.2.2.2.1, hab.2.2.2.2.2.1, hab.2.2.2.2.2.2.1,
          hab.2.2.2.2.2.2.2.1, hab.2.2.2.2.2.2.2.2, on_udp])
  · unfold std_set_iface
    simp only [get_udp_state, is_udp_endp_halted, get_rmt_wkup_feat, hu, hp, hc]
    split_ifs <;> simp [hab, he, he', hj, hj', hcr, hou]
  · unfold std_get_iface
    simp only [get_udp_state, is_udp_endp_halted, get_rmt_wkup_feat, hu, hp, hc]
    split_ifs <;>
      (simp [hab, he, he', hj, hj', hcr, hou] <;>
        simp [same_but_log, hab.2.1, hab.2.2.2.2.1, hab.2.2.2.2.2.1, hab.2.2.2.2.2.2.1,
          hab.2.2.2.2.2.2.2.1, hab.2.2.2.2.2.2.2.2, on_udp])
  · unfold std_synch_frm
    simp only [get_udp_state, is_udp_endp_halted, get_rmt_wkup_feat, hu, hp, hc]
    split_ifs <;> simp [hab, he, he', hj, hj', hcr, hou]
  · unfold std_get_dev_stat
    simp only [get_udp_state, is_udp_endp_halted, get_rmt_wkup_feat, hu, hp, hc]
    split_ifs <;>
      (simp [hab, he, he', hj, hj', hcr, hou] <;>
        simp [same_but_log, hab.2.1, hab.2.2.2.2.1, hab.2.2.2.2.2.1, hab.2.2.2.2.2.2.1,
          hab.2.2.2.2.2.2.2.1, hab.2.2.2.2.2.2.2.2, on_udp])
  · unfold std_get_iface_stat
    simp only [get_udp_state, is_udp_endp_halted, get_rmt_wkup_feat, hu, hp, hc]
    split_ifs <;>
      (simp [hab, he, he', hj, hj', hcr, hou] <;>
        simp [same_but_log, hab.2.1, hab.2.2.2.2.1, hab.2.2.2.2.2.1, hab.2.2.2.2.2.2.1,
          hab.2.2.2.2.2.2.2.1, hab.2.2.2.2.2.2.2.2, on_udp])
  · unfold std_get_endp_stat
    simp only [get_udp_state, is_udp_endp_halted, get_rmt_wkup_feat, hu, hp, hc]
    split_ifs <;>
      (simp [hab, he, he', hj, hj', hcr, hou] <;>
        simp [same_but_log, hab.2.1, hab.2.2.2.2.1, hab.2.2.2.2.2.1, hab.2.2.2.2.2.2.1,
          hab.2.2.2.2.2.2.2.1, hab.2.2.2.2.2.2.2.2, on_udp])
  · unfold std_clr_dev_feat
    simp only [get_udp_state, is_udp_endp_halted, get_rmt_wkup_feat, hu, hp, hc]
    split_ifs <;> simp [hab, he, he', hj, hj', hcr, hou]
  · unfold std_clr_set_iface_feat
    simp [hab, he, he', hj, hj', hcr, hou]
  · unfold std_clr_set_endp_feat
    simp only [get_udp_state, is_udp_endp_halted, get_rmt_wkup_feat, hu, hp, hc]
    split_ifs <;> simp [hab, he, he', hj, hj', hcr, hou]
  · unfold std_set_dev_feat
    simp only [get_udp_state, is_udp_endp_halted, get_rmt_wkup_feat, hu, hp, hc]
    split_ifs <;> simp [hab, he, he', hj, hj', hcr, hou]
  · simp [he]

theorem cls_handlers_log_indep (c : sysconf) (h : jig_state → usb_ctl_req × jig_state)
    (hm : h ∈ cls_stp_handlers c) (a b : jig_state) (hab : same_but_log a b) :
    (h a).1 = (h b).1 ∧ same_but_log (h a).2 (h b).2 := by
  have hu : a.udp = b.udp := hab.1
  have hp : a.stp_pkt = b.stp_pkt := hab.2.2.1
  have he := same_but_log_err_inc _ _ (same_but_log_if_log_cls c req_err_str a b hab)
  have hj := same_but_log_rej_inc _ _ (same_but_log_if_log_cls c req_rej_str a b hab)
  have hgi := fun x => same_but_log_get_idle_rpl x a b hab
  simp only [cls_stp_handlers, List.mem_cons, List.mem_singleton, List.not_mem_nil,
    or_false] at hm
  rcases hm with rfl | rfl | rfl | rfl | rfl | rfl | rfl
  · unfold cls_get_report
    simp only [get_udp_state, hu, hp]
    split_ifs <;> simp [hab, he, hj, hgi]
  · unfold cls_get_idle
    simp only [get_udp_state, hu, hp]
    split_ifs <;>
      (simp [hab, he, hj, hgi] <;>
        simp [same_but_log, hab.2.1, hab.2.2.2.1, hab.2.2.2.2.1, hab.2.2.2.2.2.1,
          hab.2.2.2.2.2.2.1, hab.2.2.2.2.2.2.2.1, hab.2.2.2.2.2.2.2.2])
  · unfold cls_get_protocol
    simp [hab, he, hj, hgi]
  · unfold cls_set_report
    simp only [get_udp_state, hu, hp]
    split_ifs <;> simp [hab, he, hj, hgi]
  · unfold cls_set_idle
    simp only [get_udp_state, hu, hp]
    split_ifs <;> simp [hab, he, hj, hgi]
  · unfold cls_set_protocol
    simp [hab, he, hj, hgi]
  · simp [he]

theorem std_stp_log_indep (c : sysconf) (sp : usb_stp_pkt) (a b : jig_state)
    (hab : same_but_log a b) :
    (std_stp c sp a).1 = (std_stp c sp b).1 ∧
    same_but_log (std_stp c sp a).2 (std_stp c sp b).2 := by
  obtain ⟨h, hm, e⟩ := std_stp_handler c sp
  rw [e a, e b]
  exact std_handlers_log_indep c h hm _ _ (same_but_log_stp_pkt sp _ _
    (same_but_log_trans _ _ _ (same_but_log_log_stp c sp a)
      (same_but_log_trans _ _ _ hab (same_but_log_symm _ _ (same_but_log_log_stp c sp b)))))

theorem cls_stp_log_indep (c : sysconf) (sp : usb_stp_pkt) (a b : jig_state)
    (hab : same_but_log a b) :
    (cls_stp c sp a).1 = (cls_stp c sp b).1 ∧
    same_but_log (cls_stp c sp a).2 (cls_stp c sp b).2 := by
  obtain ⟨h, hm, e⟩ := cls_stp_handler c sp
  rw [e a, e b]
  exact cls_handlers_log_indep c h hm _ _ (same_but_log_stp_pkt sp _ _
    (same_but_log_trans _ _ _ (same_but_log_log_stp c sp a)
      (same_but_log_trans _ _ _ hab (same_but_log_symm _ _ (same_but_log_log_stp c sp b)))))

theorem xQueueSendFromISR_log_full (c : sysconf) (e : log_entry) (s : jig_state)
    (h : c.USB_LOG_EVENTS_QUEUE_SIZE ≤ s.log_que.length) :
    xQueueSendFromISR_log c e s = (false, s) := by
  unfold xQueueSendFromISR_log
  rw [if_neg (by omega)]

theorem log_stp_event_full (c : sysconf) (sp : usb_stp_pkt) (s : jig_state)
    (h : c.USB_LOG_EVENTS_QUEUE_SIZE ≤ s.log_que.length) :
    log_stp_event c sp s = { s with qfull_cnt := (s.qfull_cnt + 1) % 4294967296 } := by
  unfold log_stp_event
  simp [xQueueSendFromISR_log_full c _ s h, inc_qfull_cnt]

theorem log_std_cmd_event_full (c : sysconf) (t : String) (s : jig_state)
    (h : c.USB_LOG_EVENTS_QUEUE_SIZE ≤ s.log_que.length) :
    log_std_cmd_event c t s = { s with qfull_cnt := (s.qfull_cnt + 1) % 4294967296 } := by
  unfold log_std_cmd_event
  simp [xQueueSendFromISR_log_full c _ s h, inc_qfull_cnt]

theorem log_cls_cmd_event_full (c : sysconf) (t : String) (s : jig_state)
    (h : c.USB_LOG_EVENTS_QUEUE_SIZE ≤ s.log_que.length) :
    log_cls_cmd_event c t s = { s with qfull_cnt := (s.qfull_cnt + 1) % 4294967296 } := by
  unfold log_cls_cmd_event
  simp [xQueueSendFromISR_log_full c _ s h, inc_qfull_cnt]

@[simp] theorem stp_err_cnt_inc_log_que (s : jig_state) :
    (stp_err_cnt_inc s).log_que = s.log_que := rfl

@[simp] theorem stp_rej_cnt_inc_log_que (s : jig_state) :
    (stp_rej_cnt_inc s).log_que = s.log_que := rfl

@[simp] theorem on_udp_log_que (f : udp → udp) (s : jig_state) :
    (on_udp f s).log_que = s.log_que := rfl

theorem if_log_stp_log_que_full (c : sysconf) (sp : usb_stp_pkt) (s : jig_state)
    (h : c.USB_LOG_EVENTS_QUEUE_SIZE ≤ s.log_que.length) :
    (if_log_stp c sp s).log_que = s.log_que := by
  unfold if_log_stp
  split_ifs
  · rw [log_stp_event_full c sp s h]
  · rfl

theorem if_log_std_cmd_log_que_full (c : sysconf) (t : String) (s : jig_state)
    (h : c.USB_LOG_EVENTS_QUEUE_SIZE ≤ s.log_que.length) :
    (if_log_std_cmd c t s).log_que = s.log_que := by
  unfold if_log_std_cmd
  split_ifs
  · rw [log_std_cmd_event_full c t s h]
  · rfl

theorem if_log_cls_cmd_log_que_full (c : sysconf) (t : String) (s : jig_state)
    (h : c.USB_LOG_EVENTS_QUEUE_SIZE ≤ s.log_que.length) :
    (if_log_cls_cmd c t s).log_que = s.log_que := by
  unfold if_log_cls_cmd
  split_ifs
  · rw [log_cls_cmd_event_full c t s h]
  · rfl

theorem std_handlers_log_que_full (c : sysconf) (h : jig_state → usb_ctl_req × jig_state)
    (hm : h ∈ std_stp_handlers c) (a : jig_state)
    (hf : c.USB_LOG_EVENTS_QUEUE_SIZE ≤ a.log_que.length) :
    (h a).2.log_que = a.log_que := by
  have h1 := fun t => if_log_std_cmd_log_que_full c t a hf
  have h2 := fun t => if_log_std_cmd_log_que_full c t (stp_err_cnt_inc a) hf
  have h3 := fun t => if_log_std_cmd_log_que_full c t (stp_rej_cnt_inc a) hf
  simp only [std_stp_handlers, List.mem_cons, List.mem_singleton, List.not_mem_nil,
    or_false] at hm
  rcases hm with rfl | rfl | rfl | rfl | rfl | rfl | rfl | rfl | rfl | rfl | rfl | rfl | rfl |
    rfl | rfl | rfl | rfl
  · unfold std_set_desc; simp only []; split_ifs <;> simp [h1, h2, h3]
  · unfold std_get_desc_dev; simp only []; split_ifs <;> simp [h1, h2, h3]
  · unfold std_get_desc_ifc; simp only []; split_ifs <;> simp [h1, h2, h3]
  · unfold std_set_addr; simp only []; split_ifs <;> simp [h1, h2, h3]
  · unfold std_set_conf; simp only []; split_ifs <;> simp [h1, h2, h3]
  · unfold std_get_conf; simp only []; split_ifs <;> simp [h1, h2, h3]
  · unfold std_set_iface; simp only []; split_ifs <;> simp [h1, h2, h3]
  · unfold std_get_iface; simp only []; split_ifs <;> simp [h1, h2, h3]
  · unfold std_synch_frm; simp only []; split_ifs <;> simp [h1, h2, h3]
  · unfold std_get_dev_stat; simp only []; split_ifs <;> simp [h1, h2, h3]
  · unfold std_get_iface_stat; simp only []; split_ifs <;> simp [h1, h2, h3]
  · unfold std_get_endp_stat; simp only []; split_ifs <;> simp [h1, h2, h3]
  · unfold std_clr_dev_feat; simp only []; split_ifs <;> simp [h1, h2, h3]
  · unfold std_clr_set_iface_feat; simp [h1, h2, h3]
  · unfold std_clr_set_endp_feat; simp only []; split_ifs <;> simp [h1, h2, h3]
  · unfold std_set_dev_feat; simp only []; split_ifs <;> simp [h1, h2, h3]
  · simp [h1]

theorem cls_handlers_log_que_full (c : sysconf) (h : jig_state → usb_ctl_req × jig_state)
    (hm : h ∈ cls_stp_handlers c) (a : jig_state)
    (hf : c.USB_LOG_EVENTS_QUEUE_SIZE ≤ a.log_que.length) :
    (h a).2.log_que = a.log_que := by
  have h1 := fun t => if_log_cls_cmd_log_que_full c t a hf
  simp only [cls_stp_handlers, List.mem_cons, List.mem_singleton, List.not_mem_nil,
    or_false] at hm
  rcases hm with rfl | rfl | rfl | rfl | rfl | rfl | rfl
  · unfold cls_get_report; simp only []; split_ifs <;> simp [h1]
  · unfold cls_get_idle; simp only []; split_ifs <;> simp [h1]
  · unfold cls_get_protocol; simp [h1]
  · unfold cls_set_report; simp only []; split_ifs <;> simp [h1]
  · unfold cls_set_idle; simp only []; split_ifs <;> simp [h1]
  · unfold cls_set_protocol; simp [h1]
  · simp [h1]

theorem std_stp_log_que_full (c : sysconf) (sp : usb_stp_pkt) (s : jig_state)
    (hf : c.USB_LOG_EVENTS_QUEUE_SIZE ≤ s.log_que.length) :
    (std_stp c sp s).2.log_que = s.log_que := by
  obtain ⟨h, hm, e⟩ := std_stp_handler c sp
  have hq := if_log_stp_log_que_full c sp s hf
  rw [e s, std_handlers_log_que_full c h hm _ (by simp only [hq]; exact hf)]
  exact hq

theorem cls_stp_log_que_full (c : sysconf) (sp : usb_stp_pkt) (s : jig_state)
    (hf : c.USB_LOG_EVENTS_QUEUE_SIZE ≤ s.log_que.length) :
    (cls_stp c sp s).2.log_que = s.log_que := by
  obtain ⟨h, hm, e⟩ := cls_stp_handler c sp
  have hq := if_log_stp_log_que_full c sp s hf
  rw [e s, cls_handlers_log_que_full c h hm _ (by simp only [hq]; exact hf)]
  exact hq

/-- C33 (as the code has it), over the bounded-queue model of the telemetry
channel: when log_stp_event, log_std_cmd_event or log_cls_cmd_event posts an
event while the queue already holds its capacity of events, the new event is
dropped, the queue contents and everything else in the state are unchanged,
and the drop counter qfull_cnt, an `unsigned int`, is incremented modulo 2^32
(by exactly one while it is below 4294967295).  A whole dispatch by std_stp
or cls_stp on a full queue leaves the queue contents unchanged as well.  The
result of a dispatch, the two statistics counters and the rest of the state
do not depend on the queue or on qfull_cnt: from two states that differ only
there, one with a full queue and one with room, say, the dispatch returns the
same result and the same stp_err_cnt and stp_rej_cnt. -/
theorem C33_full_queue_drops_event (c : sysconf) (sp : usb_stp_pkt) (txt : String)
    (s s' : jig_state) (hf : c.USB_LOG_EVENTS_QUEUE_SIZE ≤ s.log_que.length) :
    log_stp_event c sp s = { s with qfull_cnt := (s.qfull_cnt + 1) % 4294967296 } ∧
    log_std_cmd_event c txt s = { s with qfull_cnt := (s.qfull_cnt + 1) % 4294967296 } ∧
    log_cls_cmd_event c txt s = { s with qfull_cnt := (s.qfull_cnt + 1) % 4294967296 } ∧
    (log_stp_event c sp s).log_que = s.log_que ∧
    (log_std_cmd_event c txt s).log_que = s.log_que ∧
    (log_cls_cmd_event c txt s).log_que = s.log_que ∧
    (s.qfull_cnt < 4294967295 →
      (log_stp_event c sp s).qfull_cnt = s.qfull_cnt + 1 ∧
      (log_std_cmd_event c txt s).qfull_cnt = s.qfull_cnt + 1 ∧
      (log_cls_cmd_event c txt s).qfull_cnt = s.qfull_cnt + 1) ∧
    (std_stp c sp s).2.log_que = s.log_que ∧
    (cls_stp c sp s).2.log_que = s.log_que ∧
    (same_but_log s s' →
      (std_stp c sp s).1 = (std_stp c sp s').1 ∧
      (std_stp c sp s).2.stats = (std_stp c sp s').2.stats ∧
      same_but_log (std_stp c sp s).2 (std_stp c sp s').2 ∧
      (cls_stp c sp s).1 = (cls_stp c sp s').1 ∧
      (cls_stp c sp s).2.stats = (cls_stp c sp s').2.stats ∧
      same_but_log (cls_stp c sp s).2 (cls_stp c sp s').2) := by
  have e1 := log_stp_event_full c sp s hf
  have e2 := log_std_cmd_event_full c txt s hf
  have e3 := log_cls_cmd_event_full c txt s hf
  refine ⟨e1, e2, e3, by rw [e1], by rw [e2], by rw [e3], fun hq => ?_,
    std_stp_log_que_full c sp s hf, cls_stp_log_que_full c sp s hf, fun hab => ?_⟩
  · have hm : (s.qfull_cnt + 1) % 4294967296 = s.qfull_cnt + 1 := Nat.mod_eq_of_lt (by omega)
    refine ⟨?_, ?_, ?_⟩
    · rw [e1]; exact hm
    · rw [e2]; exact hm
    · rw [e3]; exact hm
  · have hs := std_stp_log_indep c sp s s' hab
    have hc := cls_stp_log_indep c sp s s' hab
    exact ⟨hs.1, hs.2.2.1, hs.2, hc.1, hc.2.2.1, hc.2⟩

/-- C33, witness: in the sample build, whose queue holds 4 events, GET_STATUS
to the unknown endpoint 5 is an error with the queue full exactly as with the
queue empty; with the queue full the queue is left as it was. -/
theorem C33_full_queue_drops_event_witness :
    (std_stp sysconf_keyb ⟨0x82, 0, 0, 5, 2⟩ (jig_state_log udp_configured log_que_4 0)).1
      = (std_stp sysconf_keyb ⟨0x82, 0, 0, 5, 2⟩ (jig_state_log udp_configured [] 0)).1 ∧
    (std_stp sysconf_keyb ⟨0x82, 0, 0, 5, 2⟩ (jig_state_log udp_configured log_que_4 0)).2.stats
      = (std_stp sysconf_keyb ⟨0x82, 0, 0, 5, 2⟩ (jig_state_log udp_configured [] 0)).2.stats ∧
    (std_stp sysconf_keyb ⟨0x82, 0, 0, 5, 2⟩ (jig_state_log udp_configured log_que_4 0)).2.log_que
      = log_que_4 :=
  have h := C33_full_queue_drops_event sysconf_keyb ⟨0x82, 0, 0, 5, 2⟩ "error"
    (jig_state_log udp_configured log_que_4 0) (jig_state_log udp_configured [] 0) (by decide)
  have k := h.2.2.2.2.2.2.2.2.2 ⟨rfl, rfl, rfl, rfl, rfl, rfl, rfl, rfl, rfl⟩
  ⟨k.1, k.2.1, h.2.2.2.2.2.2.2.1⟩

/-- C33, counterexample: with the queue full and qfull_cnt at 4294967295,
log_stp_event drops the event and leaves qfull_cnt at 0, not at 4294967296;
the dispatch of a failing GET_STATUS then drops two events and ends with
qfull_cnt = 1. -/
theorem C33_counterexample :
    sysconf_keyb.USB_LOG_EVENTS_QUEUE_SIZE ≤
      (jig_state_log udp_configured log_que_4 4294967295).log_que.length ∧
    (log_stp_event sysconf_keyb ⟨0x82, 0, 0, 5, 2⟩
      (jig_state_log udp_configured log_que_4 4294967295)).log_que = log_que_4 ∧
    (log_stp_event sysconf_keyb ⟨0x82, 0, 0, 5, 2⟩
      (jig_state_log udp_configured log_que_4 4294967295)).qfull_cnt = 0 ∧
    (log_stp_event sysconf_keyb ⟨0x82, 0, 0, 5, 2⟩
      (jig_state_log udp_configured log_que_4 4294967295)).qfull_cnt
      ≠ (jig_state_log udp_configured log_que_4 4294967295).qfull_cnt + 1 ∧
    (std_stp sysconf_keyb ⟨0x82, 0, 0, 5, 2⟩
      (jig_state_log udp_configured log_que_4 4294967295)).2.qfull_cnt = 1 := by
  decide


/-! ## C34: a failed dispatch makes no request to the driver -/

theorem std_stp_invalid_udp (c : sysconf) (sp : usb_stp_pkt) (s : jig_state) :
    (std_stp c sp s).1.valid = false → (std_stp c sp s).2.udp = s.udp := by
  apply std_stp_elim c sp s (fun r => r.1.valid = false → r.2.udp = s.udp)
  · intro _ _; unfold std_set_desc; simp only []
    split_ifs <;> simp
  · intro _ _; unfold std_get_desc_dev; simp only []
    split_ifs <;> simp
  · intro _ _; unfold std_get_desc_ifc; simp only []
    split_ifs <;> simp
  · intro _ _; unfold std_set_addr; simp only []
    split_ifs <;> simp
  · intro _ _; unfold std_set_conf; simp only []
    split_ifs <;> simp
  · intro _ _; unfold std_get_conf; simp only []
    split_ifs <;> simp
  · intro _ _; unfold std_set_iface; simp only []
    split_ifs <;> simp
  · intro _ _; unfold std_get_iface; simp only []
    split_ifs <;> simp
  · intro _ _; unfold std_synch_frm; simp only []
    split_ifs <;> simp
  · intro _ _; unfold std_get_dev_stat; simp only []
    split_ifs <;> simp
  · intro _ _; unfold std_get_iface_stat; simp only []
    split_ifs <;> simp
  · intro _ _; unfold std_get_endp_stat; simp only []
    split_ifs <;> simp
  · intro _ _; unfold std_clr_dev_feat; simp only []
    split_ifs <;> simp
  · intro _ _; unfold std_set_dev_feat; simp only []
    split_ifs <;> simp
  · intro _ _; unfold std_clr_set_iface_feat; simp
  · intro _ _; unfold std_clr_set_endp_feat; simp only []
    split_ifs <;> simp
  · simp

theorem invalid_outcome (st : usb_jiggler_stats) (r : usb_ctl_req × jig_state)
    (h : has_outcome st r) (hv : r.1.valid = false) :
    (is_error st r ∨ is_reject st r) ∧
    ((r.2.stats.stp_err_cnt ≠ st.stp_err_cnt ∧ r.2.stats.stp_rej_cnt = st.stp_rej_cnt) ∨
     (r.2.stats.stp_rej_cnt ≠ st.stp_rej_cnt ∧ r.2.stats.stp_err_cnt = st.stp_err_cnt)) := by
  rcases h with h | h | h
  · rw [h.1] at hv; exact absurd hv (by decide)
  · refine ⟨Or.inl h, Or.inl ⟨?_, h.2.2⟩⟩
    rw [h.2.1]; simp only [USHRT_NMB]; omega
  · refine ⟨Or.inr h, Or.inr ⟨?_, h.2.2⟩⟩
    rw [h.2.1]; simp only [USHRT_NMB]; omega

/-- C34: atomicity on failure.  For every setup packet and every state,
whenever std_stp or cls_stp returns valid=false the dispatch has made no
mutating request to the driver: the driver state after is the driver state
before, so no endpoint was enabled, disabled, halted or un-halted, the
remote-wakeup feature and the enumeration state are unchanged and the list of
requests made has not grown.  The dispatch is then an error or a reject, and
exactly one of the two statistics counters changed. -/
theorem C34_failure_is_atomic (c : sysconf) (sp : usb_stp_pkt) (s : jig_state) :
    ((std_stp c sp s).1.valid = false →
      (std_stp c sp s).2.udp = s.udp ∧
      (std_stp c sp s).2.udp.calls = s.udp.calls ∧
      (is_error s.stats (std_stp c sp s) ∨ is_reject s.stats (std_stp c sp s)) ∧
      (((std_stp c sp s).2.stats.stp_err_cnt ≠ s.stats.stp_err_cnt ∧
          (std_stp c sp s).2.stats.stp_rej_cnt = s.stats.stp_rej_cnt) ∨
        ((std_stp c sp s).2.stats.stp_rej_cnt ≠ s.stats.stp_rej_cnt ∧
          (std_stp c sp s).2.stats.stp_err_cnt = s.stats.stp_err_cnt))) ∧
    ((cls_stp c sp s).1.valid = false →
      (cls_stp c sp s).2.udp = s.udp ∧
      (cls_stp c sp s).2.udp.calls = s.udp.calls ∧
      (is_error s.stats (cls_stp c sp s) ∨ is_reject s.stats (cls_stp c sp s)) ∧
      (((cls_stp c sp s).2.stats.stp_err_cnt ≠ s.stats.stp_err_cnt ∧
          (cls_stp c sp s).2.stats.stp_rej_cnt = s.stats.stp_rej_cnt) ∨
        ((cls_stp c sp s).2.stats.stp_rej_cnt ≠ s.stats.stp_rej_cnt ∧
          (cls_stp c sp s).2.stats.stp_err_cnt = s.stats.stp_err_cnt))) := by
  refine ⟨fun hv => ?_, fun hv => ?_⟩
  · have hu := std_stp_invalid_udp c sp s hv
    have ho := invalid_outcome _ _ (std_stp_outcome c sp s) hv
    exact ⟨hu, by rw [hu], ho.1, ho.2⟩
  · have hu := cls_stp_udp c sp s
    have ho := invalid_outcome _ _ (cls_stp_outcome c sp s) hv
    exact ⟨hu, by rw [hu], ho.1, ho.2⟩

/-- C34, witness: SET_CONFIGURATION with w_value = 2 while Configured fails
and leaves the driver as it was; stp_err_cnt goes from 7 to 8. -/
theorem C34_failure_is_atomic_witness :
    (std_stp sysconf_keyb ⟨0x00, 9, 2, 0, 0⟩ (jig_state_of udp_configured 7 7)).1.valid = false ∧
    (std_stp sysconf_keyb ⟨0x00, 9, 2, 0, 0⟩ (jig_state_of udp_configured 7 7)).2.udp.calls
      = [] ∧
    (std_stp sysconf_keyb ⟨0x00, 9, 2, 0, 0⟩ (jig_state_of udp_configured 7 7)).2.stats.stp_err_cnt
      = 8 :=
  have h := (C34_failure_is_atomic sysconf_keyb ⟨0x00, 9, 2, 0, 0⟩
    (jig_state_of udp_configured 7 7)).1 (by decide)
  ⟨by decide, h.2.1, by decide⟩


/-! ## C35: SET_CONFIGURATION that does not change the configuration -/

theorem foldl_un_halt_udp (l : List usb_endp_desc) (u : udp) :
    (l.foldl (fun u ed =>
        if is_udp_endp_enabled u (ed.b_endpoint_address &&& 0x0F) then
          un_halt_udp_endp (ed.b_endpoint_address &&& 0x0F) u else u) u).state = u.state ∧
    (l.foldl (fun u ed =>
        if is_udp_endp_enabled u (ed.b_endpoint_address &&& 0x0F) then
          un_halt_udp_endp (ed.b_endpoint_address &&& 0x0F) u else u) u).enabled = u.enabled ∧
    (l.foldl (fun u ed =>
        if is_udp_endp_enabled u (ed.b_endpoint_address &&& 0x0F) then
          un_halt_udp_endp (ed.b_endpoint_address &&& 0x0F) u else u) u).rmt_wkup = u.rmt_wkup ∧
    (l.foldl (fun u ed =>
        if is_udp_endp_enabled u (ed.b_endpoint_address &&& 0x0F) then
          un_halt_udp_endp (ed.b_endpoint_address &&& 0x0F) u else u) u).calls
      = u.calls ++ ((l.map (fun ed => ed.b_endpoint_address &&& 0x0F)).filter
          (fun n => u.enabled n)).map udp_call.un_halt_udp_endp ∧
    ∀ n, (l.foldl (fun u ed =>
        if is_udp_endp_enabled u (ed.b_endpoint_address &&& 0x0F) then
          un_halt_udp_endp (ed.b_endpoint_address &&& 0x0F) u else u) u).halted n
      = (if n ∈ l.map (fun ed => ed.b_endpoint_address &&& 0x0F) ∧ u.enabled n = true
          then false else u.halted n) := by
  induction l generalizing u with
  | nil => simp
  | cons ed l ih =>
    simp only [List.foldl_cons, List.map_cons, List.mem_cons]
    by_cases he : u.enabled (ed.b_endpoint_address &&& 0x0F) = true
    · have hi := ih (un_halt_udp_endp (ed.b_endpoint_address &&& 0x0F) u)
      have step : (if is_udp_endp_enabled u (ed.b_endpoint_address &&& 0x0F) = true then
          un_halt_udp_endp (ed.b_endpoint_address &&& 0x0F) u else u)
          = un_halt_udp_endp (ed.b_endpoint_address &&& 0x0F) u := if_pos he
      rw [step]
      refine ⟨hi.1, hi.2.1, hi.2.2.1, ?_, fun n => ?_⟩
      · rw [hi.2.2.2.1]
        simp [un_halt_udp_endp, List.filter_cons, he]
      · rw [hi.2.2.2.2 n]
        by_cases hn : n = ed.b_endpoint_address &&& 0x0F
        · subst hn
          simp [un_halt_udp_endp, he]
        · simp [un_halt_udp_endp, hn]
    · have hi := ih u
      have step : (if is_udp_endp_enabled u (ed.b_endpoint_address &&& 0x0F) = true then
          un_halt_udp_endp (ed.b_endpoint_address &&& 0x0F) u else u) = u := if_neg he
      rw [step]
      refine ⟨hi.1, hi.2.1, hi.2.2.1, ?_, fun n => ?_⟩
      · rw [hi.2.2.2.1]
        simp [List.filter_cons, he]
      · rw [hi.2.2.2.2 n]
        by_cases hn : n = ed.b_endpoint_address &&& 0x0F
        · subst hn
          simp [he]
        · simp [hn]

/-- C35: SET_CONFIGURATION with w_value=1, w_index=0, w_length=0 issued
while already Configured is valid (direction out) and un-halts every catalog
endpoint that is enabled, and only those: the requests it makes to the driver
are exactly one un-halt per enabled catalog endpoint, in catalog order, so it
enables or disables no endpoint; the enabled set, the remote-wakeup feature
and the state Configured are unchanged, an endpoint is no longer halted if it
is an enabled catalog endpoint and keeps its halt condition otherwise, and no
counter moves.  SET_CONFIGURATION with w_value=0, w_index=0, w_length=0
issued while Addressed is valid and makes no request to the driver at all. -/
theorem C35_set_configuration_no_change (c : sysconf) (sp : usb_stp_pkt) (s : jig_state)
    (hr : sp.b_request = USB_SET_CONFIGURATION)
    (hd : sp.bm_request_type &&& 0x1F = USB_DEVICE_RECIPIENT)
    (hi : sp.w_index = 0) (hl : sp.w_length = 0) :
    (sp.w_value = 1 → s.udp.state = udp_state.UDP_STATE_CONFIGURED →
      (std_stp c sp s).1.valid = true ∧
      (std_stp c sp s).1.trans_dir = some udp_ctl_trans_dir.UDP_CTL_TRANS_OUT ∧
      (std_stp c sp s).2.udp.calls
        = s.udp.calls ++ ((catalog_eps c).filter (fun n => s.udp.enabled n)).map
            udp_call.un_halt_udp_endp ∧
      (∀ n, (std_stp c sp s).2.udp.halted n
        = (if n ∈ catalog_eps c ∧ s.udp.enabled n = true then false else s.udp.halted n)) ∧
      (std_stp c sp s).2.udp.enabled = s.udp.enabled ∧
      (std_stp c sp s).2.udp.rmt_wkup = s.udp.rmt_wkup ∧
      (std_stp c sp s).2.udp.state = udp_state.UDP_STATE_CONFIGURED ∧
      (std_stp c sp s).2.stats = s.stats) ∧
    (sp.w_value = 0 → s.udp.state = udp_state.UDP_STATE_ADDRESSED →
      (std_stp c sp s).1.valid = true ∧
      (std_stp c sp s).1.trans_dir = some udp_ctl_trans_dir.UDP_CTL_TRANS_OUT ∧
      (std_stp c sp s).2.udp = s.udp ∧
      (std_stp c sp s).2.udp.calls = s.udp.calls ∧
      (std_stp c sp s).2.stats = s.stats) := by
  refine ⟨fun hv hs => ?_, fun hv hs => ?_⟩
  · have e : std_stp c sp s
        = ({ usb_ctl_req.init with
              valid := true, trans_dir := some udp_ctl_trans_dir.UDP_CTL_TRANS_OUT },
           on_udp (set_conf_un_halt_enabled c) { if_log_stp c sp s with stp_pkt := sp }) := by
      rw [std_stp_set_conf c sp s hr hd]
      unfold std_set_conf
      simp [get_udp_state, hv, hi, hl, hs]
    have hf := foldl_un_halt_udp (find_usb_endp_desc (conf_descs c)) s.udp
    have hu : (std_stp c sp s).2.udp = set_conf_un_halt_enabled c s.udp := by
      rw [e]; simp [on_udp]
    refine ⟨by rw [e], by rw [e], ?_, ?_, ?_, ?_, ?_, by rw [e]; simp [on_udp]⟩
    · rw [hu]; exact hf.2.2.2.1
    · rw [hu]; exact hf.2.2.2.2
    · rw [hu]; exact hf.2.1
    · rw [hu]; exact hf.2.2.1
    · rw [hu]; exact hf.1.trans hs
  · have e : std_stp c sp s
        = ({ usb_ctl_req.init with
              valid := true, trans_dir := some udp_ctl_trans_dir.UDP_CTL_TRANS_OUT },
           { if_log_stp c sp s with stp_pkt := sp }) := by
      rw [std_stp_set_conf c sp s hr hd]
      unfold std_set_conf
      simp [get_udp_state, hv, hi, hl, hs]
    rw [e]
    simp

/-- C35, witness: in the keyboard build, SET_CONFIGURATION(1) while
Configured with endpoints 1 and 2 enabled makes exactly the requests
un-halt 1 and un-halt 2. -/
theorem C35_set_configuration_no_change_witness :
    (std_stp sysconf_keyb ⟨0x00, 9, 1, 0, 0⟩ (jig_state_of udp_configured 0 0)).1.valid = true ∧
    (std_stp sysconf_keyb ⟨0x00, 9, 1, 0, 0⟩ (jig_state_of udp_configured 0 0)).2.udp.calls
      = [udp_call.un_halt_udp_endp 1, udp_call.un_halt_udp_endp 2] :=
  have h := (C35_set_configuration_no_change sysconf_keyb ⟨0x00, 9, 1, 0, 0⟩
    (jig_state_of udp_configured 0 0) (by decide) (by decide) (by decide) (by decide)).1
    (by decide) (by decide)
  ⟨h.1, by decide⟩


/-! ## C36: the bits of w_index an endpoint request looks at -/

theorem and_0x8F_low (a b : Nat) (h : a &&& 0x8F = b &&& 0x8F) : a &&& 0x0F = b &&& 0x0F := by
  have e : ∀ x : Nat, x &&& 0x0F = (x &&& 0x8F) &&& 0x0F := by
    intro x
    have k : (0x8F &&& 0x0F : Nat) = 0x0F := by decide
    rw [Nat.land_assoc, k]
  rw [e a, e b, h]

theorem and_0x8F_bit7 (a b : Nat) (h : a &&& 0x8F = b &&& 0x8F) : a &&& 0x80 = b &&& 0x80 := by
  have e : ∀ x : Nat, x &&& 0x80 = (x &&& 0x8F) &&& 0x80 := by
    intro x
    have k : (0x8F &&& 0x80 : Nat) = 0x80 := by decide
    rw [Nat.land_assoc, k]
  rw [e a, e b, h]

theorem is_endp_index_valid_bits (u : udp) (a b : Nat) (h : a &&& 0x8F = b &&& 0x8F) :
    is_endp_index_valid u a = is_endp_index_valid u b := by
  unfold is_endp_index_valid
  simp only [and_0x8F_low a b h, and_0x8F_bit7 a b h]

theorem std_get_endp_stat_bits (c : sysconf) (sp sp' : usb_stp_pkt) (s : jig_state)
    (hv : sp'.w_value = sp.w_value)
    (hl : sp'.w_length = sp.w_length) (hx : sp'.w_index &&& 0x8F = sp.w_index &&& 0x8F) :
    (std_get_endp_stat c usb_ctl_req.init { if_log_stp c sp' s with stp_pkt := sp' }).1
      = (std_get_endp_stat c usb_ctl_req.init { if_log_stp c sp s with stp_pkt := sp }).1 ∧
    (std_get_endp_stat c usb_ctl_req.init { if_log_stp c sp' s with stp_pkt := sp' }).2.stats
      = (std_get_endp_stat c usb_ctl_req.init { if_log_stp c sp s with stp_pkt := sp }).2.stats ∧
    (std_get_endp_stat c usb_ctl_req.init { if_log_stp c sp' s with stp_pkt := sp' }).2.udp
      = (std_get_endp_stat c usb_ctl_req.init { if_log_stp c sp s with stp_pkt := sp }).2.udp ∧
    in_data c (std_get_endp_stat c usb_ctl_req.init { if_log_stp c sp' s with stp_pkt := sp' }).2
        (std_get_endp_stat c usb_ctl_req.init { if_log_stp c sp' s with stp_pkt := sp' }).1
      = in_data c (std_get_endp_stat c usb_ctl_req.init { if_log_stp c sp s with stp_pkt := sp }).2
        (std_get_endp_stat c usb_ctl_req.init { if_log_stp c sp s with stp_pkt := sp }).1 := by
  unfold std_get_endp_stat
  simp only [get_udp_state, if_log_stp_udp, hv, hl, and_0x8F_low _ _ hx,
    is_endp_index_valid_bits s.udp _ _ hx, is_udp_endp_halted]
  split_ifs <;>
    simp [serve_ctl_rpl, usb_ctl_req.init, ctl_rpl_bytes.set_stat, stp_err_cnt_inc, in_data,
      buf_bytes]

theorem std_clr_set_endp_feat_bits (c : sysconf) (sp sp' : usb_stp_pkt) (s : jig_state)
    (hb : sp'.b_request = sp.b_request) (hv : sp'.w_value = sp.w_value)
    (hl : sp'.w_length = sp.w_length) (hx : sp'.w_index &&& 0x8F = sp.w_index &&& 0x8F) :
    (std_clr_set_endp_feat c usb_ctl_req.init { if_log_stp c sp' s with stp_pkt := sp' }).1
      = (std_clr_set_endp_feat c usb_ctl_req.init { if_log_stp c sp s with stp_pkt := sp }).1 ∧
    (std_clr_set_endp_feat c usb_ctl_req.init { if_log_stp c sp' s with stp_pkt := sp' }).2.stats
      = (std_clr_set_endp_feat c usb_ctl_req.init
          { if_log_stp c sp s with stp_pkt := sp }).2.stats ∧
    (std_clr_set_endp_feat c usb_ctl_req.init { if_log_stp c sp' s with stp_pkt := sp' }).2.udp
      = (std_clr_set_endp_feat c usb_ctl_req.init
          { if_log_stp c sp s with stp_pkt := sp }).2.udp ∧
    in_data c
        (std_clr_set_endp_feat c usb_ctl_req.init { if_log_stp c sp' s with stp_pkt := sp' }).2
        (std_clr_set_endp_feat c usb_ctl_req.init { if_log_stp c sp' s with stp_pkt := sp' }).1
      = in_data c
        (std_clr_set_endp_feat c usb_ctl_req.init { if_log_stp c sp s with stp_pkt := sp }).2
        (std_clr_set_endp_feat c usb_ctl_req.init { if_log_stp c sp s with stp_pkt := sp }).1 := by
  unfold std_clr_set_endp_feat
  simp only [get_udp_state, if_log_stp_udp, hv, hl, hb, and_0x8F_low _ _ hx,
    is_endp_index_valid_bits s.udp _ _ hx]
  split_ifs <;> simp [on_udp, stp_err_cnt_inc, in_data, buf_bytes, usb_ctl_req.init]

/-- C36: for GET_STATUS, CLEAR_FEATURE and SET_FEATURE to an endpoint the
outcome depends on w_index only through its bits 0-3 (endpoint number) and
bit 7 (direction), the mask 0x8F: for every two setup packets that are equal
except in bits 4-6 and 8-15 of w_index, and the same state, the result, the
data served, the two counters and the driver state after the dispatch, the
halt or un-halt request made included, are the same. -/
theorem C36_endpoint_index_bits (c : sysconf) (sp sp' : usb_stp_pkt) (s : jig_state)
    (hr : sp.b_request = USB_GET_STATUS ∨ sp.b_request = USB_CLEAR_FEATURE ∨
      sp.b_request = USB_SET_FEATURE)
    (hd : sp.bm_request_type &&& 0x1F = USB_ENDP_RECIPIENT)
    (ht : sp'.bm_request_type = sp.bm_request_type) (hb : sp'.b_request = sp.b_request)
    (hv : sp'.w_value = sp.w_value) (hl : sp'.w_length = sp.w_length)
    (hx : sp'.w_index &&& 0x8F = sp.w_index &&& 0x8F) :
    (std_stp c sp' s).1 = (std_stp c sp s).1 ∧
    (std_stp c sp' s).2.stats = (std_stp c sp s).2.stats ∧
    (std_stp c sp' s).2.udp = (std_stp c sp s).2.udp ∧
    (std_stp c sp' s).2.udp.calls = (std_stp c sp s).2.udp.calls ∧
    in_data c (std_stp c sp' s).2 (std_stp c sp' s).1
      = in_data c (std_stp c sp s).2 (std_stp c sp s).1 := by
  have hd' : sp'.bm_request_type &&& 0x1F = USB_ENDP_RECIPIENT := by rw [ht]; exact hd
  rcases hr with hr | hr
  · rw [std_stp_get_endp_stat c sp s hr hd, std_stp_get_endp_stat c sp' s (hb.trans hr) hd']
    have h := std_get_endp_stat_bits c sp sp' s hv hl hx
    exact ⟨h.1, h.2.1, h.2.2.1, by rw [h.2.2.1], h.2.2.2⟩
  · have hr' : sp'.b_request = USB_CLEAR_FEATURE ∨ sp'.b_request = USB_SET_FEATURE := by
      rw [hb]; exact hr
    rw [std_stp_clr_set_endp_feat c sp s hr hd, std_stp_clr_set_endp_feat c sp' s hr' hd']
    have h := std_clr_set_endp_feat_bits c sp sp' s hb hv hl hx
    exact ⟨h.1, h.2.1, h.2.2.1, by rw [h.2.2.1], h.2.2.2⟩

/-- C36, witness: SET_FEATURE(ENDPOINT_HALT) with w_index 0x0081 and with
w_index 0xFFF1, which differ only in bits 4-6 and 8-15, both halt endpoint 1. -/
theorem C36_endpoint_index_bits_witness :
    (std_stp sysconf_keyb ⟨0x02, 3, 0, 0xFFF1, 0⟩ (jig_state_of udp_configured 0 0)).2.udp.calls
      = (std_stp sysconf_keyb ⟨0x02, 3, 0, 0x0081, 0⟩
          (jig_state_of udp_configured 0 0)).2.udp.calls ∧
    (std_stp sysconf_keyb ⟨0x02, 3, 0, 0x0081, 0⟩ (jig_state_of udp_configured 0 0)).2.udp.calls
      = [udp_call.halt_udp_endp 1] :=
  ⟨(C36_endpoint_index_bits sysconf_keyb ⟨0x02, 3, 0, 0x0081, 0⟩ ⟨0x02, 3, 0, 0xFFF1, 0⟩
    (jig_state_of udp_configured 0 0) (by decide) (by decide) (by decide) (by decide)
    (by decide) (by decide) (by decide)).2.2.2.1, by decide⟩


/-! ## C4: the SET_CONFIGURATION round trip on reachable states -/

theorem jig_call_run_unconf (c : sysconf) (k : jig_call) (s : jig_state)
    (h : s.udp.state ≠ udp_state.UDP_STATE_CONFIGURED →
      ∀ n ∈ catalog_eps c, s.udp.enabled n = false) :
    (k.run c s).udp.state ≠ udp_state.UDP_STATE_CONFIGURED →
      ∀ n ∈ catalog_eps c, (k.run c s).udp.enabled n = false := by
  have same : ∀ u : udp, u.state = s.udp.state → u.enabled = s.udp.enabled →
      u.state ≠ udp_state.UDP_STATE_CONFIGURED → ∀ n ∈ catalog_eps c, u.enabled n = false := by
    intro u hs he hn n hm
    rw [he]; exact h (by rw [← hs]; exact hn) n hm
  cases k with
  | setup_std sp =>
    by_cases hc : sp.b_request = USB_SET_CONFIGURATION ∧
        sp.bm_request_type &&& 0x1F = USB_DEVICE_RECIPIENT
    · simp only [jig_call.run]
      rw [std_stp_set_conf c sp s hc.1 hc.2]
      unfold std_set_conf
      simp only [get_udp_state, if_log_stp_udp]
      split_ifs with h1 h2 h3 h4 h5
      · exact same _ (by simp) (by simp)
      · exact same _ (by simp) (by simp)
      · intro hn; exact absurd (by simp [on_udp, set_udp_confg]) hn
      · intro _ n hm
        have e := set_conf_disable_all_enabled c s.udp n
        simp only [on_udp, if_log_stp_udp, set_udp_confg]
        rw [e]; simp [hm]
      · intro hn
        have e := (foldl_un_halt_udp (find_usb_endp_desc (conf_descs c)) s.udp).1
        exact absurd (by simp only [on_udp, if_log_stp_udp, set_conf_un_halt_enabled]; rw [e]; exact h5.1)
          hn
      · exact same _ (by simp) (by simp)
    · have hk := std_stp_keeps_conf c sp s hc
      exact same _ hk.1 hk.2.1
  | setup_cls sp => exact same _ (by simp only [jig_call.run, cls_stp_udp]) (by
      simp only [jig_call.run, cls_stp_udp])
  | setup_vnd sp => exact same _ rfl rfl
  | in_ack_std =>
    have e : (std_in_req_ack_clbk c s).udp = s.udp := by
      unfold std_in_req_ack_clbk; simp only []; split_ifs <;> simp
    exact same _ (by simp only [jig_call.run, e]) (by simp only [jig_call.run, e])
  | out_rec_std => exact same _ rfl rfl
  | out_ack_std =>
    have e : (std_out_req_ack_clbk c s).udp.state = s.udp.state ∧
        (std_out_req_ack_clbk c s).udp.enabled = s.udp.enabled := by
      unfold std_out_req_ack_clbk; simp only []; split_ifs <;> simp [on_udp, set_udp_addr]
    exact same _ e.1 e.2
  | in_ack_cls =>
    have e : (cls_in_req_ack_clbk c s).udp = s.udp := by
      unfold cls_in_req_ack_clbk; simp only []; split_ifs <;> simp
    exact same _ (by simp only [jig_call.run, e]) (by simp only [jig_call.run, e])
  | out_rec_cls =>
    have e : (cls_out_req_rec_clbk c s).2.udp = s.udp := by
      unfold cls_out_req_rec_clbk xQueueSendFromISR_led; split_ifs <;> rfl
    exact same _ (by simp only [jig_call.run, e]) (by simp only [jig_call.run, e])
  | out_ack_cls =>
    have e : (cls_out_req_ack_clbk c s).udp = s.udp := by
      unfold cls_out_req_ack_clbk; simp only []; split_ifs <;> simp
    exact same _ (by simp only [jig_call.run, e]) (by simp only [jig_call.run, e])
  | in_ack_vnd => exact same _ rfl rfl
  | out_rec_vnd => exact same _ rfl rfl
  | out_ack_vnd => exact same _ rfl rfl

theorem run_calls_unconf (c : sysconf) (l : List jig_call) (s : jig_state)
    (h : s.udp.state ≠ udp_state.UDP_STATE_CONFIGURED →
      ∀ n ∈ catalog_eps c, s.udp.enabled n = false) :
    (run_calls c l s).udp.state ≠ udp_state.UDP_STATE_CONFIGURED →
      ∀ n ∈ catalog_eps c, (run_calls c l s).udp.enabled n = false := by
  induction l generalizing s with
  | nil => exact h
  | cons k l ih => exact ih (k.run c s) (jig_call_run_unconf c k s h)

/-- In a reachable state no catalog endpoint is enabled unless the device is
Configured. -/
theorem reachable_unconf (c : sysconf) (s : jig_state) (hr : reachable c s)
    (hn : s.udp.state ≠ udp_state.UDP_STATE_CONFIGURED) :
    ∀ n ∈ catalog_eps c, s.udp.enabled n = false := by
  obtain ⟨s0, l, h0, e⟩ := hr
  subst e
  exact run_calls_unconf c l s0 (fun _ => h0.2) hn

/-- C4: the round trip over the driver model.  In every reachable state in
which the device is Addressed, SET_CONFIGURATION with w_value=1, w_index=0,
w_length=0 is valid, enables every endpoint of the catalog (each endpoint
descriptor of conf_descs, by its number b_endpoint_address & 0x0F) and sets
the state to Configured; a following SET_CONFIGURATION with w_value=0 is
valid, disables every catalog endpoint and returns the state to Addressed, so
the enabled-endpoint set and the state are the same as before the first
request. -/
theorem C4_set_conf_round_trip (c : sysconf) (sp1 sp0 : usb_stp_pkt) (s : jig_state)
    (r1 r2 : usb_ctl_req × jig_state)
    (hs : reachable c s)
    (hr1 : sp1.b_request = USB_SET_CONFIGURATION)
    (hd1 : sp1.bm_request_type &&& 0x1F = USB_DEVICE_RECIPIENT)
    (hv1 : sp1.w_value = 1) (hi1 : sp1.w_index = 0) (hl1 : sp1.w_length = 0)
    (hr0 : sp0.b_request = USB_SET_CONFIGURATION)
    (hd0 : sp0.bm_request_type &&& 0x1F = USB_DEVICE_RECIPIENT)
    (hv0 : sp0.w_value = 0) (hi0 : sp0.w_index = 0) (hl0 : sp0.w_length = 0)
    (ha : s.udp.state = udp_state.UDP_STATE_ADDRESSED)
    (e1 : r1 = std_stp c sp1 s) (e2 : r2 = std_stp c sp0 r1.2) :
    r1.1.valid = true ∧
    r1.2.udp.state = udp_state.UDP_STATE_CONFIGURED ∧
    (∀ ed ∈ find_usb_endp_desc (conf_descs c),
      r1.2.udp.enabled (ed.b_endpoint_address &&& 0x0F) = true) ∧
    r2.1.valid = true ∧
    r2.2.udp.state = udp_state.UDP_STATE_ADDRESSED ∧
    (∀ ed ∈ find_usb_endp_desc (conf_descs c),
      r2.2.udp.enabled (ed.b_endpoint_address &&& 0x0F) = false) ∧
    r2.2.udp.state = s.udp.state ∧
    r2.2.udp.enabled = s.udp.enabled := by
  have h := set_conf_round_trip_enabled c sp1 sp0 s r1 r2 hr1 hd1 hv1 hi1 hl1 hr0 hd0 hv0 hi0 hl0
    ha e1 e2
  have hn : s.udp.state ≠ udp_state.UDP_STATE_CONFIGURED := by rw [ha]; decide
  exact ⟨h.1, h.2.1, h.2.2.1, h.2.2.2.1, h.2.2.2.2.1, h.2.2.2.2.2.1, h.2.2.2.2.2.2.1,
    h.2.2.2.2.2.2.2.2 (reachable_unconf c s hs hn)⟩

/-- C4, witness: the keyboard build, Addressed with only the control endpoint
enabled, after a first configuration and de-configuration with their status
stages; the round trip enables endpoints 1 and 2 in between and restores the
enabled-endpoint set. -/
theorem C4_set_conf_round_trip_witness :
    (std_stp sysconf_keyb ⟨0x00, 9, 1, 0, 0⟩
      (run_calls sysconf_keyb
        [jig_call.setup_std ⟨0x00, 9, 1, 0, 0⟩, jig_call.out_ack_std,
         jig_call.setup_std ⟨0x00, 9, 0, 0, 0⟩, jig_call.out_ack_std]
        (jig_state_of udp_addressed 0 0))).2.udp.state = udp_state.UDP_STATE_CONFIGURED ∧
    (std_stp sysconf_keyb ⟨0x00, 9, 0, 0, 0⟩
      (std_stp sysconf_keyb ⟨0x00, 9, 1, 0, 0⟩
        (run_calls sysconf_keyb
          [jig_call.setup_std ⟨0x00, 9, 1, 0, 0⟩, jig_call.out_ack_std,
           jig_call.setup_std ⟨0x00, 9, 0, 0, 0⟩, jig_call.out_ack_std]
          (jig_state_of udp_addressed 0 0))).2).2.udp.enabled
      = (run_calls sysconf_keyb
          [jig_call.setup_std ⟨0x00, 9, 1, 0, 0⟩, jig_call.out_ack_std,
           jig_call.setup_std ⟨0x00, 9, 0, 0, 0⟩, jig_call.out_ack_std]
          (jig_state_of udp_addressed 0 0)).udp.enabled :=
  have h := C4_set_conf_round_trip sysconf_keyb ⟨0x00, 9, 1, 0, 0⟩ ⟨0x00, 9, 0, 0, 0⟩
    (run_calls sysconf_keyb
      [jig_call.setup_std ⟨0x00, 9, 1, 0, 0⟩, jig_call.out_ack_std,
       jig_call.setup_std ⟨0x00, 9, 0, 0, 0⟩, jig_call.out_ack_std]
      (jig_state_of udp_addressed 0 0)) _ _
    ⟨jig_state_of udp_addressed 0 0, _, by decide, rfl⟩
    (by decide) (by decide) (by decide) (by decide) (by decide)
    (by decide) (by decide) (by decide) (by decide) (by decide) (by decide) rfl rfl
  ⟨h.2.1, h.2.2.2.2.2.2.2⟩

end UsbJiggler
